import Mathlib

/-! HAMOOPI combat core: a shallow embedding of `src/hamoopi_core.cpp`.

The definitions below follow the C++ source function by function and keep its
names.  Conventions of the embedding:

* C `float` fields (positions, velocities, box coordinates) are exact rationals
  `ℚ`; C `int` fields are `Int` (no counter of the fight logic gets anywhere near
  the 32-bit range in the properties stated here); C `bool` is `Bool`.
* The global arrays `players[2]`, `projectiles[MAX_PROJECTILES]` and the
  function-static attack cooldowns are fields of an explicit `Game` state.
* The Allegro `key[]` entries read by the fight logic are a record of `Bool`s
  per player (`Keys`): the source only tests them for being non-zero.
* Drawing and the sound queue (`play_sound`, `draw_*`, `textout_*`) never feed
  back into the fight state and are left out.
-/

namespace Hamoopi

/-! ## Data model -/

/-- World-space axis-aligned box, `CollisionBox` of the source. -/
structure CollisionBox where
  x : ℚ
  y : ℚ
  w : ℚ
  h : ℚ
deriving DecidableEq, Repr

/-- One entry of a character's collision table, `CollisionBoxConfig` of the
source.  The fixed arrays `hurtboxes[10]` / `hitboxes[10]` are given by index. -/
structure CollisionBoxConfig where
  state_id : Int
  frame : Int
  hurtboxes : Nat → CollisionBox
  hurtbox_count : Int
  hitboxes : Nat → CollisionBox
  hitbox_count : Int

/-- The part of `CharacterConfig` the fight logic reads: the collision table
`collision_boxes[100]` (by index), its fill count and the `loaded` flag. -/
structure CharacterConfig where
  collision_boxes : Nat → CollisionBoxConfig
  collision_box_count : Int
  loaded : Bool

/-- The global `character_configs[4]`, by index. -/
abbrev Configs := Nat → CharacterConfig

/-- The `Player` struct of the source. -/
structure Player where
  x : ℚ
  y : ℚ
  vx : ℚ
  vy : ℚ
  health : Int
  state : Int
  anim_frame : Int
  anim_timer : Int
  facing : Int
  on_ground : Bool
  character_id : Int
  is_blocking : Bool
  is_crouching : Bool
  special_move_cooldown : Int
  is_dashing : Bool
  dash_timer : Int
  attack_frame : Int
deriving DecidableEq, Repr

/-- The `Projectile` struct of the source. -/
structure Projectile where
  active : Bool
  x : ℚ
  y : ℚ
  vx : ℚ
  vy : ℚ
  owner : Int
  type : Int
  lifetime : Int
  hitbox : CollisionBox
deriving DecidableEq, Repr

/-- The logical buttons one player's update reads from `key[]`:
`up/down/left/right`, `bt1` (attack), `bt2` (block), `bt3` (special). -/
structure Keys where
  up : Bool
  down : Bool
  left : Bool
  right : Bool
  bt1 : Bool
  bt2 : Bool
  bt3 : Bool
deriving DecidableEq, Repr

/-- The mutable globals of the fight: `players[0]`, `players[1]`, the
projectile pool, `game_mode`, the round bookkeeping and the two function-static
attack cooldowns of `hamoopi_run_frame`. -/
structure Game where
  p1 : Player
  p2 : Player
  projectiles : List Projectile
  game_mode : Int
  p1_rounds_won : Int
  p2_rounds_won : Int
  current_round : Int
  round_transition_timer : Int
  p1_attack_cooldown : Int
  p2_attack_cooldown : Int
deriving DecidableEq, Repr

/-! ## Constants -/

def MAX_PROJECTILES : Nat := 4
def NORMAL_DAMAGE : Int := 5
def BLOCKED_DAMAGE : Int := 1
def BLOCKING_SPEED_MULTIPLIER : ℚ := 1 / 2
def SPECIAL_MOVE_COOLDOWN : Int := 180
def FIRE_PROJECTILE_DAMAGE : Int := 10
def WATER_HEAL_AMOUNT : Int := 15
def EARTH_STOMP_DAMAGE : Int := 12
def EARTH_STOMP_RANGE : ℚ := 80
def WIND_DASH_DAMAGE : Int := 8
def WIND_DASH_SPEED : ℚ := 12
def WIND_DASH_DURATION : Int := 15
def WIND_DASH_HIT_RANGE : ℚ := 50

/-! ## Collision geometry and configuration lookup -/

/-- Linear search of `find_collision_box_config`: `none` is the source's `NULL`. -/
def find_collision_box_config (character_configs : Configs)
    (char_id state_id frame : Int) : Option CollisionBoxConfig :=
  if char_id < 0 ∨ char_id ≥ 4 ∨ (character_configs char_id.toNat).loaded = false then
    none
  else
    let config := character_configs char_id.toNat
    ((List.range config.collision_box_count.toNat).find?
      (fun i => decide ((config.collision_boxes i).state_id = state_id ∧
                        (config.collision_boxes i).frame = frame))).map config.collision_boxes

/-- Body box used for pushing, `get_body_box`. -/
def get_body_box (p : Player) : CollisionBox :=
  { x := p.x - 15, y := p.y - 40, w := 30, h := 40 }

/-- Animation state id that `get_hurtbox` looks up. -/
def hurtbox_state_id (p : Player) : Int :=
  if p.state = 1 then (if p.facing > 0 then 420 else 410)
  else if p.state = 2 then 300
  else if p.state = 3 then 151
  else if p.state = 5 then 200
  else if p.state = 6 then 201
  else if p.is_blocking = true ∧ p.is_crouching = true then 208
  else 0

/-- A configured box placed at the player, mirrored when facing left. -/
def place_ini_box (p : Player) (ini_box : CollisionBox) : CollisionBox :=
  if p.facing > 0 then
    { x := p.x + ini_box.x, y := p.y + ini_box.y, w := ini_box.w, h := ini_box.h }
  else
    { x := p.x - ini_box.x - ini_box.w, y := p.y + ini_box.y, w := ini_box.w, h := ini_box.h }

/-- Hardcoded fallback of `get_hurtbox` (the part after the configuration lookup). -/
def hurtbox_fallback (p : Player) : CollisionBox :=
  if p.is_crouching = true then { x := p.x - 12, y := p.y - 19, w := 24, h := 19 }
  else if p.is_blocking = true then { x := p.x - 10, y := p.y - 35, w := 20, h := 35 }
  else { x := p.x - 12, y := p.y - 38, w := 24, h := 38 }

/-- Vulnerable area, `get_hurtbox`. -/
def get_hurtbox (cfg : Configs) (p : Player) : CollisionBox :=
  match find_collision_box_config cfg p.character_id (hurtbox_state_id p) p.anim_frame with
  | some config =>
    if config.hurtbox_count > 0 then place_ini_box p (config.hurtboxes 0)
    else hurtbox_fallback p
  | none => hurtbox_fallback p

/-- Hardcoded fallback of `get_hitbox` (the part after the configuration lookup). -/
def hitbox_fallback (p : Player) : CollisionBox :=
  if p.state = 3 ∧ p.attack_frame ≥ 2 ∧ p.attack_frame ≤ 6 then
    (if p.facing > 0 then { x := p.x + 10, y := p.y - 30, w := 35, h := 20 }
     else { x := p.x - 45, y := p.y - 30, w := 35, h := 20 })
  else if p.state = 6 ∧ p.attack_frame ≥ 2 ∧ p.attack_frame ≤ 6 then
    (if p.facing > 0 then { x := p.x + 10, y := p.y - 15, w := 35, h := 15 }
     else { x := p.x - 45, y := p.y - 15, w := 35, h := 15 })
  else { x := p.x, y := p.y, w := 0, h := 0 }

/-- Attacking area, `get_hitbox`. -/
def get_hitbox (cfg : Configs) (p : Player) : CollisionBox :=
  if p.state ≠ 3 ∧ p.state ≠ 6 then { x := p.x, y := p.y, w := 0, h := 0 }
  else
    match find_collision_box_config cfg p.character_id (if p.state = 3 then 151 else 201)
        p.anim_frame with
    | some config =>
      if config.hitbox_count > 0 ∧ p.attack_frame ≥ 2 ∧ p.attack_frame ≤ 6 then
        place_ini_box p (config.hitboxes 0)
      else hitbox_fallback p
    | none => hitbox_fallback p

/-- Clash / priority box, `get_clash_box`. -/
def get_clash_box (p : Player) : CollisionBox :=
  if p.state = 3 ∧ p.attack_frame ≥ 1 ∧ p.attack_frame ≤ 7 then
    (if p.facing > 0 then { x := p.x, y := p.y - 30, w := 45, h := 25 }
     else { x := p.x - 45, y := p.y - 30, w := 45, h := 25 })
  else { x := p.x, y := p.y, w := 0, h := 0 }

/-- Box collision detection, `boxes_overlap`. -/
def boxes_overlap (a b : CollisionBox) : Bool :=
  decide (a.x < b.x + b.w ∧ a.x + a.w > b.x ∧ a.y < b.y + b.h ∧ a.y + a.h > b.y)

/-! ## Projectiles and special moves -/

/-- The slot contents written by `spawn_projectile`. -/
def new_projectile (owner type : Int) (x y vx vy : ℚ) : Projectile :=
  { active := true, owner := owner, type := type, x := x, y := y, vx := vx, vy := vy,
    lifetime := 180, hitbox := { x := x - 15, y := y - 15, w := 30, h := 30 } }

/-- The scan of `spawn_projectile` over the pool, from the lowest index up, stopping
(`break`) at the first inactive slot. -/
def spawn_projectile (owner type : Int) (x y vx vy : ℚ) :
    List Projectile → List Projectile
  | [] => []
  | p :: ps =>
    if p.active = false then new_projectile owner type x y vx vy :: ps
    else p :: spawn_projectile owner type x y vx vy ps

/-- The hit test of `update_projectiles` against the target player (source lines
929-946): the damaged target and the projectile, switched off on a hit. -/
def projectile_hit (cfg : Configs) (target : Player) (pr : Projectile) :
    Player × Projectile :=
  if boxes_overlap pr.hitbox (get_hurtbox cfg target) = true ∧ target.health > 0 then
    let t1 : Player :=
      if target.is_blocking = true then { target with health := target.health - BLOCKED_DAMAGE }
      else { target with health := target.health - FIRE_PROJECTILE_DAMAGE }
    let t2 : Player := if t1.health < 0 then { t1 with health := 0 } else t1
    (t2, { pr with active := false })
  else (target, pr)

/-- One iteration of the loop of `update_projectiles`, on `players[0]`, `players[1]`
and the slot. -/
def update_projectile (cfg : Configs) (p1 p2 : Player) (pr : Projectile) :
    Player × Player × Projectile :=
  if pr.active = false then (p1, p2, pr)
  else
    let m : Projectile :=
      { pr with x := pr.x + pr.vx, y := pr.y + pr.vy, lifetime := pr.lifetime - 1,
                hitbox := { pr.hitbox with x := pr.x + pr.vx - 15, y := pr.y + pr.vy - 15 } }
    if m.x < 0 ∨ m.x > 640 ∨ m.y < 0 ∨ m.y > 480 ∨ m.lifetime ≤ 0 then
      (p1, p2, { m with active := false })
    else if m.owner = 0 then
      ((p1, (projectile_hit cfg p2 m).1, (projectile_hit cfg p2 m).2))
    else
      (((projectile_hit cfg p1 m).1, p2, (projectile_hit cfg p1 m).2))

/-- The loop of `update_projectiles` over the pool, slot by slot from index 0. -/
def update_projectiles (cfg : Configs) (p1 p2 : Player) :
    List Projectile → Player × Player × List Projectile
  | [] => (p1, p2, [])
  | pr :: rest =>
    let r := update_projectile cfg p1 p2 pr
    let rs := update_projectiles cfg r.1 r.2.1 rest
    (rs.1, rs.2.1, r.2.2 :: rs.2.2)

/-- Round-start values written by `init_player`; `character_id` is kept. -/
def init_player (p : Player) (player_num : Int) : Player :=
  { p with
    x := if player_num = 0 then 150 else 490
    y := 350
    vx := 0
    vy := 0
    health := 100
    state := 0
    anim_frame := 0
    anim_timer := 0
    facing := if player_num = 0 then 1 else -1
    on_ground := true
    is_blocking := false
    is_crouching := false
    special_move_cooldown := 0
    is_dashing := false
    dash_timer := 0
    attack_frame := 0 }

/-- The working set of one player's update: the updated player, the opponent, the
player's attack cooldown and the projectile pool. -/
structure Duel where
  self : Player
  opp : Player
  cooldown : Int
  pool : List Projectile
deriving DecidableEq, Repr

/-- The immediate damage shared by the stomp and dash branches of
`execute_special_move`: subtract, then clamp at 0. -/
def special_damage (opponent : Player) (damage : Int) : Player :=
  let o1 : Player :=
    if opponent.is_blocking = true then { opponent with health := opponent.health - BLOCKED_DAMAGE }
    else { opponent with health := opponent.health - damage }
  if o1.health < 0 then { o1 with health := 0 } else o1

/-- Special move dispatch by character, `execute_special_move`. -/
def execute_special_move (d : Duel) (player_num : Int) : Duel :=
  let d1 : Duel :=
    if d.self.character_id = 0 then
      { d with pool := spawn_projectile player_num 0 (d.self.x + 30 * (d.self.facing : ℚ))
                          d.self.y (8 * (d.self.facing : ℚ)) 0 d.pool }
    else if d.self.character_id = 1 then
      let h := d.self.health + WATER_HEAL_AMOUNT
      { d with self := { d.self with health := if h > 100 then 100 else h } }
    else if d.self.character_id = 2 then
      if |d.self.x - d.opp.x| < EARTH_STOMP_RANGE ∧ d.opp.on_ground = true ∧ d.opp.health > 0 then
        { d with opp := special_damage d.opp EARTH_STOMP_DAMAGE }
      else d
    else if d.self.character_id = 3 then
      let s : Player := { d.self with is_dashing := true, dash_timer := WIND_DASH_DURATION }
      if |s.x - d.opp.x| < WIND_DASH_HIT_RANGE ∧ d.opp.health > 0 then
        { d with self := s, opp := special_damage d.opp WIND_DASH_DAMAGE }
      else { d with self := s }
    else d
  { d1 with self := { d1.self with special_move_cooldown := SPECIAL_MOVE_COOLDOWN } }

/-! ## One player's update inside `hamoopi_run_frame`

The source has two textually parallel copies of this block (Player 1: lines
2088-2223, Player 2: lines 2230-2363); they differ only in which of `players[0]`,
`players[1]` is updated, which cooldown and keys are used, and in the player index
passed to `execute_special_move`.  The block is embedded once, on a `Duel`. -/

/-- Crouch and block flags, horizontal movement and jump (Player 1: lines
2090-2123). -/
def move_input (k : Keys) (p : Player) : Player :=
  let a : Player := { p with is_crouching := k.down && p.on_ground }
  let b : Player := { a with is_blocking := k.bt2 }
  let c : Player :=
    if b.is_crouching = false then
      let speed_multiplier : ℚ := if b.is_blocking = true then BLOCKING_SPEED_MULTIPLIER else 1
      if k.left = true then { b with vx := -3 * speed_multiplier, facing := -1 }
      else if k.right = true then { b with vx := 3 * speed_multiplier, facing := 1 }
      else { b with vx := b.vx * (4 / 5) }
    else { b with vx := b.vx * (4 / 5) }
  if k.up = true ∧ c.on_ground = true ∧ c.is_blocking = false ∧ c.is_crouching = false then
    { c with vy := -12, on_ground := false }
  else c

/-- The input part of a player's block: `move_input`, then the attack trigger with
its cooldown (Player 1: lines 2125-2139). -/
def read_input (k : Keys) (d : Duel) : Duel :=
  let j : Player := move_input k d.self
  if k.bt1 = true ∧ d.cooldown = 0 ∧ j.is_blocking = false then
    { d with self := { j with state := if j.is_crouching = true then 6 else 3, attack_frame := 0 },
             cooldown := 15 }
  else { d with self := j }

/-- The damage of a landed melee hit: subtract, then clamp at 0 (lines 2166-2177). -/
def melee_damage (defender : Player) : Player :=
  if defender.is_blocking = true then
    let h := defender.health - BLOCKED_DAMAGE
    { defender with health := if h < 0 then 0 else h }
  else
    let h := defender.health - NORMAL_DAMAGE
    { defender with health := if h < 0 then 0 else h }

/-- Attack animation advance and hit check (Player 1: lines 2141-2182). -/
def attack_step (cfg : Configs) (d : Duel) : Duel :=
  if d.self.state = 3 ∨ d.self.state = 6 then
    let a : Player := { d.self with attack_frame := d.self.attack_frame + 1 }
    let b : Player := if a.attack_frame ≥ 10 then { a with state := 0, attack_frame := 0 } else a
    if b.attack_frame ≥ 2 ∧ b.attack_frame ≤ 6 then
      if d.opp.health > 0 then
        if boxes_overlap (get_hitbox cfg b) (get_hurtbox cfg d.opp) = true then
          if b.attack_frame = 2 then { d with self := b, opp := melee_damage d.opp }
          else { d with self := b }
        else { d with self := b }
      else { d with self := b }
    else { d with self := b }
  else d

/-- Special cooldown tick, dash handling and special trigger (Player 1: lines
2184-2205). -/
def special_step (k : Keys) (player_num : Int) (d : Duel) : Duel :=
  let a : Player :=
    if d.self.special_move_cooldown > 0 then
      { d.self with special_move_cooldown := d.self.special_move_cooldown - 1 }
    else d.self
  let b : Player :=
    if a.is_dashing = true then
      let t : Player := { a with dash_timer := a.dash_timer - 1,
                                 vx := WIND_DASH_SPEED * (a.facing : ℚ) }
      if t.dash_timer ≤ 0 then { t with is_dashing := false } else t
    else a
  if k.bt3 = true ∧ b.special_move_cooldown = 0 ∧ b.is_blocking = false then
    execute_special_move { d with self := b } player_num
  else { d with self := b }

/-- Gravity, integration, ground clamp and boundary check (Player 1: lines 2207-2222). -/
def physics_step (p : Player) : Player :=
  let a : Player := { p with vy := p.vy + 1 / 2 }
  let b : Player := { a with x := a.x + a.vx }
  let c : Player := { b with y := b.y + b.vy }
  let g : Player := if c.y ≥ 350 then { c with y := 350, vy := 0, on_ground := true } else c
  let l : Player := if g.x < 20 then { g with x := 20 } else g
  if l.x > 620 then { l with x := 620 } else l

/-- The whole gated block of a living player, in source order. -/
def player_update (cfg : Configs) (k : Keys) (player_num : Int) (d : Duel) : Duel :=
  let s := special_step k player_num (attack_step cfg (read_input k d))
  { s with self := physics_step s.self }

/-- The unconditional cooldown tick that precedes each player's block
(lines 2086 and 2228). -/
def tick_cooldown (c : Int) : Int := if c > 0 then c - 1 else c

/-- Player 1's part of the fight tick (lines 2083-2223). -/
def update_p1 (cfg : Configs) (k : Keys) (g : Game) : Game :=
  let cd := tick_cooldown g.p1_attack_cooldown
  if g.p1.health > 0 then
    let d := player_update cfg k 0
      { self := g.p1, opp := g.p2, cooldown := cd, pool := g.projectiles }
    { g with p1 := d.self, p2 := d.opp, p1_attack_cooldown := d.cooldown,
             projectiles := d.pool }
  else { g with p1_attack_cooldown := cd }

/-- Player 2's part of the fight tick (lines 2225-2363). -/
def update_p2 (cfg : Configs) (k : Keys) (g : Game) : Game :=
  let cd := tick_cooldown g.p2_attack_cooldown
  if g.p2.health > 0 then
    let d := player_update cfg k 1
      { self := g.p2, opp := g.p1, cooldown := cd, pool := g.projectiles }
    { g with p2 := d.self, p1 := d.opp, p2_attack_cooldown := d.cooldown,
             projectiles := d.pool }
  else { g with p2_attack_cooldown := cd }

/-! ## The shared stages of the fight tick -/

/-- Body collision: push the players apart (lines 2365-2382). -/
def body_collision (g : Game) : Game :=
  if boxes_overlap (get_body_box g.p1) (get_body_box g.p2) = true then
    if g.p1.x < g.p2.x then
      { g with p1 := { g.p1 with x := g.p1.x - 2 }, p2 := { g.p2 with x := g.p2.x + 2 } }
    else
      { g with p1 := { g.p1 with x := g.p1.x + 2 }, p2 := { g.p2 with x := g.p2.x - 2 } }
  else g

/-- Animation timer and frame of one player (lines 2385-2398). -/
def update_anim (p : Player) : Player :=
  let a : Player := { p with anim_timer := p.anim_timer + 1 }
  if a.anim_timer ≥ 5 then { a with anim_timer := 0, anim_frame := a.anim_frame + 1 } else a

/-- Movement-derived state of one player (lines 2401-2422). -/
def derive_state (p : Player) : Player :=
  if p.health > 0 then
    if p.state ≠ 3 ∧ p.state ≠ 6 ∧ p.is_blocking = false then
      if p.on_ground = false then { p with state := 2 }
      else if p.is_crouching = true then { p with state := 5 }
      else if |p.vx| > 1 / 2 then { p with state := 1 }
      else { p with state := 0 }
    else p
  else p

/-- Attack clashing (lines 2447-2466). -/
def attack_clash (g : Game) : Game :=
  if (g.p1.state = 3 ∨ g.p1.state = 6) ∧ (g.p2.state = 3 ∨ g.p2.state = 6) then
    if boxes_overlap (get_clash_box g.p1) (get_clash_box g.p2) = true ∧
        (get_clash_box g.p1).w > 0 ∧ (get_clash_box g.p2).w > 0 then
      { g with
        p1 := { g.p1 with state := 0, attack_frame := 0, vx := -4 * (g.p1.facing : ℚ) }
        p2 := { g.p2 with state := 0, attack_frame := 0, vx := -4 * (g.p2.facing : ℚ) } }
    else g
  else g

/-- The call `update_projectiles()` of the tick, on the game state (line 2469). -/
def projectile_stage (cfg : Configs) (g : Game) : Game :=
  let r := update_projectiles cfg g.p1 g.p2 g.projectiles
  { g with p1 := r.1, p2 := r.2.1, projectiles := r.2.2 }

/-- Round winner check and round transition (lines 2527-2577). -/
def round_controller (g : Game) : Game :=
  if g.round_transition_timer > 0 then
    let t := g.round_transition_timer - 1
    if t = 0 then
      if g.p1_rounds_won ≥ 2 ∨ g.p2_rounds_won ≥ 2 then
        { g with round_transition_timer := t, game_mode := 3 }
      else
        { g with
          round_transition_timer := t
          current_round := g.current_round + 1
          p1 := { init_player g.p1 0 with character_id := g.p1.character_id }
          p2 := { init_player g.p2 1 with character_id := g.p2.character_id } }
    else { g with round_transition_timer := t }
  else if g.p1.health ≤ 0 ∨ g.p2.health ≤ 0 then
    if g.p1.health ≤ 0 then
      { g with p2_rounds_won := g.p2_rounds_won + 1, round_transition_timer := 120 }
    else
      { g with p1_rounds_won := g.p1_rounds_won + 1, round_transition_timer := 120 }
  else g

/-- The keys of both players for one tick. -/
structure Input where
  p1 : Keys
  p2 : Keys
deriving DecidableEq, Repr

/-- Body collision, animation timers and state derivation of both players
(lines 2365-2445), in source order. -/
def settle_stage (g : Game) : Game :=
  let a := body_collision g
  let b : Game := { a with p1 := update_anim a.p1, p2 := update_anim a.p2 }
  { b with p1 := derive_state b.p1, p2 := derive_state b.p2 }

/-- The state of the tick just before the clash check: both player updates, then
body collision, animation timers and state derivation, in source order. -/
def before_clash (cfg : Configs) (i : Input) (g : Game) : Game :=
  settle_stage (update_p2 cfg i.p2 (update_p1 cfg i.p1 g))

/-- One fight tick: the `game_mode == 2` branch of `hamoopi_run_frame`
(lines 2042-2578), in source order. -/
def fight_tick (cfg : Configs) (i : Input) (g : Game) : Game :=
  round_controller (projectile_stage cfg (attack_clash (before_clash cfg i g)))

/-- The fight state after a sequence of inputs, one fight tick per input. -/
def run_ticks (cfg : Configs) (g : Game) : List Input → Game
  | [] => g
  | i :: is => run_ticks cfg (fight_tick cfg i g) is

/-- The state set up when both players are ready (lines 2023-2040): both players
at round-start values with the selected characters and the round bookkeeping
reset.  The projectile pool and the static attack cooldowns are not touched by
that code and keep whatever they held. -/
def match_start (g : Game) (p1_cursor p2_cursor : Int) : Game :=
  { g with
    game_mode := 2
    p1 := { init_player g.p1 0 with character_id := p1_cursor }
    p2 := { init_player g.p2 1 with character_id := p2_cursor }
    p1_rounds_won := 0
    p2_rounds_won := 0
    current_round := 1
    round_transition_timer := 0 }

/-! ## Concrete states used to instantiate the theorems -/

/-- Player 1 at round-start values with character 0. -/
def start_p1 : Player :=
  { x := 150, y := 350, vx := 0, vy := 0, health := 100, state := 0, anim_frame := 0,
    anim_timer := 0, facing := 1, on_ground := true, character_id := 0,
    is_blocking := false, is_crouching := false, special_move_cooldown := 0,
    is_dashing := false, dash_timer := 0, attack_frame := 0 }

/-- Player 2 at round-start values with character 1. -/
def start_p2 : Player :=
  { x := 490, y := 350, vx := 0, vy := 0, health := 100, state := 0, anim_frame := 0,
    anim_timer := 0, facing := -1, on_ground := true, character_id := 1,
    is_blocking := false, is_crouching := false, special_move_cooldown := 0,
    is_dashing := false, dash_timer := 0, attack_frame := 0 }

/-- A projectile slot that is switched off. -/
def idle_projectile : Projectile :=
  { active := false, x := 0, y := 0, vx := 0, vy := 0, owner := 0, type := 0, lifetime := 0,
    hitbox := { x := 0, y := 0, w := 0, h := 0 } }

/-- The pool after `hamoopi_init`: four inactive slots. -/
def empty_pool : List Projectile :=
  [idle_projectile, idle_projectile, idle_projectile, idle_projectile]

/-- A fight state at the start of a match. -/
def start_game : Game :=
  { p1 := start_p1, p2 := start_p2, projectiles := empty_pool, game_mode := 2,
    p1_rounds_won := 0, p2_rounds_won := 0, current_round := 1, round_transition_timer := 0,
    p1_attack_cooldown := 0, p2_attack_cooldown := 0 }

/-- Configuration store in which no character file was loaded. -/
def no_config : Configs := fun _ =>
  { collision_boxes := fun _ =>
      { state_id := 0, frame := 0, hurtboxes := fun _ => { x := 0, y := 0, w := 0, h := 0 },
        hurtbox_count := 0, hitboxes := fun _ => { x := 0, y := 0, w := 0, h := 0 },
        hitbox_count := 0 },
    collision_box_count := 0, loaded := false }

/-- All keys released. -/
def no_keys : Keys :=
  { up := false, down := false, left := false, right := false, bt1 := false, bt2 := false,
    bt3 := false }

/-- Two standing attackers 30 units apart, facing each other, both on attack frame 2. -/
def clash_game : Game :=
  { start_game with
    p1 := { start_p1 with x := 300, state := 3, attack_frame := 2 }
    p2 := { start_p2 with x := 330, state := 3, attack_frame := 2 } }

/-- Player 1 knocked out, Player 2 alive, no transition running. -/
def p1_down_game : Game :=
  { start_game with p1 := { start_p1 with health := 0 }, p2 := { start_p2 with health := 35 } }

/-- The arguments of one call of `spawn_projectile`. -/
structure SpawnRequest where
  owner : Int
  type : Int
  x : ℚ
  y : ℚ
  vx : ℚ
  vy : ℚ
deriving DecidableEq, Repr

/-- Successive calls of `spawn_projectile`, first request first. -/
def spawn_all : List SpawnRequest → List Projectile → List Projectile
  | [], pool => pool
  | r :: rs, pool => spawn_all rs (spawn_projectile r.owner r.type r.x r.y r.vx r.vy pool)

/-- Number of active projectiles in the pool. -/
def active_count (pool : List Projectile) : Nat :=
  pool.countP (fun p => p.active)

/-- A caster with character 3 standing 40 units left of a full-health opponent. -/
def dash_duel : Duel :=
  { self := { start_p1 with x := 300, character_id := 3 }
    opp := { start_p2 with x := 340 }
    cooldown := 0
    pool := empty_pool }

/-- An active projectile of Player 1 about to reach Player 2 at round-start position. -/
def flying_projectile : Projectile :=
  { active := true, x := 470, y := 340, vx := 8, vy := 0, owner := 0, type := 0,
    lifetime := 100, hitbox := { x := 455, y := 325, w := 30, h := 30 } }

/-- Both players' health lies in `[0, 100]`. -/
def health_in_range (p1 p2 : Player) : Prop :=
  (0 ≤ p1.health ∧ p1.health ≤ 100) ∧ (0 ≤ p2.health ∧ p2.health ≤ 100)

instance (p1 p2 : Player) : Decidable (health_in_range p1 p2) := by
  unfold health_in_range
  infer_instance

/-- The player is in Attack (3) or CrouchAttack (6). -/
def attacking (p : Player) : Prop := p.state = 3 ∨ p.state = 6

instance (p : Player) : Decidable (attacking p) := by
  unfold attacking
  infer_instance

/-- The fight state after the first `n` ticks of the input stream `inputs`
(tick `j` reads `inputs j`). -/
def state_after (cfg : Configs) (g : Game) (inputs : Nat → Input) (n : Nat) : Game :=
  run_ticks cfg g ((List.range n).map inputs)

/-- Player 1's attack trigger fires in the tick that starts in `g` with keys `i`
(line 2126, inside the `health > 0` gate). -/
def p1_attack_triggered (i : Input) (g : Game) : Prop :=
  g.p1.health > 0 ∧ i.p1.bt1 = true ∧ tick_cooldown g.p1_attack_cooldown = 0 ∧ i.p1.bt2 = false

instance (i : Input) (g : Game) : Decidable (p1_attack_triggered i g) := by
  unfold p1_attack_triggered
  infer_instance

/-- Player 2's attack trigger fires in the tick that starts in `g` with keys `i`
(line 2268; Player 2 is updated after Player 1). -/
def p2_attack_triggered (cfg : Configs) (i : Input) (g : Game) : Prop :=
  (update_p1 cfg i.p1 g).p2.health > 0 ∧ i.p2.bt1 = true ∧
    tick_cooldown g.p2_attack_cooldown = 0 ∧ i.p2.bt2 = false

instance (cfg : Configs) (i : Input) (g : Game) : Decidable (p2_attack_triggered cfg i g) := by
  unfold p2_attack_triggered
  infer_instance

/-- Player 1's working set at the entry of its attack block (line 2141) in the tick
that starts in `g`. -/
def p1_at_attack_step (i : Input) (g : Game) : Duel :=
  read_input i.p1 { self := g.p1, opp := g.p2, cooldown := tick_cooldown g.p1_attack_cooldown,
                    pool := g.projectiles }

/-- Player 2's working set at the entry of its attack block (line 2283) in the tick
that starts in `g`. -/
def p2_at_attack_step (cfg : Configs) (i : Input) (g : Game) : Duel :=
  read_input i.p2 { self := (update_p1 cfg i.p1 g).p2, opp := (update_p1 cfg i.p1 g).p1,
                    cooldown := tick_cooldown (update_p1 cfg i.p1 g).p2_attack_cooldown,
                    pool := (update_p1 cfg i.p1 g).projectiles }

/-- Health that Player 1's melee hit check (lines 2151-2181) takes from Player 2 in
the tick that starts in `g`; 0 when the block is skipped. -/
def p1_melee_loss (cfg : Configs) (i : Input) (g : Game) : Int :=
  if g.p1.health > 0 then
    (p1_at_attack_step i g).opp.health - (attack_step cfg (p1_at_attack_step i g)).opp.health
  else 0

/-- Health that Player 2's melee hit check (lines 2293-2322) takes from Player 1 in
the tick that starts in `g`; 0 when the block is skipped. -/
def p2_melee_loss (cfg : Configs) (i : Input) (g : Game) : Int :=
  if (update_p1 cfg i.p1 g).p2.health > 0 then
    (p2_at_attack_step cfg i g).opp.health
      - (attack_step cfg (p2_at_attack_step cfg i g)).opp.health
  else 0

/-- Player `q` (later in the tick), if alive and attacking, is player `p` (earlier)
alive with the same state and attack frame. -/
def attack_continues (p q : Player) : Prop :=
  attacking q → q.health > 0 → p.health > 0 ∧ q.state = p.state ∧ q.attack_frame = p.attack_frame

instance (p q : Player) : Decidable (attack_continues p q) := by
  unfold attack_continues
  infer_instance

/-- Player 1 presses attack and nothing else; Player 2 presses nothing. -/
def p1_attack_input : Input :=
  { p1 := { no_keys with bt1 := true }, p2 := no_keys }

/-- Input stream of the sample attack: Player 1 presses attack in tick 0 only. -/
def sample_inputs : Nat → Input :=
  fun n => if n = 0 then p1_attack_input else { p1 := no_keys, p2 := no_keys }

/-- Both players standing 40 units apart and facing each other at a round start. -/
def close_game : Game :=
  { start_game with p1 := { start_p1 with x := 300 }, p2 := { start_p2 with x := 340 } }

/-- The round bookkeeping and both character ids of `s` are those of `g`. -/
def same_control (g s : Game) : Prop :=
  s.game_mode = g.game_mode ∧ s.current_round = g.current_round ∧
  s.round_transition_timer = g.round_transition_timer ∧
  s.p1_rounds_won = g.p1_rounds_won ∧ s.p2_rounds_won = g.p2_rounds_won ∧
  s.p1.character_id = g.p1.character_id ∧ s.p2.character_id = g.p2.character_id

instance (g s : Game) : Decidable (same_control g s) := by
  unfold same_control
  infer_instance

/-- Player 1 just knocked out at score 0-1, the 120-tick transition just started. -/
def transition_game : Game :=
  { start_game with
    p1 := { start_p1 with health := 0 }
    p2_rounds_won := 1
    round_transition_timer := 120 }

/-- 120 ticks in which nobody presses a key. -/
def idle_inputs : List Input := List.replicate 120 { p1 := no_keys, p2 := no_keys }

/-- A collision table with three entries: the key (151, 0) occurs at index 0 and
again at index 2 with other boxes, and the entry at index 1 has no hurtbox. -/
def sample_entries : Nat → CollisionBoxConfig := fun i =>
  if i = 0 then
    { state_id := 151, frame := 0,
      hurtboxes := fun _ => { x := -10, y := -40, w := 20, h := 40 }, hurtbox_count := 1,
      hitboxes := fun _ => { x := 5, y := -30, w := 40, h := 20 }, hitbox_count := 1 }
  else if i = 1 then
    { state_id := 0, frame := 0,
      hurtboxes := fun _ => { x := 0, y := 0, w := 0, h := 0 }, hurtbox_count := 0,
      hitboxes := fun _ => { x := 0, y := 0, w := 0, h := 0 }, hitbox_count := 0 }
  else
    { state_id := 151, frame := 0,
      hurtboxes := fun _ => { x := -20, y := -50, w := 40, h := 50 }, hurtbox_count := 1,
      hitboxes := fun _ => { x := 15, y := -20, w := 60, h := 10 }, hitbox_count := 1 }

/-- Configuration store in which only character 0 is loaded, with `sample_entries`. -/
def sample_config : Configs := fun c =>
  if c = 0 then { collision_boxes := sample_entries, collision_box_count := 3, loaded := true }
  else no_config c

/-- A caster with character 2 standing 60 units left of a grounded full-health
opponent. -/
def stomp_duel : Duel :=
  { self := { start_p1 with x := 300, character_id := 2 }
    opp := { start_p2 with x := 360 }
    cooldown := 0
    pool := empty_pool }

/-- A caster with character 1 at health 90. -/
def heal_duel : Duel :=
  { self := { start_p1 with health := 90, character_id := 1 }
    opp := start_p2
    cooldown := 0
    pool := empty_pool }

/-- One frame of `hamoopi_run_frame` on the fight state while a match is on: the
fight tick in mode 2 (line 2042); on the winner screen (mode 3, line 2579) nothing
of the fight state changes as long as the rematch key is not pressed. -/
def match_frame (cfg : Configs) (i : Input) (g : Game) : Game :=
  if g.game_mode = 2 then fight_tick cfg i g else g

/-- The fight state after a sequence of frames of a match, one per input. -/
def run_frames (cfg : Configs) (g : Game) : List Input → Game
  | [] => g
  | i :: is => run_frames cfg (match_frame cfg i g) is

/-- Controller state "normal play": fight mode, no transition running, both
counters below 2. -/
def normal_play (g : Game) : Prop :=
  g.game_mode = 2 ∧ g.round_transition_timer = 0 ∧ g.p1_rounds_won < 2 ∧ g.p2_rounds_won < 2

instance (g : Game) : Decidable (normal_play g) := by
  unfold normal_play
  infer_instance

/-- Controller state "round transition": fight mode, timer in 1..120. -/
def in_round_transition (g : Game) : Prop :=
  g.game_mode = 2 ∧ 1 ≤ g.round_transition_timer ∧ g.round_transition_timer ≤ 120

instance (g : Game) : Decidable (in_round_transition g) := by
  unfold in_round_transition
  infer_instance

/-- Controller state "match over": mode 3, timer 0, some counter equal to 2. -/
def match_over (g : Game) : Prop :=
  g.game_mode = 3 ∧ g.round_transition_timer = 0 ∧ (g.p1_rounds_won = 2 ∨ g.p2_rounds_won = 2)

instance (g : Game) : Decidable (match_over g) := by
  unfold match_over
  infer_instance

/-- The round bookkeeping is consistent: both counters in 0..2, not both 2, and one
of the three controller states holds. -/
def controller_ok (g : Game) : Prop :=
  (0 ≤ g.p1_rounds_won ∧ g.p1_rounds_won ≤ 2) ∧ (0 ≤ g.p2_rounds_won ∧ g.p2_rounds_won ≤ 2) ∧
  ¬ (g.p1_rounds_won = 2 ∧ g.p2_rounds_won = 2) ∧
  (normal_play g ∨ in_round_transition g ∨ match_over g)

instance (g : Game) : Decidable (controller_ok g) := by
  unfold controller_ok
  infer_instance

/-- The tick in the order the specification states it: both player updates, the
clash check, then body separation (with the animation timers and the state
derivation that follow it in the source), the projectile update and the round
controller. -/
def spec_order_tick (cfg : Configs) (i : Input) (g : Game) : Game :=
  round_controller (projectile_stage cfg (settle_stage (attack_clash
    (update_p2 cfg i.p2 (update_p1 cfg i.p1 g)))))

/-- Both players at `x = 300`, back to back (Player 1 facing left, Player 2 facing
right), both in Attack on attack frame 1. -/
def back_to_back_game : Game :=
  { start_game with
    p1 := { start_p1 with x := 300, facing := -1, state := 3, attack_frame := 1 }
    p2 := { start_p2 with x := 300, facing := 1, state := 3, attack_frame := 1 }
    p1_attack_cooldown := 15
    p2_attack_cooldown := 15 }

/-- Nobody presses a key. -/
def idle_input : Input := { p1 := no_keys, p2 := no_keys }

/-- The fields of a player named by the freeze rule: position, velocity, logical
state, attack frame, facing and the blocking, crouching and dashing flags. -/
def frozen_fields (p : Player) : ℚ × ℚ × ℚ × ℚ × Int × Int × Int × Bool × Bool × Bool :=
  (p.x, p.y, p.vx, p.vy, p.state, p.attack_frame, p.facing, p.is_blocking, p.is_crouching,
   p.is_dashing)

/-- Player `q` is player `p` except possibly for the health. -/
def only_health_differs (p q : Player) : Prop := q = { p with health := q.health }

instance (p q : Player) : Decidable (only_health_differs p q) := by
  unfold only_health_differs
  infer_instance

/-- Player 1 knocked out at `x = 300` during a round transition, Player 2 alive
10 units to the right. -/
def dead_close_game : Game :=
  { start_game with
    p1 := { start_p1 with x := 300, health := 0 }
    p2 := { start_p2 with x := 310 }
    p2_rounds_won := 1
    round_transition_timer := 50 }

/-- Player 1 knocked out at its round-start position during a round transition,
Player 2 alive at its round-start position. -/
def dead_far_game : Game :=
  { start_game with
    p1 := { start_p1 with health := 0 }
    p2_rounds_won := 1
    round_transition_timer := 50 }

/-- Both players knocked out in the same tick, no transition running, score 0-0. -/
def double_ko_game : Game :=
  { start_game with p1 := { start_p1 with health := 0 }, p2 := { start_p2 with health := 0 } }

/-- Both players standing 20 units apart at the same height. -/
def overlapping_game : Game :=
  { start_game with p1 := { start_p1 with x := 300 }, p2 := { start_p2 with x := 320 } }

/-- Player 1 in Attack on attack frame 1 at `x = 300` facing right; Player 2 idle at
`x = 340` facing left with its attack cooldown at 0; both at full health on the
ground. -/
def hit_and_clash_game : Game :=
  { start_game with
    p1 := { start_p1 with x := 300, state := 3, attack_frame := 1 }
    p2 := { start_p2 with x := 340 }
    p1_attack_cooldown := 15
    p2_attack_cooldown := 0 }

/-- Player 2 presses attack and nothing else; Player 1 presses nothing. -/
def p2_attack_input : Input :=
  { p1 := no_keys, p2 := { no_keys with bt1 := true } }

/-- The pool after `n` successive calls of `update_projectiles` with no spawn in
between; call number `k` (counted down from `n - 1`) sees the players `players k`,
whatever the rest of the tick has made of them. -/
def projectile_calls (cfg : Configs) (players : Nat → Player × Player) :
    Nat → List Projectile → List Projectile
  | 0, pool => pool
  | n + 1, pool =>
    projectile_calls cfg players n
      (update_projectiles cfg (players n).1 (players n).2 pool).2.2

/-- An active projectile has between 1 and `n` ticks of lifetime left. -/
def lifetime_within (n : Int) (pr : Projectile) : Prop :=
  pr.active = true → 1 ≤ pr.lifetime ∧ pr.lifetime ≤ n

instance (n : Int) (pr : Projectile) : Decidable (lifetime_within n pr) := by
  unfold lifetime_within
  infer_instance

/-- An active projectile with one tick of lifetime left, well inside the screen. -/
def expiring_projectile : Projectile :=
  { active := true, x := 300, y := 200, vx := 8, vy := 0, owner := 0, type := 0,
    lifetime := 1, hitbox := { x := 285, y := 185, w := 30, h := 30 } }

/-- A caster with character 0 at Player 1's round-start position who has turned
away from the opponent (facing left), the opponent to its right. -/
def fire_away_duel : Duel :=
  { self := { start_p1 with facing := -1, character_id := 0 }
    opp := start_p2
    cooldown := 0
    pool := empty_pool }

/-- The dash flag, the dash timer and the special cooldown of a player. -/
def dash_fields (p : Player) : Bool × Int × Int :=
  (p.is_dashing, p.dash_timer, p.special_move_cooldown)

/-- The round controller starts a new round (and re-initialises both players) in
the tick that starts in `g`: one transition tick left and no player at 2 wins. -/
def round_reset_due (g : Game) : Prop :=
  g.round_transition_timer = 1 ∧ ¬ (g.p1_rounds_won ≥ 2 ∨ g.p2_rounds_won ≥ 2)

instance (g : Game) : Decidable (round_reset_due g) := by
  unfold round_reset_due
  infer_instance

/-- Player 1, playing character 3, casts its special in the tick that starts in `g`
with keys `i` (line 2201, inside the `health > 0` gate). -/
def p1_dash_cast (i : Input) (g : Game) : Prop :=
  g.p1.health > 0 ∧ g.p1.character_id = 3 ∧ i.p1.bt3 = true ∧
    tick_cooldown g.p1.special_move_cooldown = 0 ∧ i.p1.bt2 = false

instance (i : Input) (g : Game) : Decidable (p1_dash_cast i g) := by
  unfold p1_dash_cast
  infer_instance

/-- Player 2, playing character 3, casts its special in the tick that starts in `g`
with keys `i` (line 2342; Player 2 is updated after Player 1). -/
def p2_dash_cast (cfg : Configs) (i : Input) (g : Game) : Prop :=
  (update_p1 cfg i.p1 g).p2.health > 0 ∧ g.p2.character_id = 3 ∧ i.p2.bt3 = true ∧
    tick_cooldown g.p2.special_move_cooldown = 0 ∧ i.p2.bt2 = false

instance (cfg : Configs) (i : Input) (g : Game) : Decidable (p2_dash_cast cfg i g) := by
  unfold p2_dash_cast
  infer_instance

/-- Player 1 plays character 3 and is alive, Player 2 is knocked out, and the round
transition has one tick left at score 1-0. -/
def last_transition_tick_game : Game :=
  { start_game with
    p1 := { start_p1 with character_id := 3 }
    p2 := { start_p2 with health := 0 }
    p1_rounds_won := 1
    round_transition_timer := 1 }

/-- Player 1 presses the special button and nothing else; Player 2 presses nothing. -/
def p1_special_input : Input :=
  { p1 := { no_keys with bt3 := true }, p2 := no_keys }

/-- Player 1 plays character 3 at a round start. -/
def dash_game : Game :=
  { start_game with p1 := { start_p1 with character_id := 3 } }

/-- Input stream of the sample dash: Player 1 presses the special button in tick 0
only. -/
def dash_inputs : Nat → Input :=
  fun n => if n = 0 then p1_special_input else { p1 := no_keys, p2 := no_keys }

/-- Player 1 just before its physics (line 2207) in the tick that starts in `g`,
when its update runs: input handling, attack block and special block applied. -/
def p1_before_physics (cfg : Configs) (i : Input) (g : Game) : Player :=
  (special_step i.p1 0 (attack_step cfg (p1_at_attack_step i g))).self

/-- Player 2 just before its physics (line 2347) in the tick that starts in `g`,
when its update runs. -/
def p2_before_physics (cfg : Configs) (i : Input) (g : Game) : Player :=
  (special_step i.p2 1 (attack_step cfg (p2_at_attack_step cfg i g))).self

/-- Only the left key is held. -/
def left_keys : Keys := { no_keys with left := true }

/-- Both players hold left and nothing else. -/
def both_left_input : Input := { p1 := left_keys, p2 := left_keys }

/-- Input stream in which both players hold left on every tick. -/
def walk_left_inputs : Nat → Input := fun _ => both_left_input

/-- A player at full health standing on the ground, neither attacking nor dashing. -/
def steady (p : Player) : Prop :=
  p.health = 100 ∧ p.y = 350 ∧ p.vy = 0 ∧ p.on_ground = true ∧ ¬ attacking p ∧
    p.is_dashing = false

instance (p : Player) : Decidable (steady p) := by
  unfold steady
  infer_instance

/-- Both players steady, no round transition running and no projectile in flight. -/
def calm (g : Game) : Prop :=
  steady g.p1 ∧ steady g.p2 ∧ g.round_transition_timer = 0 ∧
    ∀ pr ∈ g.projectiles, pr.active = false

instance (g : Game) : Decidable (calm g) := by
  unfold calm
  infer_instance

/-! ## Theorems -/

/-- C7: `boxes_overlap` is symmetric in its two boxes. -/
theorem boxes_overlap_comm (a b : CollisionBox) : boxes_overlap a b = boxes_overlap b a := by
  unfold boxes_overlap
  apply decide_eq_decide.mpr
  constructor <;> rintro ⟨h1, h2, h3, h4⟩ <;> exact ⟨h2, h1, h4, h3⟩

/-- C6 (as stated, refuted): the box at (100, 340) with zero width and zero height
and the 24x38 box at (88, 312) both have non-negative sizes, and `boxes_overlap`
reports that they overlap. -/
theorem boxes_overlap_zero_size_counterexample :
    (0 : ℚ) ≤ ({ x := 100, y := 340, w := 0, h := 0 } : CollisionBox).w ∧
    (0 : ℚ) ≤ ({ x := 100, y := 340, w := 0, h := 0 } : CollisionBox).h ∧
    (0 : ℚ) ≤ ({ x := 88, y := 312, w := 24, h := 38 } : CollisionBox).w ∧
    (0 : ℚ) ≤ ({ x := 88, y := 312, w := 24, h := 38 } : CollisionBox).h ∧
    ({ x := 100, y := 340, w := 0, h := 0 } : CollisionBox).w = 0 ∧
    boxes_overlap { x := 100, y := 340, w := 0, h := 0 } { x := 88, y := 312, w := 24, h := 38 }
      = true := by
  simp only [boxes_overlap]
  norm_num

/-- C6 (amended): `boxes_overlap a b` is false when a box of zero width has its
x position outside the open x extent of the other box, or a box of zero height
has its y position outside the open y extent of the other box. -/
theorem boxes_overlap_zero_size (a b : CollisionBox)
    (h : (a.w = 0 ∧ ¬ (b.x < a.x ∧ a.x < b.x + b.w)) ∨
         (a.h = 0 ∧ ¬ (b.y < a.y ∧ a.y < b.y + b.h)) ∨
         (b.w = 0 ∧ ¬ (a.x < b.x ∧ b.x < a.x + a.w)) ∨
         (b.h = 0 ∧ ¬ (a.y < b.y ∧ b.y < a.y + a.h))) :
    boxes_overlap a b = false := by
  unfold boxes_overlap
  apply decide_eq_false
  rintro ⟨h1, h2, h3, h4⟩
  rcases h with ⟨hz, hn⟩ | ⟨hz, hn⟩ | ⟨hz, hn⟩ | ⟨hz, hn⟩
  · rw [hz, add_zero] at h2
    exact hn ⟨h2, h1⟩
  · rw [hz, add_zero] at h4
    exact hn ⟨h4, h3⟩
  · rw [hz, add_zero] at h1
    exact hn ⟨h1, h2⟩
  · rw [hz, add_zero] at h3
    exact hn ⟨h3, h4⟩

/-- Witness for C6 (amended): two boxes of zero width never overlap, here at the
same position. -/
theorem boxes_overlap_zero_size_witness :
    boxes_overlap { x := 100, y := 340, w := 0, h := 0 } { x := 100, y := 312, w := 0, h := 38 }
      = false :=
  boxes_overlap_zero_size _ _ (Or.inl ⟨rfl, by norm_num⟩)

/-- C5: when both players are in Attack or CrouchAttack and their clash boxes
overlap with both widths positive, `attack_clash` puts both players in Idle with
`attack_frame` 0 and `vx = -4 * facing`; and in every case `attack_clash` leaves
both players' health as it was. -/
theorem attack_clash_cancels (g : Game)
    (h1 : g.p1.state = 3 ∨ g.p1.state = 6) (h2 : g.p2.state = 3 ∨ g.p2.state = 6)
    (hov : boxes_overlap (get_clash_box g.p1) (get_clash_box g.p2) = true)
    (hw1 : (get_clash_box g.p1).w > 0) (hw2 : (get_clash_box g.p2).w > 0) :
    (attack_clash g).p1.state = 0 ∧ (attack_clash g).p1.attack_frame = 0 ∧
    (attack_clash g).p1.vx = -4 * (g.p1.facing : ℚ) ∧
    (attack_clash g).p2.state = 0 ∧ (attack_clash g).p2.attack_frame = 0 ∧
    (attack_clash g).p2.vx = -4 * (g.p2.facing : ℚ) ∧
    (∀ s : Game, (attack_clash s).p1.health = s.p1.health ∧
                 (attack_clash s).p2.health = s.p2.health) := by
  have hc : (g.p1.state = 3 ∨ g.p1.state = 6) ∧ (g.p2.state = 3 ∨ g.p2.state = 6) := ⟨h1, h2⟩
  have hb : boxes_overlap (get_clash_box g.p1) (get_clash_box g.p2) = true ∧
      (get_clash_box g.p1).w > 0 ∧ (get_clash_box g.p2).w > 0 := ⟨hov, hw1, hw2⟩
  refine ⟨?_, ?_, ?_, ?_, ?_, ?_, ?_⟩
  · simp only [attack_clash, if_pos hc, if_pos hb]
  · simp only [attack_clash, if_pos hc, if_pos hb]
  · simp only [attack_clash, if_pos hc, if_pos hb]
  · simp only [attack_clash, if_pos hc, if_pos hb]
  · simp only [attack_clash, if_pos hc, if_pos hb]
  · simp only [attack_clash, if_pos hc, if_pos hb]
  · intro s
    unfold attack_clash
    split_ifs <;> exact ⟨rfl, rfl⟩

/-- Witness for C5: two standing attackers 30 units apart on attack frame 2. -/
theorem attack_clash_cancels_witness :
    (attack_clash clash_game).p1.state = 0 ∧ (attack_clash clash_game).p1.attack_frame = 0 ∧
    (attack_clash clash_game).p1.vx = -4 * (clash_game.p1.facing : ℚ) ∧
    (attack_clash clash_game).p2.state = 0 ∧ (attack_clash clash_game).p2.attack_frame = 0 ∧
    (attack_clash clash_game).p2.vx = -4 * (clash_game.p2.facing : ℚ) ∧
    (attack_clash clash_game).p1.health = clash_game.p1.health ∧
    (attack_clash clash_game).p2.health = clash_game.p2.health :=
  have h := attack_clash_cancels clash_game (Or.inl rfl) (Or.inl rfl)
    (by simp [boxes_overlap, get_clash_box, clash_game, start_game, start_p1, start_p2]; norm_num)
    (by simp [get_clash_box, clash_game, start_game, start_p1, start_p2])
    (by simp [get_clash_box, clash_game, start_game, start_p1, start_p2])
  ⟨h.1, h.2.1, h.2.2.1, h.2.2.2.1, h.2.2.2.2.1, h.2.2.2.2.2.1,
   (h.2.2.2.2.2.2 clash_game).1, (h.2.2.2.2.2.2 clash_game).2⟩

/-- C3: at the round check with no transition running, a knocked-out Player 1
facing a living Player 2 gives Player 2 exactly one round and starts the 120-tick
transition; symmetrically for a knocked-out Player 2; with both alive the round
check changes nothing. -/
theorem round_controller_awards (g : Game) (h0 : g.round_transition_timer = 0) :
    (g.p1.health = 0 → g.p2.health > 0 →
      (round_controller g).p2_rounds_won = g.p2_rounds_won + 1 ∧
      (round_controller g).p1_rounds_won = g.p1_rounds_won ∧
      (round_controller g).round_transition_timer = 120) ∧
    (g.p2.health = 0 → g.p1.health > 0 →
      (round_controller g).p1_rounds_won = g.p1_rounds_won + 1 ∧
      (round_controller g).p2_rounds_won = g.p2_rounds_won ∧
      (round_controller g).round_transition_timer = 120) ∧
    (g.p1.health > 0 → g.p2.health > 0 → round_controller g = g) := by
  have ht : ¬ g.round_transition_timer > 0 := by omega
  refine ⟨?_, ?_, ?_⟩
  · intro h1 _
    have hk : g.p1.health ≤ 0 := by omega
    simp only [round_controller, if_neg ht, if_pos (Or.inl hk : g.p1.health ≤ 0 ∨ g.p2.health ≤ 0),
      if_pos hk, and_self]
  · intro h2 h1
    have hk : ¬ g.p1.health ≤ 0 := by omega
    have hk2 : g.p2.health ≤ 0 := by omega
    simp only [round_controller, if_neg ht, if_pos (Or.inr hk2 : g.p1.health ≤ 0 ∨ g.p2.health ≤ 0),
      if_neg hk, and_self]
  · intro h1 h2
    have hk : ¬ (g.p1.health ≤ 0 ∨ g.p2.health ≤ 0) := by omega
    simp only [round_controller, if_neg ht, if_neg hk]

/-- Witness for C3: Player 1 at health 0, Player 2 at health 35, score 0-0. -/
theorem round_controller_awards_witness :
    (round_controller p1_down_game).p2_rounds_won = p1_down_game.p2_rounds_won + 1 ∧
    (round_controller p1_down_game).p1_rounds_won = p1_down_game.p1_rounds_won ∧
    (round_controller p1_down_game).round_transition_timer = 120 :=
  (round_controller_awards p1_down_game rfl).1 rfl (by decide)

/-- The scan of `spawn_projectile` writes the first inactive slot and nothing else. -/
lemma spawn_projectile_first_free (owner type : Int) (x y vx vy : ℚ) :
    ∀ (pool : List Projectile) (i : Nat) (hi : i < pool.length),
      (pool.get ⟨i, hi⟩).active = false →
      (∀ (j : Nat) (hj : j < pool.length), j < i → (pool.get ⟨j, hj⟩).active = true) →
      spawn_projectile owner type x y vx vy pool
        = pool.set i (new_projectile owner type x y vx vy) := by
  intro pool
  induction pool with
  | nil => intro i hi; exact absurd hi (Nat.not_lt_zero _)
  | cons p ps ih =>
    intro i hi hfree hbefore
    cases i with
    | zero =>
      have hp : p.active = false := hfree
      simp [spawn_projectile, hp]
    | succ k =>
      have hp : p.active = true := hbefore 0 (Nat.succ_pos _) (Nat.succ_pos _)
      have hk : k < ps.length := Nat.lt_of_succ_lt_succ hi
      have hrec := ih k hk hfree (fun j hj hjk => hbefore (j + 1) (Nat.succ_lt_succ hj)
        (Nat.succ_lt_succ hjk))
      simp [spawn_projectile, hp, hrec]

/-- A pool without an inactive slot is left as it is by `spawn_projectile`. -/
lemma spawn_projectile_full (owner type : Int) (x y vx vy : ℚ) :
    ∀ pool : List Projectile, (∀ p ∈ pool, p.active = true) →
      spawn_projectile owner type x y vx vy pool = pool := by
  intro pool
  induction pool with
  | nil => intro _; rfl
  | cons p ps ih =>
    intro h
    have hp : p.active = true := h p (List.mem_cons_self _ _)
    have hps := ih (fun q hq => h q (List.mem_cons_of_mem _ hq))
    simp [spawn_projectile, hp, hps]

/-- C8: `spawn_projectile` on the 4-slot pool writes the lowest-index inactive slot
(active, the given owner, type, position and velocity, lifetime 180, hitbox
`{x-15, y-15, 30, 30}`) and leaves every other slot; with all slots active it returns
the pool unchanged; and from a pool of four inactive slots, four successive spawns
leave exactly 4 active projectiles and a fifth spawn changes nothing. -/
theorem spawn_projectile_pool (owner type : Int) (x y vx vy : ℚ) (pool : List Projectile)
    (hlen : pool.length = MAX_PROJECTILES) :
    (∀ (i : Nat) (hi : i < pool.length), (pool.get ⟨i, hi⟩).active = false →
      (∀ (j : Nat) (hj : j < pool.length), j < i → (pool.get ⟨j, hj⟩).active = true) →
      spawn_projectile owner type x y vx vy pool
        = pool.set i { active := true, x := x, y := y, vx := vx, vy := vy, owner := owner,
                       type := type, lifetime := 180,
                       hitbox := { x := x - 15, y := y - 15, w := 30, h := 30 } }) ∧
    ((∀ p ∈ pool, p.active = true) → spawn_projectile owner type x y vx vy pool = pool) ∧
    ((∀ p ∈ pool, p.active = false) → ∀ r1 r2 r3 r4 r5 : SpawnRequest,
      active_count (spawn_all [r1, r2, r3, r4] pool) = 4 ∧
      spawn_all [r1, r2, r3, r4, r5] pool = spawn_all [r1, r2, r3, r4] pool) := by
  refine ⟨?_, ?_, ?_⟩
  · intro i hi hfree hbefore
    exact spawn_projectile_first_free owner type x y vx vy pool i hi hfree hbefore
  · exact spawn_projectile_full owner type x y vx vy pool
  · intro hall r1 r2 r3 r4 r5
    have h4 : pool.length = 4 := hlen
    rcases pool with _ | ⟨a, _ | ⟨b, _ | ⟨c, _ | ⟨d, _ | ⟨e, t⟩⟩⟩⟩⟩ <;>
      simp only [List.length_nil, List.length_cons] at h4 <;> try omega
    have ha : a.active = false := hall a (by simp)
    have hb : b.active = false := hall b (by simp)
    have hc : c.active = false := hall c (by simp)
    have hd : d.active = false := hall d (by simp)
    simp [spawn_all, spawn_projectile, new_projectile, active_count, ha, hb, hc, hd]

/-- Witness for C8: the pool of four inactive slots left by `hamoopi_init`; the
spawn lands in slot 0. -/
theorem spawn_projectile_pool_witness :
    spawn_projectile 0 0 180 350 8 0 empty_pool
      = empty_pool.set 0 { active := true, x := 180, y := 350, vx := 8, vy := 0, owner := 0,
                           type := 0, lifetime := 180,
                           hitbox := { x := 180 - 15, y := 350 - 15, w := 30, h := 30 } } :=
  (spawn_projectile_pool 0 0 180 350 8 0 empty_pool rfl).1 0 (by decide) rfl
    (fun _ _ hj => absurd hj (Nat.not_lt_zero _))

/-- The stomp and dash damage is the subtraction clamped at 0. -/
lemma special_damage_health (o : Player) (dmg : Int) :
    (special_damage o dmg).health
      = max 0 (o.health - (if o.is_blocking = true then BLOCKED_DAMAGE else dmg)) := by
  simp only [special_damage, apply_ite Player.health, max_def]
  split_ifs <;> omega

/-- The projectile hit test leaves the target with `max 0 (health - damage)` and
switches the projectile off when the boxes overlap and the target is alive. -/
lemma projectile_hit_on (cfg : Configs) (t : Player) (m : Projectile)
    (hov : boxes_overlap m.hitbox (get_hurtbox cfg t) = true) (hal : t.health > 0) :
    (projectile_hit cfg t m).1.health
        = max 0 (t.health - (if t.is_blocking = true then 1 else 10)) ∧
    (projectile_hit cfg t m).2.active = false := by
  have hc : boxes_overlap m.hitbox (get_hurtbox cfg t) = true ∧ t.health > 0 := ⟨hov, hal⟩
  simp only [projectile_hit, if_pos hc, apply_ite Player.health, max_def, BLOCKED_DAMAGE,
    FIRE_PROJECTILE_DAMAGE, and_true]
  split_ifs <;> omega

/-- The projectile hit test does nothing when the target is not alive. -/
lemma projectile_hit_dead (cfg : Configs) (t : Player) (m : Projectile)
    (hd : ¬ t.health > 0) : projectile_hit cfg t m = (t, m) := by
  have hc : ¬ (boxes_overlap m.hitbox (get_hurtbox cfg t) = true ∧ t.health > 0) :=
    fun h => hd h.2
  simp only [projectile_hit, if_neg hc]

/-- C9: one pass of the loop of `update_projectiles` over an active projectile that
after moving is in bounds and unexpired.  If it belongs to Player 1 (owner 0) it
leaves Player 1 untouched; when its moved hitbox overlaps Player 2's hurtbox and
Player 2 is alive, Player 2's health becomes `max 0 (health - 10)`
(`max 0 (health - 1)` when blocking) and the projectile becomes inactive; when
Player 2's health is 0, Player 2 is untouched and the projectile stays active.
The same holds with the roles swapped for a projectile of Player 2 (owner 1).
The loop `update_projectiles` runs this pass on each slot in index order, each
with the players as the earlier slots left them. -/
theorem update_projectile_hits_opponent (cfg : Configs) (p1 p2 : Player) (pr : Projectile)
    (hact : pr.active = true)
    (hx : 0 ≤ pr.x + pr.vx ∧ pr.x + pr.vx ≤ 640)
    (hy : 0 ≤ pr.y + pr.vy ∧ pr.y + pr.vy ≤ 480)
    (hlife : pr.lifetime - 1 > 0) :
    (pr.owner = 0 →
      (update_projectile cfg p1 p2 pr).1 = p1 ∧
      (boxes_overlap { x := pr.x + pr.vx - 15, y := pr.y + pr.vy - 15,
                       w := pr.hitbox.w, h := pr.hitbox.h } (get_hurtbox cfg p2) = true →
        p2.health > 0 →
        (update_projectile cfg p1 p2 pr).2.1.health
            = max 0 (p2.health - (if p2.is_blocking = true then 1 else 10)) ∧
        (update_projectile cfg p1 p2 pr).2.2.active = false) ∧
      (p2.health = 0 →
        (update_projectile cfg p1 p2 pr).2.1 = p2 ∧
        (update_projectile cfg p1 p2 pr).2.2.active = true)) ∧
    (pr.owner = 1 →
      (update_projectile cfg p1 p2 pr).2.1 = p2 ∧
      (boxes_overlap { x := pr.x + pr.vx - 15, y := pr.y + pr.vy - 15,
                       w := pr.hitbox.w, h := pr.hitbox.h } (get_hurtbox cfg p1) = true →
        p1.health > 0 →
        (update_projectile cfg p1 p2 pr).1.health
            = max 0 (p1.health - (if p1.is_blocking = true then 1 else 10)) ∧
        (update_projectile cfg p1 p2 pr).2.2.active = false) ∧
      (p1.health = 0 →
        (update_projectile cfg p1 p2 pr).1 = p1 ∧
        (update_projectile cfg p1 p2 pr).2.2.active = true)) ∧
    (∀ rest : List Projectile,
      update_projectiles cfg p1 p2 (pr :: rest)
        = ((update_projectiles cfg (update_projectile cfg p1 p2 pr).1
              (update_projectile cfg p1 p2 pr).2.1 rest).1,
           (update_projectiles cfg (update_projectile cfg p1 p2 pr).1
              (update_projectile cfg p1 p2 pr).2.1 rest).2.1,
           (update_projectile cfg p1 p2 pr).2.2 ::
             (update_projectiles cfg (update_projectile cfg p1 p2 pr).1
                (update_projectile cfg p1 p2 pr).2.1 rest).2.2)) := by
  have hna : ¬ pr.active = false := by simp [hact]
  have hin : ¬ (pr.x + pr.vx < 0 ∨ pr.x + pr.vx > 640 ∨ pr.y + pr.vy < 0 ∨ pr.y + pr.vy > 480 ∨
      pr.lifetime - 1 ≤ 0) := by
    rintro (h | h | h | h | h)
    · exact absurd hx.1 (not_le.mpr h)
    · exact absurd hx.2 (not_le.mpr h)
    · exact absurd hy.1 (not_le.mpr h)
    · exact absurd hy.2 (not_le.mpr h)
    · omega
  refine ⟨?_, ?_, ?_⟩
  · intro ho
    simp only [update_projectile, if_neg hna, if_neg hin, if_pos ho, true_and]
    refine ⟨?_, ?_⟩
    · intro hov hal
      exact projectile_hit_on cfg p2 _ hov hal
    · intro hz
      rw [projectile_hit_dead cfg p2 _ (by omega)]
      exact ⟨rfl, hact⟩
  · intro ho
    have ho0 : ¬ pr.owner = 0 := by omega
    simp only [update_projectile, if_neg hna, if_neg hin, if_neg ho0, true_and]
    refine ⟨?_, ?_⟩
    · intro hov hal
      exact projectile_hit_on cfg p1 _ hov hal
    · intro hz
      rw [projectile_hit_dead cfg p1 _ (by omega)]
      exact ⟨rfl, hact⟩
  · intro rest
    rfl

/-- Witness for C9: Player 1's projectile reaching Player 2 at round-start position
with no configuration loaded; Player 2 drops from 100 to 90 and the projectile is
switched off. -/
theorem update_projectile_hits_opponent_witness :
    (update_projectile no_config start_p1 start_p2 flying_projectile).1 = start_p1 ∧
    (update_projectile no_config start_p1 start_p2 flying_projectile).2.1.health
      = max 0 (start_p2.health - (if start_p2.is_blocking = true then 1 else 10)) ∧
    (update_projectile no_config start_p1 start_p2 flying_projectile).2.2.active = false :=
  ⟨((update_projectile_hits_opponent no_config start_p1 start_p2 flying_projectile rfl
      (by simp [flying_projectile]; norm_num) (by simp [flying_projectile]; norm_num)
      (by decide)).1 rfl).1,
   ((update_projectile_hits_opponent no_config start_p1 start_p2 flying_projectile rfl
      (by simp [flying_projectile]; norm_num) (by simp [flying_projectile]; norm_num)
      (by decide)).1 rfl).2.1
      (by simp [boxes_overlap, get_hurtbox, find_collision_box_config, no_config,
            hurtbox_fallback, flying_projectile, start_p2]; norm_num)
      (by decide)⟩

/-! ### Health stays in `[0, 100]` -/

lemma melee_damage_range (o : Player) (h : 0 ≤ o.health ∧ o.health ≤ 100) :
    0 ≤ (melee_damage o).health ∧ (melee_damage o).health ≤ 100 := by
  simp only [melee_damage, apply_ite Player.health, BLOCKED_DAMAGE, NORMAL_DAMAGE]
  split_ifs <;> omega

lemma special_damage_range (o : Player) (dmg : Int) (hd : 0 ≤ dmg)
    (h : 0 ≤ o.health ∧ o.health ≤ 100) :
    0 ≤ (special_damage o dmg).health ∧ (special_damage o dmg).health ≤ 100 := by
  simp only [special_damage, apply_ite Player.health, BLOCKED_DAMAGE]
  split_ifs <;> omega

lemma projectile_hit_range (cfg : Configs) (t : Player) (m : Projectile)
    (h : 0 ≤ t.health ∧ t.health ≤ 100) :
    0 ≤ (projectile_hit cfg t m).1.health ∧ (projectile_hit cfg t m).1.health ≤ 100 := by
  simp only [projectile_hit, apply_ite Prod.fst, apply_ite Player.health, BLOCKED_DAMAGE,
    FIRE_PROJECTILE_DAMAGE]
  split_ifs <;> omega

lemma read_input_health (k : Keys) (d : Duel) :
    (read_input k d).self.health = d.self.health ∧ (read_input k d).opp = d.opp ∧
    (read_input k d).pool = d.pool := by
  have hm : (move_input k d.self).health = d.self.health := by
    simp only [move_input]
    split_ifs <;> rfl
  simp only [read_input]
  split_ifs <;> exact ⟨hm, rfl, rfl⟩

lemma attack_step_range (cfg : Configs) (d : Duel) (h : health_in_range d.self d.opp) :
    health_in_range (attack_step cfg d).self (attack_step cfg d).opp := by
  have hm := melee_damage_range d.opp h.2
  simp only [attack_step, health_in_range]
  split_ifs <;> first | exact h | exact ⟨h.1, hm⟩

lemma execute_special_move_range (d : Duel) (n : Int) (h : health_in_range d.self d.opp) :
    health_in_range (execute_special_move d n).self (execute_special_move d n).opp := by
  have h12 := special_damage_range d.opp EARTH_STOMP_DAMAGE (by decide) h.2
  have h8 := special_damage_range d.opp WIND_DASH_DAMAGE (by decide) h.2
  obtain ⟨⟨ha, hb⟩, hc⟩ := h
  simp only [execute_special_move, health_in_range, WATER_HEAL_AMOUNT]
  split_ifs <;> refine ⟨⟨?_, ?_⟩, ?_⟩ <;> first | assumption | (simp only []; omega)

lemma special_step_range (k : Keys) (n : Int) (d : Duel) (h : health_in_range d.self d.opp) :
    health_in_range (special_step k n d).self (special_step k n d).opp := by
  simp only [special_step]
  split_ifs <;> first | exact h | exact execute_special_move_range _ n h

lemma physics_step_health (p : Player) : (physics_step p).health = p.health := by
  simp only [physics_step]
  split_ifs <;> rfl

lemma player_update_range (cfg : Configs) (k : Keys) (n : Int) (d : Duel)
    (h : health_in_range d.self d.opp) :
    health_in_range (player_update cfg k n d).self (player_update cfg k n d).opp := by
  have hr := read_input_health k d
  have h1 : health_in_range (read_input k d).self (read_input k d).opp := by
    unfold health_in_range
    rw [hr.1, hr.2.1]
    exact h
  have h2 := special_step_range k n _ (attack_step_range cfg _ h1)
  unfold health_in_range at h2 ⊢
  simp only [player_update, physics_step_health]
  exact h2

lemma update_p1_range (cfg : Configs) (k : Keys) (g : Game) (h : health_in_range g.p1 g.p2) :
    health_in_range (update_p1 cfg k g).p1 (update_p1 cfg k g).p2 := by
  simp only [update_p1]
  split_ifs
  · exact player_update_range cfg k 0 _ h
  · exact h

lemma update_p2_range (cfg : Configs) (k : Keys) (g : Game) (h : health_in_range g.p1 g.p2) :
    health_in_range (update_p2 cfg k g).p1 (update_p2 cfg k g).p2 := by
  simp only [update_p2]
  split_ifs
  · have h2 := player_update_range cfg k 1
      { self := g.p2, opp := g.p1, cooldown := tick_cooldown g.p2_attack_cooldown,
        pool := g.projectiles } ⟨h.2, h.1⟩
    exact ⟨h2.2, h2.1⟩
  · exact h

lemma body_collision_health (g : Game) :
    (body_collision g).p1.health = g.p1.health ∧ (body_collision g).p2.health = g.p2.health := by
  simp only [body_collision]
  split_ifs <;> exact ⟨rfl, rfl⟩

lemma update_anim_health (p : Player) : (update_anim p).health = p.health := by
  simp only [update_anim]
  split_ifs <;> rfl

lemma derive_state_health (p : Player) : (derive_state p).health = p.health := by
  simp only [derive_state]
  split_ifs <;> rfl

lemma attack_clash_health (g : Game) :
    (attack_clash g).p1.health = g.p1.health ∧ (attack_clash g).p2.health = g.p2.health := by
  simp only [attack_clash]
  split_ifs <;> exact ⟨rfl, rfl⟩

lemma before_clash_range (cfg : Configs) (i : Input) (g : Game) (h : health_in_range g.p1 g.p2) :
    health_in_range (before_clash cfg i g).p1 (before_clash cfg i g).p2 := by
  have h2 := update_p2_range cfg i.p2 _ (update_p1_range cfg i.p1 g h)
  have hb := body_collision_health (update_p2 cfg i.p2 (update_p1 cfg i.p1 g))
  unfold health_in_range at h2 ⊢
  simp only [before_clash, settle_stage, derive_state_health, update_anim_health, hb.1, hb.2]
  exact h2

lemma update_projectile_range (cfg : Configs) (p1 p2 : Player) (pr : Projectile)
    (h : health_in_range p1 p2) :
    health_in_range (update_projectile cfg p1 p2 pr).1 (update_projectile cfg p1 p2 pr).2.1 := by
  have h1 := projectile_hit_range cfg p1
  have h2 := projectile_hit_range cfg p2
  simp only [update_projectile]
  split_ifs
  · exact h
  · exact h
  · exact ⟨h.1, h2 _ h.2⟩
  · exact ⟨h1 _ h.1, h.2⟩

lemma update_projectiles_range (cfg : Configs) :
    ∀ (pool : List Projectile) (p1 p2 : Player), health_in_range p1 p2 →
      health_in_range (update_projectiles cfg p1 p2 pool).1
        (update_projectiles cfg p1 p2 pool).2.1 := by
  intro pool
  induction pool with
  | nil => intro p1 p2 h; exact h
  | cons pr rest ih =>
    intro p1 p2 h
    exact ih _ _ (update_projectile_range cfg p1 p2 pr h)

lemma round_controller_range (g : Game) (h : health_in_range g.p1 g.p2) :
    health_in_range (round_controller g).p1 (round_controller g).p2 := by
  simp only [round_controller]
  split_ifs <;> first | exact h | (simp only [health_in_range, init_player]; omega)

lemma fight_tick_range (cfg : Configs) (i : Input) (g : Game) (h : health_in_range g.p1 g.p2) :
    health_in_range (fight_tick cfg i g).p1 (fight_tick cfg i g).p2 := by
  have hb := before_clash_range cfg i g h
  have hc := attack_clash_health (before_clash cfg i g)
  have h3 : health_in_range (attack_clash (before_clash cfg i g)).p1
      (attack_clash (before_clash cfg i g)).p2 := by
    unfold health_in_range at hb ⊢
    rw [hc.1, hc.2]
    exact hb
  have h4 := update_projectiles_range cfg (attack_clash (before_clash cfg i g)).projectiles _ _ h3
  exact round_controller_range (projectile_stage cfg (attack_clash (before_clash cfg i g))) h4

lemma run_ticks_range (cfg : Configs) :
    ∀ (inputs : List Input) (g : Game), health_in_range g.p1 g.p2 →
      health_in_range (run_ticks cfg g inputs).p1 (run_ticks cfg g inputs).p2 := by
  intro inputs
  induction inputs with
  | nil => intro g h; exact h
  | cons i rest ih => intro g h; exact ih _ (fight_tick_range cfg i g h)

/-- C1: from any fight state in which both players have health 100 (a match or
round start; all other fields, the projectile pool and the cooldowns arbitrary),
after any sequence of fight ticks with any inputs and any configuration each
player's health is an integer between 0 and 100. -/
theorem health_stays_in_range (cfg : Configs) (g : Game) (inputs : List Input)
    (h1 : g.p1.health = 100) (h2 : g.p2.health = 100) :
    (0 ≤ (run_ticks cfg g inputs).p1.health ∧ (run_ticks cfg g inputs).p1.health ≤ 100) ∧
    (0 ≤ (run_ticks cfg g inputs).p2.health ∧ (run_ticks cfg g inputs).p2.health ≤ 100) :=
  run_ticks_range cfg inputs g ⟨by omega, by omega⟩

/-- Witness for C1: the match-start state, no configuration loaded, and two ticks in
which nobody presses a key. -/
theorem health_stays_in_range_witness :
    (0 ≤ (run_ticks no_config start_game [⟨no_keys, no_keys⟩, ⟨no_keys, no_keys⟩]).p1.health ∧
      (run_ticks no_config start_game [⟨no_keys, no_keys⟩, ⟨no_keys, no_keys⟩]).p1.health ≤ 100) ∧
    (0 ≤ (run_ticks no_config start_game [⟨no_keys, no_keys⟩, ⟨no_keys, no_keys⟩]).p2.health ∧
      (run_ticks no_config start_game [⟨no_keys, no_keys⟩, ⟨no_keys, no_keys⟩]).p2.health ≤ 100) :=
  health_stays_in_range no_config start_game [⟨no_keys, no_keys⟩, ⟨no_keys, no_keys⟩] rfl rfl

/-! ### One melee attack: the attack frame counts the ticks -/

lemma attack_continues_refl (p : Player) : attack_continues p p :=
  fun _ h => ⟨h, rfl, rfl⟩

lemma attack_continues_trans {p q r : Player} (h1 : attack_continues p q)
    (h2 : attack_continues q r) : attack_continues p r := by
  intro ha hr
  obtain ⟨hq, hs, hf⟩ := h2 ha hr
  have haq : attacking q := by
    unfold attacking at ha ⊢
    rw [← hs]
    exact ha
  obtain ⟨hp, hs2, hf2⟩ := h1 haq hq
  exact ⟨hp, hs.trans hs2, hf.trans hf2⟩

lemma attack_continues_of_eq {p q : Player} (hs : q.state = p.state)
    (hf : q.attack_frame = p.attack_frame) (hh : q.health > 0 → p.health > 0) :
    attack_continues p q :=
  fun _ h => ⟨hh h, hs, hf⟩

lemma move_input_frame (k : Keys) (p : Player) :
    (move_input k p).is_blocking = k.bt2 ∧ (move_input k p).state = p.state ∧
    (move_input k p).attack_frame = p.attack_frame ∧ (move_input k p).health = p.health ∧
    (move_input k p).character_id = p.character_id := by
  simp only [move_input]
  split_ifs <;> exact ⟨rfl, rfl, rfl, rfl, rfl⟩

lemma read_input_trigger (k : Keys) (d : Duel)
    (h : k.bt1 = true ∧ d.cooldown = 0 ∧ k.bt2 = false) :
    attacking (read_input k d).self ∧ (read_input k d).self.attack_frame = 0 ∧
    (read_input k d).cooldown = 15 := by
  have hc : k.bt1 = true ∧ d.cooldown = 0 ∧ (move_input k d.self).is_blocking = false := by
    rw [(move_input_frame k d.self).1]
    exact h
  refine ⟨?_, ?_, ?_⟩
  · simp only [read_input, if_pos hc, attacking]
    split_ifs
    · exact Or.inr rfl
    · exact Or.inl rfl
  · simp only [read_input, if_pos hc]
  · simp only [read_input, if_pos hc]

lemma read_input_no_trigger (k : Keys) (d : Duel)
    (h : ¬ (k.bt1 = true ∧ d.cooldown = 0 ∧ k.bt2 = false)) :
    (read_input k d).self.state = d.self.state ∧
    (read_input k d).self.attack_frame = d.self.attack_frame ∧
    (read_input k d).cooldown = d.cooldown := by
  have hm := move_input_frame k d.self
  have hc : ¬ (k.bt1 = true ∧ d.cooldown = 0 ∧ (move_input k d.self).is_blocking = false) := by
    rw [hm.1]
    exact h
  refine ⟨?_, ?_, ?_⟩
  · simp only [read_input, if_neg hc]
    exact hm.2.1
  · simp only [read_input, if_neg hc]
    exact hm.2.2.1
  · simp only [read_input, if_neg hc]

lemma attack_step_self (cfg : Configs) (d : Duel) :
    (attack_step cfg d).self.health = d.self.health ∧
    (attack_step cfg d).cooldown = d.cooldown ∧
    (attacking d.self → d.self.attack_frame + 1 < 10 →
      (attack_step cfg d).self.state = d.self.state ∧
      (attack_step cfg d).self.attack_frame = d.self.attack_frame + 1) ∧
    (attacking d.self → ¬ d.self.attack_frame + 1 < 10 →
      (attack_step cfg d).self.state = 0) ∧
    (¬ attacking d.self → (attack_step cfg d).self = d.self) := by
  simp only [attack_step, attacking]
  refine ⟨?_, ?_, ?_, ?_, ?_⟩
  · split_ifs <;> rfl
  · split_ifs <;> rfl
  · intro ha hlt
    rw [if_pos ha]
    split_ifs <;> first | exact ⟨rfl, rfl⟩ | omega
  · intro ha hlt
    rw [if_pos ha]
    split_ifs <;> first | rfl | omega
  · intro ha
    rw [if_neg ha]

lemma melee_damage_frame (o : Player) :
    (melee_damage o).state = o.state ∧ (melee_damage o).attack_frame = o.attack_frame ∧
    (melee_damage o).character_id = o.character_id ∧
    ((melee_damage o).health > 0 → o.health > 0) := by
  simp only [melee_damage, BLOCKED_DAMAGE, NORMAL_DAMAGE]
  split_ifs <;> refine ⟨rfl, rfl, rfl, ?_⟩ <;> intro h <;> simp only [] at h <;> omega

lemma attack_step_opp_cases (cfg : Configs) (d : Duel) :
    (attack_step cfg d).opp = d.opp ∨
    ((attacking d.self ∧ d.self.attack_frame = 1) ∧
      (attack_step cfg d).opp = melee_damage d.opp) := by
  simp only [attack_step, attacking]
  split_ifs with h1
  all_goals first
    | exact Or.inl rfl
    | (refine Or.inr ⟨⟨h1, ?_⟩, rfl⟩; dsimp only at *; omega)

lemma attack_step_opp (cfg : Configs) (d : Duel) :
    (attack_step cfg d).opp.state = d.opp.state ∧
    (attack_step cfg d).opp.attack_frame = d.opp.attack_frame ∧
    ((attack_step cfg d).opp.health > 0 → d.opp.health > 0) ∧
    (¬ (attacking d.self ∧ d.self.attack_frame = 1) → (attack_step cfg d).opp = d.opp) := by
  have hm := melee_damage_frame d.opp
  rcases attack_step_opp_cases cfg d with h | ⟨ha, h⟩
  · rw [h]
    exact ⟨rfl, rfl, id, fun _ => rfl⟩
  · rw [h]
    exact ⟨hm.1, hm.2.1, hm.2.2.2, fun hn => absurd ha hn⟩

lemma special_damage_frame (o : Player) (dmg : Int) (hd : 0 ≤ dmg) :
    (special_damage o dmg).state = o.state ∧
    (special_damage o dmg).attack_frame = o.attack_frame ∧
    (special_damage o dmg).character_id = o.character_id ∧
    ((special_damage o dmg).health > 0 → o.health > 0) := by
  simp only [special_damage, BLOCKED_DAMAGE]
  split_ifs <;> refine ⟨rfl, rfl, rfl, ?_⟩ <;> intro h <;> dsimp only at * <;> omega

lemma execute_special_move_frame (d : Duel) (n : Int) :
    (execute_special_move d n).self.state = d.self.state ∧
    (execute_special_move d n).self.attack_frame = d.self.attack_frame ∧
    (execute_special_move d n).self.character_id = d.self.character_id ∧
    (execute_special_move d n).cooldown = d.cooldown ∧
    (execute_special_move d n).opp.state = d.opp.state ∧
    (execute_special_move d n).opp.attack_frame = d.opp.attack_frame ∧
    (execute_special_move d n).opp.character_id = d.opp.character_id ∧
    ((execute_special_move d n).opp.health > 0 → d.opp.health > 0) := by
  have h12 := special_damage_frame d.opp EARTH_STOMP_DAMAGE (by decide)
  have h8 := special_damage_frame d.opp WIND_DASH_DAMAGE (by decide)
  simp only [execute_special_move]
  split_ifs
  all_goals first
    | exact ⟨rfl, rfl, rfl, rfl, rfl, rfl, rfl, id⟩
    | exact ⟨rfl, rfl, rfl, rfl, h12.1, h12.2.1, h12.2.2.1, h12.2.2.2⟩
    | exact ⟨rfl, rfl, rfl, rfl, h8.1, h8.2.1, h8.2.2.1, h8.2.2.2⟩

lemma special_step_frame (k : Keys) (n : Int) (d : Duel) :
    (special_step k n d).self.state = d.self.state ∧
    (special_step k n d).self.attack_frame = d.self.attack_frame ∧
    (special_step k n d).self.character_id = d.self.character_id ∧
    (special_step k n d).cooldown = d.cooldown ∧
    (special_step k n d).opp.state = d.opp.state ∧
    (special_step k n d).opp.attack_frame = d.opp.attack_frame ∧
    (special_step k n d).opp.character_id = d.opp.character_id ∧
    ((special_step k n d).opp.health > 0 → d.opp.health > 0) := by
  simp only [special_step]
  split_ifs
  all_goals first
    | exact ⟨rfl, rfl, rfl, rfl, rfl, rfl, rfl, id⟩
    | exact execute_special_move_frame _ n

lemma physics_step_frame (p : Player) :
    (physics_step p).state = p.state ∧ (physics_step p).attack_frame = p.attack_frame ∧
    (physics_step p).character_id = p.character_id := by
  simp only [physics_step]
  split_ifs <;> exact ⟨rfl, rfl, rfl⟩

lemma player_update_frame (cfg : Configs) (k : Keys) (n : Int) (d : Duel) :
    (player_update cfg k n d).self.state = (attack_step cfg (read_input k d)).self.state ∧
    (player_update cfg k n d).self.attack_frame
      = (attack_step cfg (read_input k d)).self.attack_frame ∧
    (player_update cfg k n d).cooldown = (read_input k d).cooldown ∧
    (player_update cfg k n d).opp.state = d.opp.state ∧
    (player_update cfg k n d).opp.attack_frame = d.opp.attack_frame ∧
    ((player_update cfg k n d).opp.health > 0 → d.opp.health > 0) := by
  have hs := special_step_frame k n (attack_step cfg (read_input k d))
  have ha := attack_step_opp cfg (read_input k d)
  have hself := attack_step_self cfg (read_input k d)
  have hr := read_input_health k d
  have hp := physics_step_frame (special_step k n (attack_step cfg (read_input k d))).self
  simp only [player_update]
  refine ⟨hp.1.trans hs.1, hp.2.1.trans hs.2.1, hs.2.2.2.1.trans hself.2.1, ?_, ?_, ?_⟩
  · rw [hs.2.2.2.2.1, ha.1, hr.2.1]
  · rw [hs.2.2.2.2.2.1, ha.2.1, hr.2.1]
  · intro h
    have h2 := ha.2.2.1 (hs.2.2.2.2.2.2.2 h)
    rw [hr.2.1] at h2
    exact h2

lemma update_anim_frame (p : Player) :
    (update_anim p).state = p.state ∧ (update_anim p).attack_frame = p.attack_frame ∧
    (update_anim p).character_id = p.character_id := by
  simp only [update_anim]
  split_ifs <;> exact ⟨rfl, rfl, rfl⟩

lemma derive_state_continues (p : Player) :
    attack_continues p (derive_state p) ∧ (derive_state p).character_id = p.character_id := by
  simp only [derive_state, attack_continues, attacking]
  split_ifs
  all_goals first
    | exact ⟨fun _ h => ⟨h, rfl, rfl⟩, rfl⟩
    | (refine ⟨fun ha _ => ?_, rfl⟩; dsimp only at ha; omega)

lemma settle_stage_continues (g : Game) :
    attack_continues g.p1 (settle_stage g).p1 ∧ attack_continues g.p2 (settle_stage g).p2 ∧
    (settle_stage g).p1_attack_cooldown = g.p1_attack_cooldown ∧
    (settle_stage g).p2_attack_cooldown = g.p2_attack_cooldown := by
  have hb : (body_collision g).p1.state = g.p1.state ∧
      (body_collision g).p1.attack_frame = g.p1.attack_frame ∧
      (body_collision g).p2.state = g.p2.state ∧
      (body_collision g).p2.attack_frame = g.p2.attack_frame ∧
      (body_collision g).p1_attack_cooldown = g.p1_attack_cooldown ∧
      (body_collision g).p2_attack_cooldown = g.p2_attack_cooldown := by
    simp only [body_collision]
    split_ifs <;> exact ⟨rfl, rfl, rfl, rfl, rfl, rfl⟩
  have hh := body_collision_health g
  have ha1 := update_anim_frame (body_collision g).p1
  have ha2 := update_anim_frame (body_collision g).p2
  have hah1 := update_anim_health (body_collision g).p1
  have hah2 := update_anim_health (body_collision g).p2
  have hd1 := (derive_state_continues (update_anim (body_collision g).p1)).1
  have hd2 := (derive_state_continues (update_anim (body_collision g).p2)).1
  have e1 : attack_continues g.p1 (update_anim (body_collision g).p1) :=
    attack_continues_of_eq (ha1.1.trans hb.1) (ha1.2.1.trans hb.2.1)
      (fun h => by rw [hah1, hh.1] at h; exact h)
  have e2 : attack_continues g.p2 (update_anim (body_collision g).p2) :=
    attack_continues_of_eq (ha2.1.trans hb.2.2.1) (ha2.2.1.trans hb.2.2.2.1)
      (fun h => by rw [hah2, hh.2] at h; exact h)
  exact ⟨attack_continues_trans e1 hd1, attack_continues_trans e2 hd2, hb.2.2.2.2.1,
    hb.2.2.2.2.2⟩

lemma attack_clash_continues (g : Game) :
    attack_continues g.p1 (attack_clash g).p1 ∧ attack_continues g.p2 (attack_clash g).p2 ∧
    (attack_clash g).p1_attack_cooldown = g.p1_attack_cooldown ∧
    (attack_clash g).p2_attack_cooldown = g.p2_attack_cooldown := by
  simp only [attack_clash, attack_continues, attacking]
  split_ifs
  all_goals first
    | exact ⟨fun _ h => ⟨h, rfl, rfl⟩, fun _ h => ⟨h, rfl, rfl⟩, rfl, rfl⟩
    | (refine ⟨fun ha _ => ?_, fun ha _ => ?_, rfl, rfl⟩ <;> dsimp only at ha <;> omega)

lemma projectile_hit_frame (cfg : Configs) (t : Player) (m : Projectile) :
    (projectile_hit cfg t m).1.state = t.state ∧
    (projectile_hit cfg t m).1.attack_frame = t.attack_frame ∧
    (projectile_hit cfg t m).1.character_id = t.character_id ∧
    ((projectile_hit cfg t m).1.health > 0 → t.health > 0) := by
  simp only [projectile_hit, BLOCKED_DAMAGE, FIRE_PROJECTILE_DAMAGE]
  split_ifs <;> refine ⟨rfl, rfl, rfl, ?_⟩ <;> intro h <;> dsimp only at * <;> omega

/-- What a pass over projectiles may do to a player: only lower the health. -/
lemma update_projectile_frame (cfg : Configs) (p1 p2 : Player) (pr : Projectile) :
    ((update_projectile cfg p1 p2 pr).1.state = p1.state ∧
     (update_projectile cfg p1 p2 pr).1.attack_frame = p1.attack_frame ∧
     (update_projectile cfg p1 p2 pr).1.character_id = p1.character_id ∧
     ((update_projectile cfg p1 p2 pr).1.health > 0 → p1.health > 0)) ∧
    ((update_projectile cfg p1 p2 pr).2.1.state = p2.state ∧
     (update_projectile cfg p1 p2 pr).2.1.attack_frame = p2.attack_frame ∧
     (update_projectile cfg p1 p2 pr).2.1.character_id = p2.character_id ∧
     ((update_projectile cfg p1 p2 pr).2.1.health > 0 → p2.health > 0)) := by
  have h1 := projectile_hit_frame cfg p1
  have h2 := projectile_hit_frame cfg p2
  simp only [update_projectile]
  split_ifs
  · exact ⟨⟨rfl, rfl, rfl, id⟩, ⟨rfl, rfl, rfl, id⟩⟩
  · exact ⟨⟨rfl, rfl, rfl, id⟩, ⟨rfl, rfl, rfl, id⟩⟩
  · exact ⟨⟨rfl, rfl, rfl, id⟩, h2 _⟩
  · exact ⟨h1 _, ⟨rfl, rfl, rfl, id⟩⟩

lemma update_projectiles_frame (cfg : Configs) :
    ∀ (pool : List Projectile) (p1 p2 : Player),
    ((update_projectiles cfg p1 p2 pool).1.state = p1.state ∧
     (update_projectiles cfg p1 p2 pool).1.attack_frame = p1.attack_frame ∧
     (update_projectiles cfg p1 p2 pool).1.character_id = p1.character_id ∧
     ((update_projectiles cfg p1 p2 pool).1.health > 0 → p1.health > 0)) ∧
    ((update_projectiles cfg p1 p2 pool).2.1.state = p2.state ∧
     (update_projectiles cfg p1 p2 pool).2.1.attack_frame = p2.attack_frame ∧
     (update_projectiles cfg p1 p2 pool).2.1.character_id = p2.character_id ∧
     ((update_projectiles cfg p1 p2 pool).2.1.health > 0 → p2.health > 0)) := by
  intro pool
  induction pool with
  | nil => intro p1 p2; exact ⟨⟨rfl, rfl, rfl, id⟩, ⟨rfl, rfl, rfl, id⟩⟩
  | cons pr rest ih =>
    intro p1 p2
    obtain ⟨⟨a1, a2, a3, a4⟩, ⟨b1, b2, b3, b4⟩⟩ := update_projectile_frame cfg p1 p2 pr
    obtain ⟨⟨c1, c2, c3, c4⟩, ⟨d1, d2, d3, d4⟩⟩ :=
      ih (update_projectile cfg p1 p2 pr).1 (update_projectile cfg p1 p2 pr).2.1
    simp only [update_projectiles]
    exact ⟨⟨c1.trans a1, c2.trans a2, c3.trans a3, fun h => a4 (c4 h)⟩,
           ⟨d1.trans b1, d2.trans b2, d3.trans b3, fun h => b4 (d4 h)⟩⟩

lemma projectile_stage_continues (cfg : Configs) (g : Game) :
    attack_continues g.p1 (projectile_stage cfg g).p1 ∧
    attack_continues g.p2 (projectile_stage cfg g).p2 ∧
    (projectile_stage cfg g).p1_attack_cooldown = g.p1_attack_cooldown ∧
    (projectile_stage cfg g).p2_attack_cooldown = g.p2_attack_cooldown := by
  obtain ⟨⟨a1, a2, _, a4⟩, ⟨b1, b2, _, b4⟩⟩ := update_projectiles_frame cfg g.projectiles g.p1 g.p2
  exact ⟨attack_continues_of_eq a1 a2 a4, attack_continues_of_eq b1 b2 b4, rfl, rfl⟩

lemma round_controller_continues (g : Game) :
    attack_continues g.p1 (round_controller g).p1 ∧
    attack_continues g.p2 (round_controller g).p2 ∧
    (round_controller g).p1_attack_cooldown = g.p1_attack_cooldown ∧
    (round_controller g).p2_attack_cooldown = g.p2_attack_cooldown := by
  simp only [round_controller, attack_continues, attacking, init_player]
  split_ifs
  all_goals first
    | exact ⟨fun _ h => ⟨h, rfl, rfl⟩, fun _ h => ⟨h, rfl, rfl⟩, rfl, rfl⟩
    | (refine ⟨fun ha _ => ?_, fun ha _ => ?_, rfl, rfl⟩ <;> dsimp only at ha <;> omega)

/-- The stages after both player updates, as one function. -/
lemma fight_tick_eq (cfg : Configs) (i : Input) (g : Game) :
    fight_tick cfg i g
      = round_controller (projectile_stage cfg (attack_clash (settle_stage
          (update_p2 cfg i.p2 (update_p1 cfg i.p1 g))))) := rfl

lemma tail_continues (cfg : Configs) (g : Game) :
    attack_continues g.p1
      (round_controller (projectile_stage cfg (attack_clash (settle_stage g)))).p1 ∧
    attack_continues g.p2
      (round_controller (projectile_stage cfg (attack_clash (settle_stage g)))).p2 ∧
    (round_controller (projectile_stage cfg (attack_clash (settle_stage g)))).p1_attack_cooldown
      = g.p1_attack_cooldown ∧
    (round_controller (projectile_stage cfg (attack_clash (settle_stage g)))).p2_attack_cooldown
      = g.p2_attack_cooldown := by
  obtain ⟨a1, a2, a3, a4⟩ := settle_stage_continues g
  obtain ⟨b1, b2, b3, b4⟩ := attack_clash_continues (settle_stage g)
  obtain ⟨c1, c2, c3, c4⟩ := projectile_stage_continues cfg (attack_clash (settle_stage g))
  obtain ⟨d1, d2, d3, d4⟩ :=
    round_controller_continues (projectile_stage cfg (attack_clash (settle_stage g)))
  exact ⟨attack_continues_trans a1 (attack_continues_trans b1 (attack_continues_trans c1 d1)),
         attack_continues_trans a2 (attack_continues_trans b2 (attack_continues_trans c2 d2)),
         d3.trans (c3.trans (b3.trans a3)), d4.trans (c4.trans (b4.trans a4))⟩

lemma update_p1_self (cfg : Configs) (i : Input) (g : Game)
    (h : (update_p1 cfg i.p1 g).p1.health > 0) :
    g.p1.health > 0 ∧
    (update_p1 cfg i.p1 g).p1.state = (attack_step cfg (p1_at_attack_step i g)).self.state ∧
    (update_p1 cfg i.p1 g).p1.attack_frame
      = (attack_step cfg (p1_at_attack_step i g)).self.attack_frame ∧
    (update_p1 cfg i.p1 g).p1_attack_cooldown = (p1_at_attack_step i g).cooldown := by
  by_cases ha : g.p1.health > 0
  · have hf := player_update_frame cfg i.p1 0
      { self := g.p1, opp := g.p2, cooldown := tick_cooldown g.p1_attack_cooldown,
        pool := g.projectiles }
    simp only [update_p1, if_pos ha, p1_at_attack_step]
    exact ⟨ha, hf.1, hf.2.1, hf.2.2.1⟩
  · exfalso
    simp only [update_p1, if_neg ha] at h
    exact ha h

lemma update_p1_opp (cfg : Configs) (k : Keys) (g : Game) :
    (update_p1 cfg k g).p2.state = g.p2.state ∧
    (update_p1 cfg k g).p2.attack_frame = g.p2.attack_frame ∧
    ((update_p1 cfg k g).p2.health > 0 → g.p2.health > 0) ∧
    (update_p1 cfg k g).p2_attack_cooldown = g.p2_attack_cooldown := by
  by_cases ha : g.p1.health > 0
  · have hf := player_update_frame cfg k 0
      { self := g.p1, opp := g.p2, cooldown := tick_cooldown g.p1_attack_cooldown,
        pool := g.projectiles }
    simp only [update_p1, if_pos ha]
    exact ⟨hf.2.2.2.1, hf.2.2.2.2.1, hf.2.2.2.2.2, trivial⟩
  · simp only [update_p1, if_neg ha]
    exact ⟨trivial, trivial, id, trivial⟩

lemma update_p2_self (cfg : Configs) (i : Input) (g : Game)
    (h : (update_p2 cfg i.p2 (update_p1 cfg i.p1 g)).p2.health > 0) :
    (update_p1 cfg i.p1 g).p2.health > 0 ∧
    (update_p2 cfg i.p2 (update_p1 cfg i.p1 g)).p2.state
      = (attack_step cfg (p2_at_attack_step cfg i g)).self.state ∧
    (update_p2 cfg i.p2 (update_p1 cfg i.p1 g)).p2.attack_frame
      = (attack_step cfg (p2_at_attack_step cfg i g)).self.attack_frame ∧
    (update_p2 cfg i.p2 (update_p1 cfg i.p1 g)).p2_attack_cooldown
      = (p2_at_attack_step cfg i g).cooldown := by
  by_cases ha : (update_p1 cfg i.p1 g).p2.health > 0
  · have hf := player_update_frame cfg i.p2 1
      { self := (update_p1 cfg i.p1 g).p2, opp := (update_p1 cfg i.p1 g).p1,
        cooldown := tick_cooldown (update_p1 cfg i.p1 g).p2_attack_cooldown,
        pool := (update_p1 cfg i.p1 g).projectiles }
    simp only [update_p2, if_pos ha, p2_at_attack_step]
    exact ⟨ha, hf.1, hf.2.1, hf.2.2.1⟩
  · exfalso
    simp only [update_p2, if_neg ha] at h
    exact ha h

lemma update_p2_opp (cfg : Configs) (k : Keys) (g : Game) :
    (update_p2 cfg k g).p1.state = g.p1.state ∧
    (update_p2 cfg k g).p1.attack_frame = g.p1.attack_frame ∧
    ((update_p2 cfg k g).p1.health > 0 → g.p1.health > 0) ∧
    (update_p2 cfg k g).p1_attack_cooldown = g.p1_attack_cooldown := by
  by_cases ha : g.p2.health > 0
  · have hf := player_update_frame cfg k 1
      { self := g.p2, opp := g.p1, cooldown := tick_cooldown g.p2_attack_cooldown,
        pool := g.projectiles }
    simp only [update_p2, if_pos ha]
    exact ⟨hf.2.2.2.1, hf.2.2.2.2.1, hf.2.2.2.2.2, trivial⟩
  · simp only [update_p2, if_neg ha]
    exact ⟨trivial, trivial, id, trivial⟩

/-- If Player 1 ends a tick alive and attacking, its state and attack frame are the
ones its own attack block produced in that tick. -/
lemma p1_tick (cfg : Configs) (i : Input) (g : Game)
    (ha : attacking (fight_tick cfg i g).p1) (hl : (fight_tick cfg i g).p1.health > 0) :
    g.p1.health > 0 ∧
    (fight_tick cfg i g).p1.state = (attack_step cfg (p1_at_attack_step i g)).self.state ∧
    (fight_tick cfg i g).p1.attack_frame
      = (attack_step cfg (p1_at_attack_step i g)).self.attack_frame ∧
    (fight_tick cfg i g).p1_attack_cooldown = (p1_at_attack_step i g).cooldown := by
  obtain ⟨t1, _, t3, _⟩ := tail_continues cfg (update_p2 cfg i.p2 (update_p1 cfg i.p1 g))
  obtain ⟨o1, o2, o3, o4⟩ := update_p2_opp cfg i.p2 (update_p1 cfg i.p1 g)
  rw [fight_tick_eq] at ha hl ⊢
  obtain ⟨a1, a2, a3⟩ := t1 ha hl
  obtain ⟨s1, s2, s3, s4⟩ := update_p1_self cfg i g (o3 a1)
  exact ⟨s1, a2.trans (o1.trans s2), a3.trans (o2.trans s3), t3.trans (o4.trans s4)⟩

/-- If Player 2 ends a tick alive and attacking, its state and attack frame are the
ones its own attack block produced in that tick. -/
lemma p2_tick (cfg : Configs) (i : Input) (g : Game)
    (ha : attacking (fight_tick cfg i g).p2) (hl : (fight_tick cfg i g).p2.health > 0) :
    (update_p1 cfg i.p1 g).p2.health > 0 ∧
    (fight_tick cfg i g).p2.state
      = (attack_step cfg (p2_at_attack_step cfg i g)).self.state ∧
    (fight_tick cfg i g).p2.attack_frame
      = (attack_step cfg (p2_at_attack_step cfg i g)).self.attack_frame ∧
    (fight_tick cfg i g).p2_attack_cooldown = (p2_at_attack_step cfg i g).cooldown := by
  obtain ⟨_, t2, _, t4⟩ := tail_continues cfg (update_p2 cfg i.p2 (update_p1 cfg i.p1 g))
  rw [fight_tick_eq] at ha hl ⊢
  obtain ⟨a1, a2, a3⟩ := t2 ha hl
  obtain ⟨s1, s2, s3, s4⟩ := update_p2_self cfg i g a1
  exact ⟨s1, a2.trans s2, a3.trans s3, t4.trans s4⟩

/-- The attack block of one player on the first tick of an attack (`j = 0`, trigger
fires) or on a later tick (`j ≥ 1`, attack frame `j`, cooldown `15 - j` after its
tick): the attack frame becomes `j + 1`, and the hit check changes the opponent's
health only for `j = 1`. -/
lemma duel_attack_advances (cfg : Configs) (k : Keys) (d : Duel) (j : Int)
    (hj : (j = 0 ∧ (k.bt1 = true ∧ d.cooldown = 0 ∧ k.bt2 = false)) ∨
          (1 ≤ j ∧ attacking d.self ∧ d.self.attack_frame = j ∧ d.cooldown = 15 - j ∧ j < 10)) :
    (attacking (attack_step cfg (read_input k d)).self →
      (attack_step cfg (read_input k d)).self.attack_frame = j + 1 ∧
      (read_input k d).cooldown = 15 - j ∧ j + 1 < 10) ∧
    ((attack_step cfg (read_input k d)).opp.health ≠ (read_input k d).opp.health → j = 1) := by
  obtain ⟨_, _, s3, s4, _⟩ := attack_step_self cfg (read_input k d)
  obtain ⟨_, _, _, o4⟩ := attack_step_opp cfg (read_input k d)
  rcases hj with ⟨h0, ht⟩ | ⟨h1, ha, hf, hc, hlt⟩
  · obtain ⟨r1, r2, r3⟩ := read_input_trigger k d ht
    refine ⟨fun _ => ?_, fun hne => ?_⟩
    · have h := s3 r1 (by omega)
      refine ⟨?_, ?_, ?_⟩ <;> omega
    · exfalso
      apply hne
      rw [o4 (fun hh => by omega)]
  · have hnt : ¬ (k.bt1 = true ∧ d.cooldown = 0 ∧ k.bt2 = false) := by
      rintro ⟨_, hz, _⟩
      omega
    obtain ⟨r1, r2, r3⟩ := read_input_no_trigger k d hnt
    have hatt : attacking (read_input k d).self := by
      unfold attacking at ha ⊢
      rw [r1]
      exact ha
    refine ⟨fun hA => ?_, fun hne => ?_⟩
    · by_cases hlt2 : (read_input k d).self.attack_frame + 1 < 10
      · have h := s3 hatt hlt2
        refine ⟨?_, ?_, ?_⟩ <;> omega
      · exfalso
        have h := s4 hatt hlt2
        unfold attacking at hA
        omega
    · by_contra hj1
      apply hne
      rw [o4 (fun hh => by omega)]

lemma tick_cooldown_running (j : Int) (h : j < 10) : tick_cooldown (16 - j) = 15 - j := by
  unfold tick_cooldown
  split_ifs <;> omega

/-- One tick of an attack of Player 1, counted from its trigger tick `j = 0`. -/
lemma p1_attack_advances (cfg : Configs) (i : Input) (g : Game) (j : Int)
    (hj : (j = 0 ∧ p1_attack_triggered i g) ∨
          (1 ≤ j ∧ attacking g.p1 ∧
            (g.p1.health > 0 →
              g.p1.attack_frame = j ∧ g.p1_attack_cooldown = 16 - j ∧ j < 10))) :
    (attacking (fight_tick cfg i g).p1 → (fight_tick cfg i g).p1.health > 0 →
      (fight_tick cfg i g).p1.attack_frame = j + 1 ∧
      (fight_tick cfg i g).p1_attack_cooldown = 16 - (j + 1) ∧ j + 1 < 10) ∧
    (p1_melee_loss cfg i g ≠ 0 → j = 1) := by
  have key : g.p1.health > 0 →
      (j = 0 ∧ (i.p1.bt1 = true ∧ tick_cooldown g.p1_attack_cooldown = 0 ∧ i.p1.bt2 = false)) ∨
      (1 ≤ j ∧ attacking g.p1 ∧ g.p1.attack_frame = j ∧
        tick_cooldown g.p1_attack_cooldown = 15 - j ∧ j < 10) := by
    intro hal
    rcases hj with ⟨h0, ht⟩ | ⟨h1, ha, hinv⟩
    · exact Or.inl ⟨h0, ht.2⟩
    · obtain ⟨hf, hc, hlt⟩ := hinv hal
      refine Or.inr ⟨h1, ha, hf, ?_, hlt⟩
      rw [hc]
      exact tick_cooldown_running j hlt
  refine ⟨fun ha hl => ?_, fun hne => ?_⟩
  · obtain ⟨q1, q2, q3, q4⟩ := p1_tick cfg i g ha hl
    have hd := (duel_attack_advances cfg i.p1
      { self := g.p1, opp := g.p2, cooldown := tick_cooldown g.p1_attack_cooldown,
        pool := g.projectiles } j (key q1)).1
    have hatt : attacking (attack_step cfg (p1_at_attack_step i g)).self := by
      unfold attacking at ha ⊢
      rw [← q2]
      exact ha
    obtain ⟨e1, e2, e3⟩ := hd hatt
    refine ⟨q3.trans e1, ?_, e3⟩
    rw [q4]
    unfold p1_at_attack_step
    omega
  · by_cases hal : g.p1.health > 0
    · have hd := (duel_attack_advances cfg i.p1
        { self := g.p1, opp := g.p2, cooldown := tick_cooldown g.p1_attack_cooldown,
          pool := g.projectiles } j (key hal)).2
      apply hd
      intro heq
      apply hne
      simp only [p1_melee_loss, if_pos hal, p1_at_attack_step]
      omega
    · exfalso
      apply hne
      simp only [p1_melee_loss, if_neg hal]

/-- One tick of an attack of Player 2, counted from its trigger tick `j = 0`. -/
lemma p2_attack_advances (cfg : Configs) (i : Input) (g : Game) (j : Int)
    (hj : (j = 0 ∧ p2_attack_triggered cfg i g) ∨
          (1 ≤ j ∧ attacking g.p2 ∧
            (g.p2.health > 0 →
              g.p2.attack_frame = j ∧ g.p2_attack_cooldown = 16 - j ∧ j < 10))) :
    (attacking (fight_tick cfg i g).p2 → (fight_tick cfg i g).p2.health > 0 →
      (fight_tick cfg i g).p2.attack_frame = j + 1 ∧
      (fight_tick cfg i g).p2_attack_cooldown = 16 - (j + 1) ∧ j + 1 < 10) ∧
    (p2_melee_loss cfg i g ≠ 0 → j = 1) := by
  obtain ⟨u1, u2, u3, u4⟩ := update_p1_opp cfg i.p1 g
  have key : (update_p1 cfg i.p1 g).p2.health > 0 →
      (j = 0 ∧ (i.p2.bt1 = true ∧
        tick_cooldown (update_p1 cfg i.p1 g).p2_attack_cooldown = 0 ∧ i.p2.bt2 = false)) ∨
      (1 ≤ j ∧ attacking (update_p1 cfg i.p1 g).p2 ∧
        (update_p1 cfg i.p1 g).p2.attack_frame = j ∧
        tick_cooldown (update_p1 cfg i.p1 g).p2_attack_cooldown = 15 - j ∧ j < 10) := by
    intro hal
    rw [u4]
    rcases hj with ⟨h0, ht⟩ | ⟨h1, ha, hinv⟩
    · exact Or.inl ⟨h0, ht.2⟩
    · obtain ⟨hf, hc, hlt⟩ := hinv (u3 hal)
      refine Or.inr ⟨h1, ?_, u2.trans hf, ?_, hlt⟩
      · unfold attacking at ha ⊢
        rw [u1]
        exact ha
      · rw [hc]
        exact tick_cooldown_running j hlt
  refine ⟨fun ha hl => ?_, fun hne => ?_⟩
  · obtain ⟨q1, q2, q3, q4⟩ := p2_tick cfg i g ha hl
    have hd := (duel_attack_advances cfg i.p2
      { self := (update_p1 cfg i.p1 g).p2, opp := (update_p1 cfg i.p1 g).p1,
        cooldown := tick_cooldown (update_p1 cfg i.p1 g).p2_attack_cooldown,
        pool := (update_p1 cfg i.p1 g).projectiles } j (key q1)).1
    have hatt : attacking (attack_step cfg (p2_at_attack_step cfg i g)).self := by
      unfold attacking at ha ⊢
      rw [← q2]
      exact ha
    obtain ⟨e1, e2, e3⟩ := hd hatt
    refine ⟨q3.trans e1, ?_, e3⟩
    rw [q4]
    unfold p2_at_attack_step
    omega
  · by_cases hal : (update_p1 cfg i.p1 g).p2.health > 0
    · have hd := (duel_attack_advances cfg i.p2
        { self := (update_p1 cfg i.p1 g).p2, opp := (update_p1 cfg i.p1 g).p1,
          cooldown := tick_cooldown (update_p1 cfg i.p1 g).p2_attack_cooldown,
          pool := (update_p1 cfg i.p1 g).projectiles } j (key hal)).2
      apply hd
      intro heq
      apply hne
      simp only [p2_melee_loss, if_pos hal, p2_at_attack_step]
      omega
    · exfalso
      apply hne
      simp only [p2_melee_loss, if_neg hal]

lemma run_ticks_append (cfg : Configs) :
    ∀ (l1 l2 : List Input) (g : Game),
      run_ticks cfg g (l1 ++ l2) = run_ticks cfg (run_ticks cfg g l1) l2 := by
  intro l1
  induction l1 with
  | nil => intro l2 g; rfl
  | cons i rest ih => intro l2 g; exact ih l2 (fight_tick cfg i g)

lemma state_after_succ (cfg : Configs) (g : Game) (inputs : Nat → Input) (n : Nat) :
    state_after cfg g inputs (n + 1) = fight_tick cfg (inputs n) (state_after cfg g inputs n) := by
  unfold state_after
  rw [List.range_succ, List.map_append, run_ticks_append]
  rfl

/-- Along an attack of Player 1 triggered in tick 0, a living Player 1 enters tick
`n ≥ 1` with attack frame `n` and attack cooldown `16 - n`. -/
lemma p1_attack_trace (cfg : Configs) (g : Game) (inputs : Nat → Input)
    (hstart : p1_attack_triggered (inputs 0) g) :
    ∀ n : Nat, (∀ j : Nat, 1 ≤ j → j ≤ n + 1 → attacking (state_after cfg g inputs j).p1) →
      (state_after cfg g inputs (n + 1)).p1.health > 0 →
      (state_after cfg g inputs (n + 1)).p1.attack_frame = ((n + 1 : Nat) : Int) ∧
      (state_after cfg g inputs (n + 1)).p1_attack_cooldown = 16 - ((n + 1 : Nat) : Int) ∧
      ((n + 1 : Nat) : Int) < 10 := by
  intro n
  induction n with
  | zero =>
    intro hatt hal
    have h1 := hatt 1 (le_refl _) (le_refl _)
    rw [state_after_succ] at h1 hal ⊢
    have h := (p1_attack_advances cfg (inputs 0) (state_after cfg g inputs 0) 0
      (Or.inl ⟨rfl, hstart⟩)).1 h1 hal
    simpa using h
  | succ m ih =>
    intro hatt hal
    have hprev := ih (fun j h1 h2 => hatt j h1 (Nat.le_succ_of_le h2))
    have hm := hatt (m + 1) (Nat.succ_pos _) (Nat.le_succ _)
    have hlast := hatt (m + 1 + 1) (Nat.succ_pos _) (le_refl _)
    rw [state_after_succ] at hlast hal ⊢
    have h := (p1_attack_advances cfg (inputs (m + 1)) (state_after cfg g inputs (m + 1))
      ((m + 1 : Nat) : Int) (Or.inr ⟨by omega, hm, hprev⟩)).1 hlast hal
    push_cast at h ⊢
    exact h

/-- Along an attack of Player 2 triggered in tick 0, a living Player 2 enters tick
`n ≥ 1` with attack frame `n` and attack cooldown `16 - n`. -/
lemma p2_attack_trace (cfg : Configs) (g : Game) (inputs : Nat → Input)
    (hstart : p2_attack_triggered cfg (inputs 0) g) :
    ∀ n : Nat, (∀ j : Nat, 1 ≤ j → j ≤ n + 1 → attacking (state_after cfg g inputs j).p2) →
      (state_after cfg g inputs (n + 1)).p2.health > 0 →
      (state_after cfg g inputs (n + 1)).p2.attack_frame = ((n + 1 : Nat) : Int) ∧
      (state_after cfg g inputs (n + 1)).p2_attack_cooldown = 16 - ((n + 1 : Nat) : Int) ∧
      ((n + 1 : Nat) : Int) < 10 := by
  intro n
  induction n with
  | zero =>
    intro hatt hal
    have h1 := hatt 1 (le_refl _) (le_refl _)
    rw [state_after_succ] at h1 hal ⊢
    have h := (p2_attack_advances cfg (inputs 0) (state_after cfg g inputs 0) 0
      (Or.inl ⟨rfl, hstart⟩)).1 h1 hal
    simpa using h
  | succ m ih =>
    intro hatt hal
    have hprev := ih (fun j h1 h2 => hatt j h1 (Nat.le_succ_of_le h2))
    have hm := hatt (m + 1) (Nat.succ_pos _) (Nat.le_succ _)
    have hlast := hatt (m + 1 + 1) (Nat.succ_pos _) (le_refl _)
    rw [state_after_succ] at hlast hal ⊢
    have h := (p2_attack_advances cfg (inputs (m + 1)) (state_after cfg g inputs (m + 1))
      ((m + 1 : Nat) : Int) (Or.inr ⟨by omega, hm, hprev⟩)).1 hlast hal
    push_cast at h ⊢
    exact h

/-- The hit check on the tick where the attack frame becomes 2. -/
lemma attack_step_hit (cfg : Configs) (d : Duel) (ha : attacking d.self)
    (hf : d.self.attack_frame = 1) (hal : d.opp.health > 0)
    (hov : boxes_overlap (get_hitbox cfg { d.self with attack_frame := 2 })
      (get_hurtbox cfg d.opp) = true) :
    (attack_step cfg d).opp.health
      = max 0 (d.opp.health - (if d.opp.is_blocking = true then 1 else 5)) ∧
    (attack_step cfg d).opp.health < d.opp.health := by
  have ha2 : d.self.state = 3 ∨ d.self.state = 6 := ha
  have e : (attack_step cfg d).opp = melee_damage d.opp := by
    simp only [attack_step, if_pos ha2, hf]
    norm_num
    simp only [hal, hov, if_true]
  rw [e]
  simp only [melee_damage, BLOCKED_DAMAGE, NORMAL_DAMAGE, max_def]
  split_ifs <;> dsimp only <;> omega

/-- The hit check on every other tick changes nothing of the opponent. -/
lemma attack_step_no_hit (cfg : Configs) (d : Duel) (hf : d.self.attack_frame ≠ 1) :
    (attack_step cfg d).opp = d.opp :=
  (attack_step_opp cfg d).2.2.2 (fun h => hf h.2)

/-- C2: one melee attack damages at most once, on the tick where the attack frame
becomes 2.  For an attack of Player 1 triggered in tick 0 of a run with arbitrary
inputs, and any tick `n` up to which Player 1 has stayed in Attack/CrouchAttack:
Player 1's hit check changes Player 2's health in tick `n` only if `n = 1`, and a
living Player 1 enters the attack block of tick `n ≥ 1` attacking with attack frame
`n` (so the frame becomes 2 in tick 1 and 3..6 in ticks 2..5).  The same holds for
an attack of Player 2.  In the attack block, when the frame becomes 2, the defender
is alive and the attacker's hitbox overlaps the defender's hurtbox, the defender's
health becomes `max 0 (health - 5)` (`max 0 (health - 1)` if the defender is
blocking), which is lower than before; when the frame becomes 3..6 the defender is
left unchanged whatever the boxes do. -/
theorem melee_attack_hits_once (cfg : Configs) (g : Game) (inputs : Nat → Input) :
    (p1_attack_triggered (inputs 0) g →
      ∀ n : Nat, (∀ j : Nat, 1 ≤ j → j ≤ n → attacking (state_after cfg g inputs j).p1) →
        (p1_melee_loss cfg (inputs n) (state_after cfg g inputs n) ≠ 0 → n = 1) ∧
        (1 ≤ n → (state_after cfg g inputs n).p1.health > 0 →
          attacking (p1_at_attack_step (inputs n) (state_after cfg g inputs n)).self ∧
          (p1_at_attack_step (inputs n) (state_after cfg g inputs n)).self.attack_frame
            = (n : Int))) ∧
    (p2_attack_triggered cfg (inputs 0) g →
      ∀ n : Nat, (∀ j : Nat, 1 ≤ j → j ≤ n → attacking (state_after cfg g inputs j).p2) →
        (p2_melee_loss cfg (inputs n) (state_after cfg g inputs n) ≠ 0 → n = 1) ∧
        (1 ≤ n →
          (update_p1 cfg (inputs n).p1 (state_after cfg g inputs n)).p2.health > 0 →
          attacking (p2_at_attack_step cfg (inputs n) (state_after cfg g inputs n)).self ∧
          (p2_at_attack_step cfg (inputs n) (state_after cfg g inputs n)).self.attack_frame
            = (n : Int))) ∧
    (∀ d : Duel, attacking d.self → d.self.attack_frame + 1 = 2 → d.opp.health > 0 →
      boxes_overlap (get_hitbox cfg { d.self with attack_frame := 2 })
        (get_hurtbox cfg d.opp) = true →
      (attack_step cfg d).opp.health
        = max 0 (d.opp.health - (if d.opp.is_blocking = true then 1 else 5)) ∧
      (attack_step cfg d).opp.health < d.opp.health) ∧
    (∀ d : Duel, 3 ≤ d.self.attack_frame + 1 → d.self.attack_frame + 1 ≤ 6 →
      (attack_step cfg d).opp = d.opp) := by
  refine ⟨?_, ?_, ?_, ?_⟩
  · intro hstart n hatt
    cases n with
    | zero =>
      refine ⟨fun hne => ?_, fun h => absurd h (by decide)⟩
      have h := (p1_attack_advances cfg (inputs 0) (state_after cfg g inputs 0) 0
        (Or.inl ⟨rfl, hstart⟩)).2 hne
      omega
    | succ m =>
      have hinv := p1_attack_trace cfg g inputs hstart m hatt
      have hm := hatt (m + 1) (Nat.succ_pos _) (le_refl _)
      refine ⟨fun hne => ?_, fun _ hal => ?_⟩
      · have h := (p1_attack_advances cfg (inputs (m + 1)) (state_after cfg g inputs (m + 1))
          ((m + 1 : Nat) : Int) (Or.inr ⟨by omega, hm, hinv⟩)).2 hne
        omega
      · obtain ⟨hf, hc, hlt⟩ := hinv hal
        have hnt : ¬ ((inputs (m + 1)).p1.bt1 = true ∧
            tick_cooldown (state_after cfg g inputs (m + 1)).p1_attack_cooldown = 0 ∧
            (inputs (m + 1)).p1.bt2 = false) := by
          rintro ⟨_, hz, _⟩
          rw [hc, tick_cooldown_running _ hlt] at hz
          omega
        obtain ⟨r1, r2, _⟩ := read_input_no_trigger (inputs (m + 1)).p1
          { self := (state_after cfg g inputs (m + 1)).p1,
            opp := (state_after cfg g inputs (m + 1)).p2,
            cooldown := tick_cooldown (state_after cfg g inputs (m + 1)).p1_attack_cooldown,
            pool := (state_after cfg g inputs (m + 1)).projectiles } hnt
        refine ⟨?_, ?_⟩
        · unfold attacking p1_at_attack_step at *
          rw [r1]
          exact hm
        · unfold p1_at_attack_step
          rw [r2]
          exact hf
  · intro hstart n hatt
    cases n with
    | zero =>
      refine ⟨fun hne => ?_, fun h => absurd h (by decide)⟩
      have h := (p2_attack_advances cfg (inputs 0) (state_after cfg g inputs 0) 0
        (Or.inl ⟨rfl, hstart⟩)).2 hne
      omega
    | succ m =>
      have hinv := p2_attack_trace cfg g inputs hstart m hatt
      have hm := hatt (m + 1) (Nat.succ_pos _) (le_refl _)
      refine ⟨fun hne => ?_, fun _ hal => ?_⟩
      · have h := (p2_attack_advances cfg (inputs (m + 1)) (state_after cfg g inputs (m + 1))
          ((m + 1 : Nat) : Int) (Or.inr ⟨by omega, hm, hinv⟩)).2 hne
        omega
      · obtain ⟨u1, u2, u3, u4⟩ :=
          update_p1_opp cfg (inputs (m + 1)).p1 (state_after cfg g inputs (m + 1))
        obtain ⟨hf, hc, hlt⟩ := hinv (u3 hal)
        have hnt : ¬ ((inputs (m + 1)).p2.bt1 = true ∧
            tick_cooldown (update_p1 cfg (inputs (m + 1)).p1
              (state_after cfg g inputs (m + 1))).p2_attack_cooldown = 0 ∧
            (inputs (m + 1)).p2.bt2 = false) := by
          rintro ⟨_, hz, _⟩
          rw [u4, hc, tick_cooldown_running _ hlt] at hz
          omega
        obtain ⟨r1, r2, _⟩ := read_input_no_trigger (inputs (m + 1)).p2
          { self := (update_p1 cfg (inputs (m + 1)).p1 (state_after cfg g inputs (m + 1))).p2,
            opp := (update_p1 cfg (inputs (m + 1)).p1 (state_after cfg g inputs (m + 1))).p1,
            cooldown := tick_cooldown (update_p1 cfg (inputs (m + 1)).p1
              (state_after cfg g inputs (m + 1))).p2_attack_cooldown,
            pool := (update_p1 cfg (inputs (m + 1)).p1
              (state_after cfg g inputs (m + 1))).projectiles } hnt
        refine ⟨?_, ?_⟩
        · unfold attacking p2_at_attack_step at *
          rw [r1, u1]
          exact hm
        · unfold p2_at_attack_step
          rw [r2, u2]
          exact hf
  · intro d ha hf hal hov
    exact attack_step_hit cfg d ha (by omega) hal hov
  · intro d h3 h6
    exact attack_step_no_hit cfg d (by omega)

/-- The sample attack after its trigger tick: Player 1 is in Attack. -/
lemma sample_attack_state :
    (state_after no_config close_game sample_inputs 1).p1.state = 3 := by
  rw [state_after_succ]
  have h0 : state_after no_config close_game sample_inputs 0 = close_game := rfl
  have hi : sample_inputs 0 = p1_attack_input := rfl
  rw [h0, hi]
  norm_num [fight_tick, before_clash, settle_stage, update_p1, update_p2, player_update,
    read_input, move_input, attack_step, special_step, physics_step, body_collision,
    update_anim, derive_state, attack_clash, projectile_stage, update_projectiles,
    update_projectile, round_controller, tick_cooldown, get_body_box, boxes_overlap,
    get_clash_box, close_game, start_game, start_p1, start_p2, empty_pool, idle_projectile,
    p1_attack_input, no_keys]

/-- Witness for C2: Player 1 at x = 300 presses attack in tick 0 against Player 2
at x = 340; Player 1 is still in Attack when tick 1 starts. -/
theorem melee_attack_hits_once_witness :
    p1_attack_triggered (sample_inputs 0) close_game ∧
    attacking (state_after no_config close_game sample_inputs 1).p1 ∧
    ((p1_melee_loss no_config (sample_inputs 1)
        (state_after no_config close_game sample_inputs 1) ≠ 0 → 1 = 1) ∧
     (1 ≤ 1 → (state_after no_config close_game sample_inputs 1).p1.health > 0 →
        attacking (p1_at_attack_step (sample_inputs 1)
          (state_after no_config close_game sample_inputs 1)).self ∧
        (p1_at_attack_step (sample_inputs 1)
          (state_after no_config close_game sample_inputs 1)).self.attack_frame
            = ((1 : Nat) : Int))) :=
  ⟨by unfold p1_attack_triggered; decide,
   Or.inl sample_attack_state,
   (melee_attack_hits_once no_config close_game sample_inputs).1
     (by unfold p1_attack_triggered; decide) 1
     (fun j h1 h2 => by
       have hj : j = 1 := Nat.le_antisymm h2 h1
       rw [hj]
       exact Or.inl sample_attack_state)⟩

/-! ### The round transition -/

lemma same_control_refl (g : Game) : same_control g g :=
  ⟨rfl, rfl, rfl, rfl, rfl, rfl, rfl⟩

lemma same_control_trans {a b c : Game} (h1 : same_control a b) (h2 : same_control b c) :
    same_control a c := by
  obtain ⟨a1, a2, a3, a4, a5, a6, a7⟩ := h1
  obtain ⟨b1, b2, b3, b4, b5, b6, b7⟩ := h2
  exact ⟨b1.trans a1, b2.trans a2, b3.trans a3, b4.trans a4, b5.trans a5, b6.trans a6,
    b7.trans a7⟩

lemma player_update_character_id (cfg : Configs) (k : Keys) (n : Int) (d : Duel) :
    (player_update cfg k n d).self.character_id = d.self.character_id ∧
    (player_update cfg k n d).opp.character_id = d.opp.character_id := by
  have hs := special_step_frame k n (attack_step cfg (read_input k d))
  have hp := physics_step_frame (special_step k n (attack_step cfg (read_input k d))).self
  have hm := move_input_frame k d.self
  have hr : (read_input k d).self.character_id = d.self.character_id ∧
      (read_input k d).opp = d.opp := by
    simp only [read_input]
    split_ifs <;> exact ⟨hm.2.2.2.2, rfl⟩
  have ha : (attack_step cfg (read_input k d)).self.character_id
      = (read_input k d).self.character_id := by
    simp only [attack_step]
    split_ifs <;> rfl
  have hao : (attack_step cfg (read_input k d)).opp.character_id
      = (read_input k d).opp.character_id := by
    rcases attack_step_opp_cases cfg (read_input k d) with h | ⟨_, h⟩
    · rw [h]
    · rw [h, (melee_damage_frame _).2.2.1]
  simp only [player_update]
  refine ⟨?_, ?_⟩
  · rw [hp.2.2, hs.2.2.1, ha, hr.1]
  · rw [hs.2.2.2.2.2.2.1, hao, hr.2]

lemma update_p1_control (cfg : Configs) (k : Keys) (g : Game) :
    same_control g (update_p1 cfg k g) := by
  have h := player_update_character_id cfg k 0
    { self := g.p1, opp := g.p2, cooldown := tick_cooldown g.p1_attack_cooldown,
      pool := g.projectiles }
  simp only [update_p1, same_control]
  split_ifs
  · exact ⟨rfl, rfl, rfl, rfl, rfl, h.1, h.2⟩
  · exact ⟨rfl, rfl, rfl, rfl, rfl, rfl, rfl⟩

lemma update_p2_control (cfg : Configs) (k : Keys) (g : Game) :
    same_control g (update_p2 cfg k g) := by
  have h := player_update_character_id cfg k 1
    { self := g.p2, opp := g.p1, cooldown := tick_cooldown g.p2_attack_cooldown,
      pool := g.projectiles }
  simp only [update_p2, same_control]
  split_ifs
  · exact ⟨rfl, rfl, rfl, rfl, rfl, h.2, h.1⟩
  · exact ⟨rfl, rfl, rfl, rfl, rfl, rfl, rfl⟩

lemma settle_stage_control (g : Game) : same_control g (settle_stage g) := by
  have hb : same_control g (body_collision g) := by
    simp only [body_collision, same_control]
    split_ifs <;> exact ⟨rfl, rfl, rfl, rfl, rfl, rfl, rfl⟩
  obtain ⟨b1, b2, b3, b4, b5, b6, b7⟩ := hb
  have a1 := (update_anim_frame (body_collision g).p1).2.2
  have a2 := (update_anim_frame (body_collision g).p2).2.2
  have d1 := (derive_state_continues (update_anim (body_collision g).p1)).2
  have d2 := (derive_state_continues (update_anim (body_collision g).p2)).2
  exact ⟨b1, b2, b3, b4, b5, d1.trans (a1.trans b6), d2.trans (a2.trans b7)⟩

lemma attack_clash_control (g : Game) : same_control g (attack_clash g) := by
  simp only [attack_clash, same_control]
  split_ifs <;> exact ⟨rfl, rfl, rfl, rfl, rfl, rfl, rfl⟩

lemma projectile_stage_control (cfg : Configs) (g : Game) :
    same_control g (projectile_stage cfg g) := by
  obtain ⟨⟨_, _, a3, _⟩, ⟨_, _, b3, _⟩⟩ := update_projectiles_frame cfg g.projectiles g.p1 g.p2
  exact ⟨rfl, rfl, rfl, rfl, rfl, a3, b3⟩

lemma pre_controller_control (cfg : Configs) (i : Input) (g : Game) :
    same_control g (projectile_stage cfg (attack_clash (before_clash cfg i g))) :=
  same_control_trans (update_p1_control cfg i.p1 g)
    (same_control_trans (update_p2_control cfg i.p2 _)
      (same_control_trans (settle_stage_control _)
        (same_control_trans (attack_clash_control _) (projectile_stage_control cfg _))))

/-- A tick with more than one transition tick left only counts the timer down. -/
lemma fight_tick_countdown (cfg : Configs) (i : Input) (g : Game)
    (h : g.round_transition_timer > 1) :
    (fight_tick cfg i g).game_mode = g.game_mode ∧
    (fight_tick cfg i g).current_round = g.current_round ∧
    (fight_tick cfg i g).round_transition_timer = g.round_transition_timer - 1 ∧
    (fight_tick cfg i g).p1_rounds_won = g.p1_rounds_won ∧
    (fight_tick cfg i g).p2_rounds_won = g.p2_rounds_won ∧
    (fight_tick cfg i g).p1.character_id = g.p1.character_id ∧
    (fight_tick cfg i g).p2.character_id = g.p2.character_id := by
  obtain ⟨c1, c2, c3, c4, c5, c6, c7⟩ := pre_controller_control cfg i g
  have hpos : (projectile_stage cfg (attack_clash (before_clash cfg i g))).round_transition_timer
      > 0 := by omega
  have hne : ¬ (projectile_stage cfg (attack_clash (before_clash cfg i g))).round_transition_timer
      - 1 = 0 := by omega
  simp only [fight_tick, round_controller, if_pos hpos, if_neg hne]
  exact ⟨c1, c2, by rw [c3], c4, c5, c6, c7⟩

/-- The tick that starts with one transition tick left resolves the transition. -/
lemma fight_tick_resolve (cfg : Configs) (i : Input) (g : Game)
    (h : g.round_transition_timer = 1) :
    (fight_tick cfg i g).round_transition_timer = 0 ∧
    ((g.p1_rounds_won ≥ 2 ∨ g.p2_rounds_won ≥ 2) →
      (fight_tick cfg i g).game_mode = 3 ∧
      (fight_tick cfg i g).current_round = g.current_round) ∧
    (¬ (g.p1_rounds_won ≥ 2 ∨ g.p2_rounds_won ≥ 2) →
      (fight_tick cfg i g).game_mode = g.game_mode ∧
      (fight_tick cfg i g).current_round = g.current_round + 1 ∧
      (fight_tick cfg i g).p1 =
        { x := 150, y := 350, vx := 0, vy := 0, health := 100, state := 0, anim_frame := 0,
          anim_timer := 0, facing := 1, on_ground := true, character_id := g.p1.character_id,
          is_blocking := false, is_crouching := false, special_move_cooldown := 0,
          is_dashing := false, dash_timer := 0, attack_frame := 0 } ∧
      (fight_tick cfg i g).p2 =
        { x := 490, y := 350, vx := 0, vy := 0, health := 100, state := 0, anim_frame := 0,
          anim_timer := 0, facing := -1, on_ground := true, character_id := g.p2.character_id,
          is_blocking := false, is_crouching := false, special_move_cooldown := 0,
          is_dashing := false, dash_timer := 0, attack_frame := 0 }) := by
  obtain ⟨c1, c2, c3, c4, c5, c6, c7⟩ := pre_controller_control cfg i g
  have hpos : (projectile_stage cfg (attack_clash (before_clash cfg i g))).round_transition_timer
      > 0 := by omega
  have hz : (projectile_stage cfg (attack_clash (before_clash cfg i g))).round_transition_timer
      - 1 = 0 := by omega
  refine ⟨?_, ?_, ?_⟩
  · simp only [fight_tick, round_controller, if_pos hpos, if_pos hz]
    split_ifs <;> exact hz
  · intro hr
    have hr2 : (projectile_stage cfg (attack_clash (before_clash cfg i g))).p1_rounds_won ≥ 2 ∨
        (projectile_stage cfg (attack_clash (before_clash cfg i g))).p2_rounds_won ≥ 2 := by
      rw [c4, c5]
      exact hr
    simp only [fight_tick, round_controller, if_pos hpos, if_pos hz, if_pos hr2]
    exact ⟨trivial, c2⟩
  · intro hr
    have hr2 : ¬ ((projectile_stage cfg (attack_clash (before_clash cfg i g))).p1_rounds_won ≥ 2 ∨
        (projectile_stage cfg (attack_clash (before_clash cfg i g))).p2_rounds_won ≥ 2) := by
      rw [c4, c5]
      exact hr
    simp only [fight_tick, round_controller, if_pos hpos, if_pos hz, if_neg hr2, init_player]
    refine ⟨c1, by rw [c2], ?_, ?_⟩
    · rw [c6]
      simp
    · rw [c7]
      simp

lemma run_ticks_countdown (cfg : Configs) :
    ∀ (inputs : List Input) (g : Game), (inputs.length : Int) < g.round_transition_timer →
      (run_ticks cfg g inputs).game_mode = g.game_mode ∧
      (run_ticks cfg g inputs).current_round = g.current_round ∧
      (run_ticks cfg g inputs).round_transition_timer
        = g.round_transition_timer - (inputs.length : Int) ∧
      (run_ticks cfg g inputs).p1_rounds_won = g.p1_rounds_won ∧
      (run_ticks cfg g inputs).p2_rounds_won = g.p2_rounds_won ∧
      (run_ticks cfg g inputs).p1.character_id = g.p1.character_id ∧
      (run_ticks cfg g inputs).p2.character_id = g.p2.character_id := by
  intro inputs
  induction inputs with
  | nil =>
    intro g _
    refine ⟨rfl, rfl, ?_, rfl, rfl, rfl, rfl⟩
    have e : run_ticks cfg g [] = g := rfl
    rw [e, List.length_nil, Nat.cast_zero, sub_zero]
  | cons i rest ih =>
    intro g hlen
    rw [List.length_cons, Nat.cast_add, Nat.cast_one] at hlen
    obtain ⟨c1, c2, c3, c4, c5, c6, c7⟩ := fight_tick_countdown cfg i g (by omega)
    obtain ⟨d1, d2, d3, d4, d5, d6, d7⟩ := ih (fight_tick cfg i g) (by omega)
    have e : run_ticks cfg g (i :: rest) = run_ticks cfg (fight_tick cfg i g) rest := rfl
    rw [e, List.length_cons, Nat.cast_add, Nat.cast_one]
    exact ⟨d1.trans c1, d2.trans c2, by omega, d4.trans c4, d5.trans c5, d6.trans c6,
      d7.trans c7⟩

/-- C4: from a state whose `round_transition_timer` is 120, the first 119 fight
ticks (any inputs, any configuration) leave `game_mode` and `current_round`
unchanged and only count the timer down; the 120th tick brings the timer to 0 and,
if a player has 2 round wins, sets `game_mode` to 3 with `current_round` unchanged,
otherwise leaves `game_mode`, adds 1 to `current_round` and writes round-start
values into both players, keeping each `character_id`. -/
theorem round_transition_resolves (cfg : Configs) (g : Game) (inputs : List Input)
    (ht : g.round_transition_timer = 120) :
    (∀ k : Nat, k < 120 → k ≤ inputs.length →
      (run_ticks cfg g (inputs.take k)).game_mode = g.game_mode ∧
      (run_ticks cfg g (inputs.take k)).current_round = g.current_round ∧
      (run_ticks cfg g (inputs.take k)).round_transition_timer = 120 - (k : Int)) ∧
    (inputs.length = 120 →
      (run_ticks cfg g inputs).round_transition_timer = 0 ∧
      ((g.p1_rounds_won ≥ 2 ∨ g.p2_rounds_won ≥ 2) →
        (run_ticks cfg g inputs).game_mode = 3 ∧
        (run_ticks cfg g inputs).current_round = g.current_round) ∧
      (¬ (g.p1_rounds_won ≥ 2 ∨ g.p2_rounds_won ≥ 2) →
        (run_ticks cfg g inputs).game_mode = g.game_mode ∧
        (run_ticks cfg g inputs).current_round = g.current_round + 1 ∧
        (run_ticks cfg g inputs).p1 =
          { x := 150, y := 350, vx := 0, vy := 0, health := 100, state := 0, anim_frame := 0,
            anim_timer := 0, facing := 1, on_ground := true,
            character_id := g.p1.character_id, is_blocking := false, is_crouching := false,
            special_move_cooldown := 0, is_dashing := false, dash_timer := 0,
            attack_frame := 0 } ∧
        (run_ticks cfg g inputs).p2 =
          { x := 490, y := 350, vx := 0, vy := 0, health := 100, state := 0, anim_frame := 0,
            anim_timer := 0, facing := -1, on_ground := true,
            character_id := g.p2.character_id, is_blocking := false, is_crouching := false,
            special_move_cooldown := 0, is_dashing := false, dash_timer := 0,
            attack_frame := 0 })) := by
  refine ⟨?_, ?_⟩
  · intro k hk hle
    have hlen : (inputs.take k).length = k := by
      rw [List.length_take]
      exact Nat.min_eq_left hle
    obtain ⟨c1, c2, c3, _⟩ := run_ticks_countdown cfg (inputs.take k) g (by rw [hlen, ht]; omega)
    refine ⟨c1, c2, ?_⟩
    rw [c3, hlen, ht]
  · intro hlen
    have htake : (inputs.take 119).length = 119 := by
      rw [List.length_take, hlen]
      rfl
    have hdrop : (inputs.drop 119).length = 1 := by
      rw [List.length_drop, hlen]
    obtain ⟨i, hi⟩ := List.length_eq_one.mp hdrop
    have hsplit : inputs = inputs.take 119 ++ [i] := by
      rw [← hi]
      exact (List.take_append_drop 119 inputs).symm
    obtain ⟨c1, c2, c3, c4, c5, c6, c7⟩ :=
      run_ticks_countdown cfg (inputs.take 119) g (by rw [htake, ht]; decide)
    have h1 : (run_ticks cfg g (inputs.take 119)).round_transition_timer = 1 := by
      rw [c3, htake, ht]
      rfl
    obtain ⟨r0, r1, r2⟩ := fight_tick_resolve cfg i (run_ticks cfg g (inputs.take 119)) h1
    have hrun : run_ticks cfg g inputs
        = fight_tick cfg i (run_ticks cfg g (inputs.take 119)) := by
      conv_lhs => rw [hsplit]
      rw [run_ticks_append]
      rfl
    rw [hrun]
    refine ⟨r0, ?_, ?_⟩
    · intro hr
      obtain ⟨e1, e2⟩ := r1 (by rw [c4, c5]; exact hr)
      exact ⟨e1, e2.trans c2⟩
    · intro hr
      obtain ⟨e1, e2, e3, e4⟩ := r2 (by rw [c4, c5]; exact hr)
      refine ⟨e1.trans c1, by rw [e2, c2], ?_, ?_⟩
      · rw [e3, c6]
      · rw [e4, c7]

/-- Witness for C4: Player 1 knocked out at score 0-1 with the transition just
started, then 120 ticks without any key: the next round starts. -/
theorem round_transition_resolves_witness :
    (run_ticks no_config transition_game idle_inputs).game_mode = transition_game.game_mode ∧
    (run_ticks no_config transition_game idle_inputs).current_round
      = transition_game.current_round + 1 ∧
    (run_ticks no_config transition_game idle_inputs).p1 =
      { x := 150, y := 350, vx := 0, vy := 0, health := 100, state := 0, anim_frame := 0,
        anim_timer := 0, facing := 1, on_ground := true,
        character_id := transition_game.p1.character_id, is_blocking := false,
        is_crouching := false, special_move_cooldown := 0, is_dashing := false,
        dash_timer := 0, attack_frame := 0 } ∧
    (run_ticks no_config transition_game idle_inputs).p2 =
      { x := 490, y := 350, vx := 0, vy := 0, health := 100, state := 0, anim_frame := 0,
        anim_timer := 0, facing := -1, on_ground := true,
        character_id := transition_game.p2.character_id, is_blocking := false,
        is_crouching := false, special_move_cooldown := 0, is_dashing := false,
        dash_timer := 0, attack_frame := 0 } :=
  ((round_transition_resolves no_config transition_game idle_inputs rfl).2
    (by simp [idle_inputs])).2.2 (by decide)

/-! ### Configuration lookup and the fallback boxes -/

/-- The lookup finds nothing exactly when the character id is out of range, the
character is not loaded, or no entry below the fill count matches. -/
lemma find_collision_box_config_eq_none (cfg : Configs) (char_id state_id frame : Int) :
    find_collision_box_config cfg char_id state_id frame = none ↔
      (char_id < 0 ∨ char_id ≥ 4 ∨ (cfg char_id.toNat).loaded = false ∨
        ∀ i : Nat, (i : Int) < (cfg char_id.toNat).collision_box_count →
          ¬ (((cfg char_id.toNat).collision_boxes i).state_id = state_id ∧
             ((cfg char_id.toNat).collision_boxes i).frame = frame)) := by
  unfold find_collision_box_config
  by_cases hg : char_id < 0 ∨ char_id ≥ 4 ∨ (cfg char_id.toNat).loaded = false
  · rw [if_pos hg]
    constructor
    · intro _
      rcases hg with h | h | h
      · exact Or.inl h
      · exact Or.inr (Or.inl h)
      · exact Or.inr (Or.inr (Or.inl h))
    · intro _
      rfl
  · rw [if_neg hg]
    simp only [Option.map_eq_none', List.find?_range_eq_none]
    constructor
    · intro h
      refine Or.inr (Or.inr (Or.inr ?_))
      intro i hi
      have h2 := h i (by omega)
      simp only [Bool.not_eq_true', decide_eq_false_iff_not] at h2
      exact h2
    · intro h
      rcases h with h | h | h | h
      · exact absurd (Or.inl h) hg
      · exact absurd (Or.inr (Or.inl h)) hg
      · exact absurd (Or.inr (Or.inr h)) hg
      · intro i hi
        have h2 := h i (by omega)
        simp only [Bool.not_eq_true', decide_eq_false_iff_not]
        exact h2

/-- The lookup returns the matching entry of lowest index. -/
lemma find_collision_box_config_first (cfg : Configs) (char_id state_id frame : Int) (i : Nat)
    (hid : 0 ≤ char_id ∧ char_id < 4) (hl : (cfg char_id.toNat).loaded = true)
    (hi : (i : Int) < (cfg char_id.toNat).collision_box_count)
    (hm : ((cfg char_id.toNat).collision_boxes i).state_id = state_id ∧
          ((cfg char_id.toNat).collision_boxes i).frame = frame)
    (hfirst : ∀ j : Nat, j < i →
      ¬ (((cfg char_id.toNat).collision_boxes j).state_id = state_id ∧
         ((cfg char_id.toNat).collision_boxes j).frame = frame)) :
    find_collision_box_config cfg char_id state_id frame
      = some ((cfg char_id.toNat).collision_boxes i) := by
  unfold find_collision_box_config
  have hg : ¬ (char_id < 0 ∨ char_id ≥ 4 ∨ (cfg char_id.toNat).loaded = false) := by
    rintro (h | h | h)
    · omega
    · omega
    · rw [hl] at h
      exact Bool.noConfusion h
  rw [if_neg hg]
  have hf : (List.range (cfg char_id.toNat).collision_box_count.toNat).find?
      (fun i => decide (((cfg char_id.toNat).collision_boxes i).state_id = state_id ∧
                        ((cfg char_id.toNat).collision_boxes i).frame = frame)) = some i := by
    rw [List.find?_range_eq_some]
    refine ⟨by simpa using hm, List.mem_range.mpr (by omega), ?_⟩
    intro j hj
    have h2 := hfirst j hj
    simp only [Bool.not_eq_true', decide_eq_false_iff_not]
    exact h2
  simp only [hf, Option.map_some']

/-- C11: when the configuration lookup of `get_hurtbox` misses (character id out of
range or configuration not loaded, no entry for the state key and `anim_frame`, or
a found entry without hurtbox), `get_hurtbox` returns `{x-12, y-19, 24, 19}` if
crouching, otherwise `{x-10, y-35, 20, 35}` if blocking, otherwise
`{x-12, y-38, 24, 38}`, whatever the facing; so a standing player at `x = 100`
gets `{88, y-38, 24, 38}`. -/
theorem get_hurtbox_fallback (cfg : Configs) (p : Player)
    (hmiss :
      (p.character_id < 0 ∨ p.character_id ≥ 4 ∨
        (cfg p.character_id.toNat).loaded = false) ∨
      (∀ i : Nat, (i : Int) < (cfg p.character_id.toNat).collision_box_count →
        ¬ (((cfg p.character_id.toNat).collision_boxes i).state_id = hurtbox_state_id p ∧
           ((cfg p.character_id.toNat).collision_boxes i).frame = p.anim_frame)) ∨
      (∃ c, find_collision_box_config cfg p.character_id (hurtbox_state_id p) p.anim_frame
              = some c ∧ c.hurtbox_count ≤ 0)) :
    get_hurtbox cfg p =
      (if p.is_crouching = true then { x := p.x - 12, y := p.y - 19, w := 24, h := 19 }
       else if p.is_blocking = true then { x := p.x - 10, y := p.y - 35, w := 20, h := 35 }
       else { x := p.x - 12, y := p.y - 38, w := 24, h := 38 }) ∧
    (p.x = 100 → p.is_crouching = false → p.is_blocking = false →
      get_hurtbox cfg p = { x := 88, y := p.y - 38, w := 24, h := 38 }) := by
  have hfb : get_hurtbox cfg p = hurtbox_fallback p := by
    unfold get_hurtbox
    rcases hmiss with h | h | ⟨c, hc, hz⟩
    · have hn := (find_collision_box_config_eq_none cfg p.character_id (hurtbox_state_id p)
        p.anim_frame).mpr (by
          rcases h with h | h | h
          · exact Or.inl h
          · exact Or.inr (Or.inl h)
          · exact Or.inr (Or.inr (Or.inl h)))
      rw [hn]
    · have hn := (find_collision_box_config_eq_none cfg p.character_id (hurtbox_state_id p)
        p.anim_frame).mpr (Or.inr (Or.inr (Or.inr h)))
      rw [hn]
    · rw [hc]
      have hz2 : ¬ c.hurtbox_count > 0 := by omega
      simp only [if_neg hz2]
  refine ⟨hfb, ?_⟩
  intro hx hc hb
  rw [hfb]
  simp only [hurtbox_fallback, hc, hb, hx]
  norm_num

/-- Witness for C11: a standing player at `x = 100` facing right, no configuration
loaded. -/
theorem get_hurtbox_fallback_witness :
    get_hurtbox no_config { start_p1 with x := 100 }
      = { x := 88, y := ({ start_p1 with x := 100 } : Player).y - 38, w := 24, h := 38 } :=
  (get_hurtbox_fallback no_config { start_p1 with x := 100 } (Or.inl (Or.inr (Or.inr rfl)))).2
    rfl rfl rfl

/-- C12: `find_collision_box_config` returns the entry of lowest index below
`collision_box_count` whose `state_id` and `frame` equal the query, and it returns
not-found exactly when the character id is outside 0..3, the character's
configuration is not loaded, or no entry below the count matches. -/
theorem find_collision_box_config_spec (cfg : Configs) (char_id state_id frame : Int) :
    (∀ i : Nat, 0 ≤ char_id ∧ char_id < 4 → (cfg char_id.toNat).loaded = true →
      (i : Int) < (cfg char_id.toNat).collision_box_count →
      (((cfg char_id.toNat).collision_boxes i).state_id = state_id ∧
       ((cfg char_id.toNat).collision_boxes i).frame = frame) →
      (∀ j : Nat, j < i →
        ¬ (((cfg char_id.toNat).collision_boxes j).state_id = state_id ∧
           ((cfg char_id.toNat).collision_boxes j).frame = frame)) →
      find_collision_box_config cfg char_id state_id frame
        = some ((cfg char_id.toNat).collision_boxes i)) ∧
    (find_collision_box_config cfg char_id state_id frame = none ↔
      (char_id < 0 ∨ char_id ≥ 4 ∨ (cfg char_id.toNat).loaded = false ∨
        ∀ i : Nat, (i : Int) < (cfg char_id.toNat).collision_box_count →
          ¬ (((cfg char_id.toNat).collision_boxes i).state_id = state_id ∧
             ((cfg char_id.toNat).collision_boxes i).frame = frame))) :=
  ⟨fun i hid hl hi hm hfirst =>
      find_collision_box_config_first cfg char_id state_id frame i hid hl hi hm hfirst,
   find_collision_box_config_eq_none cfg char_id state_id frame⟩

/-- Witness for C12: in `sample_config` the key (151, 0) occurs at indices 0 and 2;
the lookup returns the entry at index 0. -/
theorem find_collision_box_config_spec_witness :
    find_collision_box_config sample_config 0 151 0 = some (sample_entries 0) :=
  (find_collision_box_config_spec sample_config 0 151 0).1 0 (by decide) rfl (by decide)
    ⟨rfl, rfl⟩ (fun _ hj => absurd hj (Nat.not_lt_zero _))

/-- C13: for every player and configuration, `get_hitbox` has width 0 and height 0
unless the state is Attack (3) or CrouchAttack (6) and `2 ≤ attack_frame ≤ 6`; inside
that window, when the lookup misses (nothing found, or an entry without hitbox), the
box is 35x20 at `y-30` for Attack and 35x15 at `y-15` for CrouchAttack, at `x+10`
when facing right (`facing > 0`) and at `x-45` otherwise. -/
theorem get_hitbox_window (cfg : Configs) (p : Player) :
    (¬ ((p.state = 3 ∨ p.state = 6) ∧ 2 ≤ p.attack_frame ∧ p.attack_frame ≤ 6) →
      (get_hitbox cfg p).w = 0 ∧ (get_hitbox cfg p).h = 0) ∧
    (2 ≤ p.attack_frame ∧ p.attack_frame ≤ 6 →
      (find_collision_box_config cfg p.character_id (if p.state = 3 then 151 else 201)
          p.anim_frame = none ∨
        ∃ c, find_collision_box_config cfg p.character_id (if p.state = 3 then 151 else 201)
          p.anim_frame = some c ∧ c.hitbox_count ≤ 0) →
      (p.state = 3 →
        get_hitbox cfg p =
          (if p.facing > 0 then { x := p.x + 10, y := p.y - 30, w := 35, h := 20 }
           else { x := p.x - 45, y := p.y - 30, w := 35, h := 20 })) ∧
      (p.state = 6 →
        get_hitbox cfg p =
          (if p.facing > 0 then { x := p.x + 10, y := p.y - 15, w := 35, h := 15 }
           else { x := p.x - 45, y := p.y - 15, w := 35, h := 15 }))) := by
  refine ⟨?_, ?_⟩
  · intro hout
    have hfb : (hitbox_fallback p).w = 0 ∧ (hitbox_fallback p).h = 0 := by
      have h3 : ¬ (p.state = 3 ∧ p.attack_frame ≥ 2 ∧ p.attack_frame ≤ 6) :=
        fun h => hout ⟨Or.inl h.1, h.2⟩
      have h6 : ¬ (p.state = 6 ∧ p.attack_frame ≥ 2 ∧ p.attack_frame ≤ 6) :=
        fun h => hout ⟨Or.inr h.1, h.2⟩
      simp only [hitbox_fallback, if_neg h3, if_neg h6, and_self]
    unfold get_hitbox
    by_cases hs : p.state ≠ 3 ∧ p.state ≠ 6
    · rw [if_pos hs]
      exact ⟨rfl, rfl⟩
    · rw [if_neg hs]
      have hatt : p.state = 3 ∨ p.state = 6 := by omega
      split
      · rename_i config _
        have hc : ¬ (config.hitbox_count > 0 ∧ p.attack_frame ≥ 2 ∧ p.attack_frame ≤ 6) :=
          fun h => hout ⟨hatt, h.2⟩
        rw [if_neg hc]
        exact hfb
      · exact hfb
  · intro hwin hmiss
    have hfb : ∀ hs : p.state = 3 ∨ p.state = 6, get_hitbox cfg p = hitbox_fallback p := by
      intro hs
      unfold get_hitbox
      have hn : ¬ (p.state ≠ 3 ∧ p.state ≠ 6) := by omega
      rw [if_neg hn]
      rcases hmiss with h | ⟨c, hc, hz⟩
      · rw [h]
      · rw [hc]
        have hc2 : ¬ (c.hitbox_count > 0 ∧ p.attack_frame ≥ 2 ∧ p.attack_frame ≤ 6) := by
          rintro ⟨h, _⟩
          omega
        simp only [if_neg hc2]
    refine ⟨?_, ?_⟩
    · intro hs
      rw [hfb (Or.inl hs)]
      have h3 : p.state = 3 ∧ p.attack_frame ≥ 2 ∧ p.attack_frame ≤ 6 := ⟨hs, hwin⟩
      simp only [hitbox_fallback, if_pos h3]
    · intro hs
      rw [hfb (Or.inr hs)]
      have h3 : ¬ (p.state = 3 ∧ p.attack_frame ≥ 2 ∧ p.attack_frame ≤ 6) := by
        rintro ⟨h, _⟩
        omega
      have h6 : p.state = 6 ∧ p.attack_frame ≥ 2 ∧ p.attack_frame ≤ 6 := ⟨hs, hwin⟩
      simp only [hitbox_fallback, if_neg h3, if_pos h6]

/-- Witness for C13: a standing attacker on attack frame 2 facing right, no
configuration loaded. -/
theorem get_hitbox_window_witness :
    get_hitbox no_config clash_game.p1 =
      (if clash_game.p1.facing > 0 then
         { x := clash_game.p1.x + 10, y := clash_game.p1.y - 30, w := 35, h := 20 }
       else { x := clash_game.p1.x - 45, y := clash_game.p1.y - 30, w := 35, h := 20 }) :=
  ((get_hitbox_window no_config clash_game.p1).2 (by decide) (Or.inl rfl)).1 rfl

/-! ### Special moves -/

/-- C14: whatever the caster, the opponent, the projectile pool and the
`character_id` (also outside 0..3), `execute_special_move` leaves the caster's
`special_move_cooldown` at 180. -/
theorem execute_special_move_cooldown (d : Duel) (player_num : Int) :
    (execute_special_move d player_num).self.special_move_cooldown = 180 := by
  simp only [execute_special_move, SPECIAL_MOVE_COOLDOWN]

/-- C16: for a caster with `character_id` 1, `execute_special_move` sets the caster's
health to `min 100 (health + 15)` and changes neither the opponent nor the
projectile pool. -/
theorem execute_special_move_heal (d : Duel) (player_num : Int)
    (hc : d.self.character_id = 1) :
    (execute_special_move d player_num).self.health = min 100 (d.self.health + 15) ∧
    (execute_special_move d player_num).opp = d.opp ∧
    (execute_special_move d player_num).pool = d.pool := by
  have h0 : ¬ d.self.character_id = 0 := by omega
  simp only [execute_special_move, if_neg h0, if_pos hc, WATER_HEAL_AMOUNT, min_def, and_true]
  split_ifs <;> omega

/-- Witness for C16: a caster at health 90 is healed to 100, not 105. -/
theorem execute_special_move_heal_witness :
    (execute_special_move heal_duel 0).self.health = min 100 (heal_duel.self.health + 15) ∧
    (execute_special_move heal_duel 0).opp = heal_duel.opp ∧
    (execute_special_move heal_duel 0).pool = heal_duel.pool :=
  execute_special_move_heal heal_duel 0 rfl

/-! ### The round controller as a state machine -/

lemma round_controller_ok (g : Game) (hm : g.game_mode = 2) (h : controller_ok g) :
    controller_ok (round_controller g) := by
  unfold controller_ok normal_play in_round_transition match_over at h ⊢
  simp only [round_controller]
  split_ifs <;> (try dsimp only) <;> omega

lemma controller_ok_of_same_control {g s : Game} (hs : same_control g s)
    (h : controller_ok g) : controller_ok s := by
  obtain ⟨c1, _, c3, c4, c5, _, _⟩ := hs
  unfold controller_ok normal_play in_round_transition match_over at h ⊢
  rw [c1, c3, c4, c5]
  exact h

lemma match_frame_ok (cfg : Configs) (i : Input) (g : Game) (h : controller_ok g) :
    controller_ok (match_frame cfg i g) := by
  unfold match_frame
  split_ifs with hm
  · have hs := pre_controller_control cfg i g
    exact round_controller_ok _ (hs.1.trans hm) (controller_ok_of_same_control hs h)
  · exact h

lemma run_frames_ok (cfg : Configs) :
    ∀ (inputs : List Input) (g : Game), controller_ok g →
      controller_ok (run_frames cfg g inputs) := by
  intro inputs
  induction inputs with
  | nil => intro g h; exact h
  | cons i rest ih => intro g h; exact ih _ (match_frame_ok cfg i g h)

/-- State derivation never enters or leaves Attack, and moves nothing, so the clash
box is the same before and after it. -/
lemma derive_state_clash_box (p : Player) :
    get_clash_box (derive_state p) = get_clash_box p := by
  simp only [derive_state, get_clash_box]
  split_ifs <;> first | rfl | (exfalso; dsimp only at *; omega)

lemma update_anim_clash_box (p : Player) :
    get_clash_box (update_anim p) = get_clash_box p := by
  simp only [update_anim, get_clash_box]
  split_ifs <;> rfl

/-- C18 (as stated, refuted): with both players back to back at the same x and both
on attack frame 1, the tick of the source ends with the attacks clash-cancelled
(Player 1 in Idle), while the order "clash check, then body separation" leaves
Player 1 in Attack: the clash boxes only overlap after the body push. -/
theorem spec_order_tick_counterexample :
    (fight_tick no_config idle_input back_to_back_game).p1.state = 0 ∧
    (spec_order_tick no_config idle_input back_to_back_game).p1.state = 3 := by
  constructor
  · norm_num [fight_tick, before_clash, settle_stage, update_p1, update_p2, player_update,
      read_input, move_input, attack_step, special_step, physics_step, body_collision,
      update_anim, derive_state, attack_clash, projectile_stage, update_projectiles,
      update_projectile, round_controller, tick_cooldown, get_body_box, boxes_overlap,
      get_clash_box, get_hitbox, get_hurtbox, find_collision_box_config, no_config,
      hitbox_fallback, hurtbox_fallback, hurtbox_state_id, melee_damage, BLOCKED_DAMAGE,
      NORMAL_DAMAGE, back_to_back_game, start_game, start_p1, start_p2, empty_pool,
      idle_projectile, idle_input, no_keys]
  · norm_num [spec_order_tick, settle_stage, update_p1, update_p2, player_update,
      read_input, move_input, attack_step, special_step, physics_step, body_collision,
      update_anim, derive_state, attack_clash, projectile_stage, update_projectiles,
      update_projectile, round_controller, tick_cooldown, get_body_box, boxes_overlap,
      get_clash_box, get_hitbox, get_hurtbox, find_collision_box_config, no_config,
      hitbox_fallback, hurtbox_fallback, hurtbox_state_id, melee_damage, BLOCKED_DAMAGE,
      NORMAL_DAMAGE, back_to_back_game, start_game, start_p1, start_p2, empty_pool,
      idle_projectile, idle_input, no_keys]

/-- C18 (amended): one fight tick is the composition, in this order, of Player 1's
update, Player 2's update, body separation with the animation timers and the state
derivation (`settle_stage`), the clash check, the projectile update and the round
controller; the clash check evaluates the clash boxes of the players as body
separation has left them. -/
theorem fight_tick_stage_order (cfg : Configs) (i : Input) (g : Game) :
    fight_tick cfg i g
      = round_controller (projectile_stage cfg (attack_clash (settle_stage
          (update_p2 cfg i.p2 (update_p1 cfg i.p1 g))))) ∧
    get_clash_box (before_clash cfg i g).p1
      = get_clash_box (body_collision (update_p2 cfg i.p2 (update_p1 cfg i.p1 g))).p1 ∧
    get_clash_box (before_clash cfg i g).p2
      = get_clash_box (body_collision (update_p2 cfg i.p2 (update_p1 cfg i.p1 g))).p2 := by
  refine ⟨rfl, ?_, ?_⟩
  · simp only [before_clash, settle_stage, derive_state_clash_box, update_anim_clash_box]
  · simp only [before_clash, settle_stage, derive_state_clash_box, update_anim_clash_box]

/-! ### A knocked-out player -/

lemma only_health_differs_refl (p : Player) : only_health_differs p p := rfl

lemma only_health_differs_trans {p q r : Player} (h1 : only_health_differs p q)
    (h2 : only_health_differs q r) : only_health_differs p r := by
  unfold only_health_differs at *
  rw [h2, h1]

lemma only_health_differs_frozen {p q : Player} (h : only_health_differs p q) :
    frozen_fields q = frozen_fields p := by
  unfold only_health_differs at h
  rw [h]
  rfl

lemma melee_damage_only_health (o : Player) : only_health_differs o (melee_damage o) := by
  simp only [only_health_differs, melee_damage]
  split_ifs <;> rfl

lemma special_damage_only_health (o : Player) (dmg : Int) :
    only_health_differs o (special_damage o dmg) := by
  simp only [only_health_differs, special_damage]
  split_ifs <;> rfl

lemma projectile_hit_only_health (cfg : Configs) (t : Player) (m : Projectile) :
    only_health_differs t (projectile_hit cfg t m).1 := by
  simp only [only_health_differs, projectile_hit]
  split_ifs <;> rfl

lemma player_update_opp_only_health (cfg : Configs) (k : Keys) (n : Int) (d : Duel) :
    only_health_differs d.opp (player_update cfg k n d).opp := by
  have hr : (read_input k d).opp = d.opp := (read_input_health k d).2.1
  have ha : only_health_differs d.opp (attack_step cfg (read_input k d)).opp := by
    rcases attack_step_opp_cases cfg (read_input k d) with h | ⟨_, h⟩
    · rw [h, hr]
      exact only_health_differs_refl _
    · rw [h, hr]
      exact melee_damage_only_health _
  have he : ∀ e : Duel, only_health_differs e.opp (execute_special_move e n).opp := by
    intro e
    have h12 := special_damage_only_health e.opp EARTH_STOMP_DAMAGE
    have h8 := special_damage_only_health e.opp WIND_DASH_DAMAGE
    simp only [execute_special_move]
    split_ifs <;> first | exact only_health_differs_refl _ | exact h12 | exact h8
  have hs : only_health_differs (attack_step cfg (read_input k d)).opp
      (special_step k n (attack_step cfg (read_input k d))).opp := by
    simp only [special_step]
    split_ifs <;> first | exact only_health_differs_refl _ | exact he _
  exact only_health_differs_trans ha hs

lemma updates_dead_p1 (cfg : Configs) (i : Input) (g : Game) (hd : g.p1.health ≤ 0) :
    frozen_fields (update_p2 cfg i.p2 (update_p1 cfg i.p1 g)).p1 = frozen_fields g.p1 ∧
    (update_p2 cfg i.p2 (update_p1 cfg i.p1 g)).p1.health ≤ 0 := by
  have hn : ¬ g.p1.health > 0 := by omega
  have e1 : (update_p1 cfg i.p1 g).p1 = g.p1 := by
    simp only [update_p1, if_neg hn]
  obtain ⟨_, _, o3, _⟩ := update_p2_opp cfg i.p2 (update_p1 cfg i.p1 g)
  have hoh : only_health_differs (update_p1 cfg i.p1 g).p1
      (update_p2 cfg i.p2 (update_p1 cfg i.p1 g)).p1 := by
    simp only [update_p2]
    split_ifs
    · exact player_update_opp_only_health cfg i.p2 1 _
    · exact only_health_differs_refl _
  refine ⟨?_, ?_⟩
  · rw [only_health_differs_frozen hoh, e1]
  · by_contra hpos
    have h2 := o3 (by omega)
    rw [e1] at h2
    exact hn h2

lemma updates_dead_p2 (cfg : Configs) (i : Input) (g : Game) (hd : g.p2.health ≤ 0) :
    frozen_fields (update_p2 cfg i.p2 (update_p1 cfg i.p1 g)).p2 = frozen_fields g.p2 ∧
    (update_p2 cfg i.p2 (update_p1 cfg i.p1 g)).p2.health ≤ 0 := by
  obtain ⟨_, _, u3, _⟩ := update_p1_opp cfg i.p1 g
  have hn : ¬ (update_p1 cfg i.p1 g).p2.health > 0 := fun h => by
    have := u3 h
    omega
  have hoh : only_health_differs g.p2 (update_p1 cfg i.p1 g).p2 := by
    simp only [update_p1]
    split_ifs
    · exact player_update_opp_only_health cfg i.p1 0 _
    · exact only_health_differs_refl _
  have e2 : (update_p2 cfg i.p2 (update_p1 cfg i.p1 g)).p2 = (update_p1 cfg i.p1 g).p2 := by
    simp only [update_p2, if_neg hn]
  rw [e2]
  exact ⟨only_health_differs_frozen hoh, by omega⟩

lemma derive_state_dead (p : Player) (hd : p.health ≤ 0) : derive_state p = p := by
  have hn : ¬ p.health > 0 := by omega
  simp only [derive_state, if_neg hn]

lemma update_anim_frozen (p : Player) : frozen_fields (update_anim p) = frozen_fields p := by
  simp only [update_anim]
  split_ifs <;> rfl

lemma settle_stage_dead (g : Game)
    (hb : boxes_overlap (get_body_box g.p1) (get_body_box g.p2) = false) :
    (g.p1.health ≤ 0 → frozen_fields (settle_stage g).p1 = frozen_fields g.p1) ∧
    (g.p2.health ≤ 0 → frozen_fields (settle_stage g).p2 = frozen_fields g.p2) := by
  have e : body_collision g = g := by
    have hn : ¬ boxes_overlap (get_body_box g.p1) (get_body_box g.p2) = true := by
      rw [hb]
      exact Bool.false_ne_true
    simp only [body_collision, if_neg hn]
  simp only [settle_stage, e]
  refine ⟨fun hd => ?_, fun hd => ?_⟩
  · rw [derive_state_dead _ (by rw [update_anim_health]; exact hd)]
    exact update_anim_frozen _
  · rw [derive_state_dead _ (by rw [update_anim_health]; exact hd)]
    exact update_anim_frozen _

lemma attack_clash_idle (g : Game)
    (hc : ¬ (boxes_overlap (get_clash_box g.p1) (get_clash_box g.p2) = true ∧
      (get_clash_box g.p1).w > 0 ∧ (get_clash_box g.p2).w > 0)) :
    attack_clash g = g := by
  simp only [attack_clash, if_neg hc]
  split_ifs <;> rfl

lemma update_projectiles_only_health (cfg : Configs) :
    ∀ (pool : List Projectile) (p1 p2 : Player),
      only_health_differs p1 (update_projectiles cfg p1 p2 pool).1 ∧
      only_health_differs p2 (update_projectiles cfg p1 p2 pool).2.1 := by
  intro pool
  induction pool with
  | nil => intro p1 p2; exact ⟨only_health_differs_refl _, only_health_differs_refl _⟩
  | cons pr rest ih =>
    intro p1 p2
    have hstep : only_health_differs p1 (update_projectile cfg p1 p2 pr).1 ∧
        only_health_differs p2 (update_projectile cfg p1 p2 pr).2.1 := by
      have h1 := projectile_hit_only_health cfg p1
      have h2 := projectile_hit_only_health cfg p2
      simp only [update_projectile]
      split_ifs
      · exact ⟨only_health_differs_refl _, only_health_differs_refl _⟩
      · exact ⟨only_health_differs_refl _, only_health_differs_refl _⟩
      · exact ⟨only_health_differs_refl _, h2 _⟩
      · exact ⟨h1 _, only_health_differs_refl _⟩
    obtain ⟨r1, r2⟩ := ih (update_projectile cfg p1 p2 pr).1 (update_projectile cfg p1 p2 pr).2.1
    exact ⟨only_health_differs_trans hstep.1 r1, only_health_differs_trans hstep.2 r2⟩

lemma round_controller_no_reset (g : Game)
    (hr : ¬ (g.round_transition_timer = 1 ∧ ¬ (g.p1_rounds_won ≥ 2 ∨ g.p2_rounds_won ≥ 2))) :
    (round_controller g).p1 = g.p1 ∧ (round_controller g).p2 = g.p2 := by
  simp only [round_controller]
  split_ifs <;> first | exact ⟨rfl, rfl⟩ | (exfalso; apply hr; constructor <;> omega)

/-- C19 (as stated, refuted): Player 1 has health 0 at `x = 300` and Player 2 stands
10 units to the right; one tick without any key pressed moves Player 1 to `x = 298`,
because the body push is not gated on health. -/
theorem dead_player_frozen_counterexample :
    dead_close_game.p1.health = 0 ∧ dead_close_game.p1.x = 300 ∧
    (fight_tick no_config idle_input dead_close_game).p1.x = 298 := by
  refine ⟨rfl, rfl, ?_⟩
  norm_num [fight_tick, before_clash, settle_stage, update_p1, update_p2, player_update,
    read_input, move_input, attack_step, special_step, physics_step, body_collision,
    update_anim, derive_state, attack_clash, projectile_stage, update_projectiles,
    update_projectile, round_controller, tick_cooldown, get_body_box, boxes_overlap,
    get_clash_box, dead_close_game, start_game, start_p1, start_p2, empty_pool,
    idle_projectile, idle_input, no_keys]

/-- C19 (amended): for a player whose health is 0 at the start of a fight tick, the
player's own update block and the state derivation are skipped and the other
player's update and the projectiles touch nothing but health; so in a tick in which
the body boxes do not overlap at body separation, the clash check does not fire and
the round controller does not start a new round, that player's position, velocity,
state, attack frame, facing and blocking, crouching and dashing flags are unchanged,
whatever the inputs. -/
theorem dead_player_frozen (cfg : Configs) (i : Input) (g : Game)
    (hbody : boxes_overlap
      (get_body_box (update_p2 cfg i.p2 (update_p1 cfg i.p1 g)).p1)
      (get_body_box (update_p2 cfg i.p2 (update_p1 cfg i.p1 g)).p2) = false)
    (hclash : ¬ (boxes_overlap (get_clash_box (before_clash cfg i g).p1)
        (get_clash_box (before_clash cfg i g).p2) = true ∧
      (get_clash_box (before_clash cfg i g).p1).w > 0 ∧
      (get_clash_box (before_clash cfg i g).p2).w > 0))
    (hreset : ¬ (g.round_transition_timer = 1 ∧
      ¬ (g.p1_rounds_won ≥ 2 ∨ g.p2_rounds_won ≥ 2))) :
    (g.p1.health = 0 → frozen_fields (fight_tick cfg i g).p1 = frozen_fields g.p1) ∧
    (g.p2.health = 0 → frozen_fields (fight_tick cfg i g).p2 = frozen_fields g.p2) := by
  obtain ⟨c1, c2, c3, c4, c5, _, _⟩ := pre_controller_control cfg i g
  have hr : ¬ ((projectile_stage cfg (attack_clash (before_clash cfg i g))).round_transition_timer
        = 1 ∧
      ¬ ((projectile_stage cfg (attack_clash (before_clash cfg i g))).p1_rounds_won ≥ 2 ∨
         (projectile_stage cfg (attack_clash (before_clash cfg i g))).p2_rounds_won ≥ 2)) := by
    rw [c3, c4, c5]
    exact hreset
  obtain ⟨k1, k2⟩ := round_controller_no_reset _ hr
  have hcl : attack_clash (before_clash cfg i g) = before_clash cfg i g :=
    attack_clash_idle _ hclash
  obtain ⟨q1, q2⟩ := update_projectiles_only_health cfg (before_clash cfg i g).projectiles
    (before_clash cfg i g).p1 (before_clash cfg i g).p2
  obtain ⟨s1, s2⟩ := settle_stage_dead (update_p2 cfg i.p2 (update_p1 cfg i.p1 g)) hbody
  refine ⟨fun hd => ?_, fun hd => ?_⟩
  · obtain ⟨u1, u2⟩ := updates_dead_p1 cfg i g (by omega)
    have e : (fight_tick cfg i g).p1
        = (projectile_stage cfg (before_clash cfg i g)).p1 := by
      unfold fight_tick
      rw [k1, hcl]
    rw [e]
    have e2 : frozen_fields (projectile_stage cfg (before_clash cfg i g)).p1
        = frozen_fields (before_clash cfg i g).p1 := only_health_differs_frozen q1
    rw [e2]
    unfold before_clash
    rw [s1 u2, u1]
  · obtain ⟨u1, u2⟩ := updates_dead_p2 cfg i g (by omega)
    have e : (fight_tick cfg i g).p2
        = (projectile_stage cfg (before_clash cfg i g)).p2 := by
      unfold fight_tick
      rw [k2, hcl]
    rw [e]
    have e2 : frozen_fields (projectile_stage cfg (before_clash cfg i g)).p2
        = frozen_fields (before_clash cfg i g).p2 := only_health_differs_frozen q2
    rw [e2]
    unfold before_clash
    rw [s2 u2, u1]

/-- Witness for C19 (amended): Player 1 knocked out at its round-start position,
Player 2 at its own, 50 transition ticks left, nobody presses a key. -/
theorem dead_player_frozen_witness :
    frozen_fields (fight_tick no_config idle_input dead_far_game).p1
      = frozen_fields dead_far_game.p1 :=
  (dead_player_frozen no_config idle_input dead_far_game
    (by norm_num [update_p1, update_p2, player_update, read_input, move_input, attack_step,
          special_step, physics_step, tick_cooldown, get_body_box, boxes_overlap,
          dead_far_game, start_game, start_p1, start_p2, empty_pool, idle_projectile,
          idle_input, no_keys])
    (by norm_num [before_clash, settle_stage, update_p1, update_p2, player_update,
          read_input, move_input, attack_step, special_step, physics_step, body_collision,
          update_anim, derive_state, tick_cooldown, get_body_box, boxes_overlap,
          get_clash_box, dead_far_game, start_game, start_p1, start_p2, empty_pool,
          idle_projectile, idle_input, no_keys])
    (by decide)).1 rfl

/-! ### An attack that misses on its damage frame -/

/-- Without an overlap of the frame-2 hitbox and the hurtbox, the attack block
leaves the opponent unchanged. -/
lemma attack_step_miss (cfg : Configs) (d : Duel)
    (h : boxes_overlap (get_hitbox cfg { d.self with attack_frame := 2 })
      (get_hurtbox cfg d.opp) = false) :
    (attack_step cfg d).opp = d.opp := by
  by_cases hf : d.self.attack_frame = 1
  · dsimp only at h
    simp only [attack_step, hf]
    norm_num
    simp only [h]
    split_ifs <;> first | rfl | contradiction
  · exact attack_step_no_hit cfg d hf

/-- C20: if on the tick where the attack frame becomes 2 (tick 1 of an attack
triggered in tick 0) the attacker's hitbox does not overlap the defender's hurtbox,
then on no tick of that attack does the attacker's hit check take health from the
defender, whatever the boxes do on later ticks.  Stated for an attack of Player 1
and for an attack of Player 2. -/
theorem missed_attack_never_hits (cfg : Configs) (g : Game) (inputs : Nat → Input) :
    (p1_attack_triggered (inputs 0) g →
      boxes_overlap
        (get_hitbox cfg
          { (p1_at_attack_step (inputs 1) (state_after cfg g inputs 1)).self with
            attack_frame := 2 })
        (get_hurtbox cfg (p1_at_attack_step (inputs 1) (state_after cfg g inputs 1)).opp)
        = false →
      ∀ n : Nat, (∀ j : Nat, 1 ≤ j → j ≤ n → attacking (state_after cfg g inputs j).p1) →
        p1_melee_loss cfg (inputs n) (state_after cfg g inputs n) = 0) ∧
    (p2_attack_triggered cfg (inputs 0) g →
      boxes_overlap
        (get_hitbox cfg
          { (p2_at_attack_step cfg (inputs 1) (state_after cfg g inputs 1)).self with
            attack_frame := 2 })
        (get_hurtbox cfg (p2_at_attack_step cfg (inputs 1) (state_after cfg g inputs 1)).opp)
        = false →
      ∀ n : Nat, (∀ j : Nat, 1 ≤ j → j ≤ n → attacking (state_after cfg g inputs j).p2) →
        p2_melee_loss cfg (inputs n) (state_after cfg g inputs n) = 0) := by
  refine ⟨?_, ?_⟩
  · intro hstart hmiss n hatt
    by_contra hne
    have hn1 : n = 1 := by
      cases n with
      | zero =>
        have h := (p1_attack_advances cfg (inputs 0) (state_after cfg g inputs 0) 0
          (Or.inl ⟨rfl, hstart⟩)).2 hne
        omega
      | succ m =>
        have hinv := p1_attack_trace cfg g inputs hstart m hatt
        have hm := hatt (m + 1) (Nat.succ_pos _) (le_refl _)
        have h := (p1_attack_advances cfg (inputs (m + 1)) (state_after cfg g inputs (m + 1))
          ((m + 1 : Nat) : Int) (Or.inr ⟨by omega, hm, hinv⟩)).2 hne
        omega
    subst hn1
    apply hne
    have e := attack_step_miss cfg _ hmiss
    unfold p1_melee_loss
    split_ifs
    · rw [e]
      omega
    · rfl
  · intro hstart hmiss n hatt
    by_contra hne
    have hn1 : n = 1 := by
      cases n with
      | zero =>
        have h := (p2_attack_advances cfg (inputs 0) (state_after cfg g inputs 0) 0
          (Or.inl ⟨rfl, hstart⟩)).2 hne
        omega
      | succ m =>
        have hinv := p2_attack_trace cfg g inputs hstart m hatt
        have hm := hatt (m + 1) (Nat.succ_pos _) (le_refl _)
        have h := (p2_attack_advances cfg (inputs (m + 1)) (state_after cfg g inputs (m + 1))
          ((m + 1 : Nat) : Int) (Or.inr ⟨by omega, hm, hinv⟩)).2 hne
        omega
    subst hn1
    apply hne
    have e := attack_step_miss cfg _ hmiss
    unfold p2_melee_loss
    split_ifs
    · rw [e]
      omega
    · rfl

/-- The sample attack from round-start positions, after its trigger tick. -/
lemma far_attack_state_one :
    state_after no_config start_game sample_inputs 1
      = fight_tick no_config p1_attack_input start_game := by
  rw [state_after_succ]
  rfl

/-- From round-start positions Player 1 is still in Attack after the trigger tick. -/
lemma far_attack_attacking :
    (state_after no_config start_game sample_inputs 1).p1.state = 3 := by
  rw [far_attack_state_one]
  norm_num [fight_tick, before_clash, settle_stage, update_p1, update_p2, player_update,
    read_input, move_input, attack_step, special_step, physics_step, body_collision,
    update_anim, derive_state, attack_clash, projectile_stage, update_projectiles,
    update_projectile, round_controller, tick_cooldown, get_body_box, boxes_overlap,
    get_clash_box, start_game, start_p1, start_p2, empty_pool, idle_projectile,
    p1_attack_input, no_keys]

/-- From round-start positions the frame-2 hitbox of Player 1 is 340 units short of
Player 2's hurtbox. -/
lemma far_attack_misses :
    boxes_overlap
      (get_hitbox no_config
        { (p1_at_attack_step (sample_inputs 1)
            (state_after no_config start_game sample_inputs 1)).self with attack_frame := 2 })
      (get_hurtbox no_config
        (p1_at_attack_step (sample_inputs 1)
          (state_after no_config start_game sample_inputs 1)).opp) = false := by
  rw [far_attack_state_one]
  have hi : sample_inputs 1 = { p1 := no_keys, p2 := no_keys } := rfl
  rw [hi]
  norm_num [p1_at_attack_step, fight_tick, before_clash, settle_stage, update_p1, update_p2,
    player_update, read_input, move_input, attack_step, special_step, physics_step,
    body_collision, update_anim, derive_state, attack_clash, projectile_stage,
    update_projectiles, update_projectile, round_controller, tick_cooldown, get_body_box,
    boxes_overlap, get_clash_box, get_hitbox, get_hurtbox, find_collision_box_config,
    no_config, hitbox_fallback, hurtbox_fallback, hurtbox_state_id, start_game, start_p1,
    start_p2, empty_pool, idle_projectile, p1_attack_input, no_keys]

/-- Witness for C20: Player 1 attacks from its round-start position, 340 units away
from Player 2; tick 1 of the attack takes no health. -/
theorem missed_attack_never_hits_witness :
    p1_melee_loss no_config (sample_inputs 1)
      (state_after no_config start_game sample_inputs 1) = 0 :=
  (missed_attack_never_hits no_config start_game sample_inputs).1 (by decide)
    far_attack_misses 1
    (fun j h1 h2 => by
      have hj : j = 1 := Nat.le_antisymm h2 h1
      rw [hj]
      exact Or.inl far_attack_attacking)

/-! ### Round award, clash box, state derivation and body separation in detail -/

/-- C22: at the round check with no transition running and both players at health
0, only `p2_rounds_won` is incremented, by exactly 1; `p1_rounds_won` is unchanged
and the timer becomes 120. -/
theorem round_controller_double_ko (g : Game) (h0 : g.round_transition_timer = 0)
    (h1 : g.p1.health = 0) (h2 : g.p2.health = 0) :
    (round_controller g).p2_rounds_won = g.p2_rounds_won + 1 ∧
    (round_controller g).p1_rounds_won = g.p1_rounds_won ∧
    (round_controller g).round_transition_timer = 120 := by
  have ht : ¬ g.round_transition_timer > 0 := by omega
  have hk : g.p1.health ≤ 0 := by omega
  have hk2 : g.p1.health ≤ 0 ∨ g.p2.health ≤ 0 := Or.inr (by omega)
  simp only [round_controller, if_neg ht, if_pos hk2, if_pos hk, and_self]

/-- Witness for C22: both players at health 0 at score 0-0. -/
theorem round_controller_double_ko_witness :
    (round_controller double_ko_game).p2_rounds_won = double_ko_game.p2_rounds_won + 1 ∧
    (round_controller double_ko_game).p1_rounds_won = double_ko_game.p1_rounds_won ∧
    (round_controller double_ko_game).round_transition_timer = 120 :=
  round_controller_double_ko double_ko_game rfl rfl rfl

/-- C25: a player in CrouchAttack (state 6) has a clash box of width 0 and height 0
at every attack frame; the clash check changes nothing when either player is in
state 6; and whenever the clash check changes the state, both players are in
Attack (state 3) with attack frame in 1..7. -/
theorem crouch_attack_never_clashes :
    (∀ p : Player, p.state = 6 → (get_clash_box p).w = 0 ∧ (get_clash_box p).h = 0) ∧
    (∀ g : Game, g.p1.state = 6 ∨ g.p2.state = 6 → attack_clash g = g) ∧
    (∀ g : Game, attack_clash g ≠ g →
      (g.p1.state = 3 ∧ 1 ≤ g.p1.attack_frame ∧ g.p1.attack_frame ≤ 7) ∧
      (g.p2.state = 3 ∧ 1 ≤ g.p2.attack_frame ∧ g.p2.attack_frame ≤ 7)) := by
  have hbox : ∀ p : Player, (get_clash_box p).w > 0 →
      p.state = 3 ∧ 1 ≤ p.attack_frame ∧ p.attack_frame ≤ 7 := by
    intro p hw
    by_cases hc : p.state = 3 ∧ p.attack_frame ≥ 1 ∧ p.attack_frame ≤ 7
    · exact hc
    · exfalso
      simp only [get_clash_box, if_neg hc] at hw
      exact lt_irrefl _ hw
  have hfire : ∀ g : Game, attack_clash g ≠ g →
      (get_clash_box g.p1).w > 0 ∧ (get_clash_box g.p2).w > 0 := by
    intro g hne
    by_contra hn
    apply hne
    exact attack_clash_idle g (fun h => hn h.2)
  refine ⟨?_, ?_, ?_⟩
  · intro p hs
    have hc : ¬ (p.state = 3 ∧ p.attack_frame ≥ 1 ∧ p.attack_frame ≤ 7) := by
      rintro ⟨h, _⟩
      omega
    simp only [get_clash_box, if_neg hc, and_self]
  · intro g hs
    by_contra hne
    obtain ⟨w1, w2⟩ := hfire g hne
    have a1 := (hbox g.p1 w1).1
    have a2 := (hbox g.p2 w2).1
    omega
  · intro g hne
    obtain ⟨w1, w2⟩ := hfire g hne
    exact ⟨hbox g.p1 w1, hbox g.p2 w2⟩

/-- C28: the state-derivation step gives a living player who is neither attacking
nor blocking the state Jump (2) if airborne, else Crouch (5) if crouching, else Walk
(1) if `|vx| > 0.5`, else Idle (0); it leaves a living player who is blocking or in
Attack/CrouchAttack, and a player with health 0, as they are. -/
theorem derive_state_rule (p : Player) :
    (p.health > 0 → p.state ≠ 3 → p.state ≠ 6 → p.is_blocking = false →
      (derive_state p).state =
        (if p.on_ground = false then 2
         else if p.is_crouching = true then 5
         else if |p.vx| > 1 / 2 then 1
         else 0)) ∧
    (p.health > 0 → (p.is_blocking = true ∨ p.state = 3 ∨ p.state = 6) →
      derive_state p = p) ∧
    (p.health = 0 → derive_state p = p) := by
  refine ⟨?_, ?_, ?_⟩
  · intro hal h3 h6 hb
    have hc : p.state ≠ 3 ∧ p.state ≠ 6 ∧ p.is_blocking = false := ⟨h3, h6, hb⟩
    simp only [derive_state, if_pos hal, if_pos hc]
    split_ifs <;> rfl
  · intro hal hor
    have hc : ¬ (p.state ≠ 3 ∧ p.state ≠ 6 ∧ p.is_blocking = false) := by
      rintro ⟨h3, h6, hb⟩
      rcases hor with h | h | h
      · rw [hb] at h
        exact Bool.false_ne_true h
      · exact h3 h
      · exact h6 h
    simp only [derive_state, if_pos hal, if_neg hc]
  · intro hz
    exact derive_state_dead p (by omega)

/-- Witness for C28: Player 1 at round-start values is derived to Idle. -/
theorem derive_state_rule_witness :
    (derive_state start_p1).state =
      (if start_p1.on_ground = false then 2
       else if start_p1.is_crouching = true then 5
       else if |start_p1.vx| > 1 / 2 then 1
       else 0) :=
  (derive_state_rule start_p1).1 (by decide) (by decide) (by decide) rfl

/-- The body boxes overlap exactly when the players are less than 30 apart along x
and less than 40 apart along y. -/
lemma body_boxes_overlap_iff (p1 p2 : Player) :
    boxes_overlap (get_body_box p1) (get_body_box p2) = true ↔
      |p1.x - p2.x| < 30 ∧ |p1.y - p2.y| < 40 := by
  simp only [boxes_overlap, get_body_box, decide_eq_true_eq, abs_lt]
  constructor
  · rintro ⟨h1, h2, h3, h4⟩
    refine ⟨⟨?_, ?_⟩, ⟨?_, ?_⟩⟩ <;> linarith
  · rintro ⟨⟨h1, h2⟩, ⟨h3, h4⟩⟩
    refine ⟨?_, ?_, ?_, ?_⟩ <;> linarith

/-- C21: there is a fight state (both players alive, 40 units apart, facing each
other, on the ground, Player 1 in Attack with attack frame 1, Player 2 idle with
attack cooldown 0) and an input (Player 2 presses attack) for which one tick first
takes 5 health from Player 2 by Player 1's melee hit, has both players attacking
just before the clash check, and ends with both attacks clash-cancelled (both Idle,
both attack frames 0) and Player 2 still 5 health down. -/
theorem hit_and_clash_same_tick :
    ∃ (g : Game) (i : Input),
      g.p1.health > 0 ∧ g.p2.health > 0 ∧ g.p2.x - g.p1.x = 40 ∧
      g.p1.facing = 1 ∧ g.p2.facing = -1 ∧ g.p1.on_ground = true ∧ g.p2.on_ground = true ∧
      g.p1.state = 3 ∧ g.p1.attack_frame = 1 ∧ g.p2.state = 0 ∧ g.p2_attack_cooldown = 0 ∧
      i.p2.bt1 = true ∧
      p1_melee_loss no_config i g = 5 ∧
      attacking (before_clash no_config i g).p1 ∧
      attacking (before_clash no_config i g).p2 ∧
      (fight_tick no_config i g).p1.state = 0 ∧
      (fight_tick no_config i g).p1.attack_frame = 0 ∧
      (fight_tick no_config i g).p2.state = 0 ∧
      (fight_tick no_config i g).p2.attack_frame = 0 ∧
      (fight_tick no_config i g).p2.health = g.p2.health - 5 := by
  refine ⟨hit_and_clash_game, p2_attack_input, by decide, by decide, ?_, rfl, rfl, rfl, rfl,
    rfl, rfl, rfl, rfl, rfl, ?_, ?_, ?_, ?_⟩
  · norm_num [hit_and_clash_game, start_game, start_p1, start_p2]
  · norm_num [p1_melee_loss, p1_at_attack_step, read_input, move_input, attack_step,
      tick_cooldown, boxes_overlap, get_hitbox, get_hurtbox, find_collision_box_config,
      no_config, hitbox_fallback, hurtbox_fallback, hurtbox_state_id, melee_damage,
      BLOCKED_DAMAGE, NORMAL_DAMAGE, hit_and_clash_game, start_game, start_p1, start_p2,
      empty_pool, idle_projectile, p2_attack_input, no_keys]
  · norm_num [attacking, before_clash, settle_stage, update_p1, update_p2, player_update,
      read_input, move_input, attack_step, special_step, physics_step, body_collision,
      update_anim, derive_state, tick_cooldown, get_body_box, boxes_overlap, get_hitbox,
      get_hurtbox, find_collision_box_config, no_config, hitbox_fallback, hurtbox_fallback,
      hurtbox_state_id, melee_damage, BLOCKED_DAMAGE, NORMAL_DAMAGE, hit_and_clash_game,
      start_game, start_p1, start_p2, empty_pool, idle_projectile, p2_attack_input, no_keys]
  · norm_num [attacking, before_clash, settle_stage, update_p1, update_p2, player_update,
      read_input, move_input, attack_step, special_step, physics_step, body_collision,
      update_anim, derive_state, tick_cooldown, get_body_box, boxes_overlap, get_hitbox,
      get_hurtbox, find_collision_box_config, no_config, hitbox_fallback, hurtbox_fallback,
      hurtbox_state_id, melee_damage, BLOCKED_DAMAGE, NORMAL_DAMAGE, hit_and_clash_game,
      start_game, start_p1, start_p2, empty_pool, idle_projectile, p2_attack_input, no_keys]
  · norm_num [fight_tick, before_clash, settle_stage, update_p1, update_p2, player_update,
      read_input, move_input, attack_step, special_step, physics_step, body_collision,
      update_anim, derive_state, attack_clash, projectile_stage, update_projectiles,
      update_projectile, round_controller, tick_cooldown, get_body_box, boxes_overlap,
      get_clash_box, get_hitbox, get_hurtbox, find_collision_box_config, no_config,
      hitbox_fallback, hurtbox_fallback, hurtbox_state_id, melee_damage, BLOCKED_DAMAGE,
      NORMAL_DAMAGE, hit_and_clash_game, start_game, start_p1, start_p2, empty_pool,
      idle_projectile, p2_attack_input, no_keys]

/-! ### Score during the transition -/

/-- A tick that starts with the transition timer running keeps both counters and
counts the timer down by one. -/
lemma fight_tick_in_transition (cfg : Configs) (i : Input) (g : Game)
    (h : g.round_transition_timer > 0) :
    (fight_tick cfg i g).p1_rounds_won = g.p1_rounds_won ∧
    (fight_tick cfg i g).p2_rounds_won = g.p2_rounds_won ∧
    (fight_tick cfg i g).round_transition_timer = g.round_transition_timer - 1 := by
  obtain ⟨_, _, c3, c4, c5, _, _⟩ := pre_controller_control cfg i g
  have hpos : (projectile_stage cfg (attack_clash (before_clash cfg i g))).round_transition_timer
      > 0 := by omega
  simp only [fight_tick, round_controller, if_pos hpos]
  split_ifs <;> exact ⟨c4, c5, by rw [c3]⟩

/-- A tick that starts with no transition running either awards nothing or awards
exactly one round to exactly one player and starts the transition. -/
lemma fight_tick_award (cfg : Configs) (i : Input) (g : Game)
    (h : g.round_transition_timer = 0) :
    ((fight_tick cfg i g).round_transition_timer = 0 ∧
      (fight_tick cfg i g).p1_rounds_won = g.p1_rounds_won ∧
      (fight_tick cfg i g).p2_rounds_won = g.p2_rounds_won) ∨
    ((fight_tick cfg i g).round_transition_timer = 120 ∧
      (((fight_tick cfg i g).p1_rounds_won = g.p1_rounds_won + 1 ∧
        (fight_tick cfg i g).p2_rounds_won = g.p2_rounds_won) ∨
       ((fight_tick cfg i g).p1_rounds_won = g.p1_rounds_won ∧
        (fight_tick cfg i g).p2_rounds_won = g.p2_rounds_won + 1))) := by
  obtain ⟨_, _, c3, c4, c5, _, _⟩ := pre_controller_control cfg i g
  have hz : ¬ (projectile_stage cfg (attack_clash (before_clash cfg i g))).round_transition_timer
      > 0 := by omega
  simp only [fight_tick, round_controller, if_neg hz]
  split_ifs
  · exact Or.inr ⟨rfl, Or.inr ⟨c4, by rw [c5]⟩⟩
  · exact Or.inr ⟨rfl, Or.inl ⟨by rw [c4], c5⟩⟩
  · exact Or.inl ⟨by rw [c3, h], c4, c5⟩

lemma run_ticks_keeps_score (cfg : Configs) :
    ∀ (inputs : List Input) (g : Game), (inputs.length : Int) ≤ g.round_transition_timer →
      (run_ticks cfg g inputs).p1_rounds_won = g.p1_rounds_won ∧
      (run_ticks cfg g inputs).p2_rounds_won = g.p2_rounds_won := by
  intro inputs
  induction inputs with
  | nil => intro g _; exact ⟨rfl, rfl⟩
  | cons i rest ih =>
    intro g hlen
    rw [List.length_cons, Nat.cast_add, Nat.cast_one] at hlen
    obtain ⟨c1, c2, c3⟩ := fight_tick_in_transition cfg i g (by omega)
    obtain ⟨d1, d2⟩ := ih (fight_tick cfg i g) (by omega)
    have e : run_ticks cfg g (i :: rest) = run_ticks cfg (fight_tick cfg i g) rest := rfl
    rw [e]
    exact ⟨d1.trans c1, d2.trans c2⟩

/-- C23: a fight tick that starts with `round_transition_timer > 0` changes neither
`p1_rounds_won` nor `p2_rounds_won`, whatever the inputs do to the players; a tick
that starts with the timer at 0 either awards nothing or adds exactly 1 to exactly
one counter and sets the timer to 120; and through all 120 ticks of the transition
that follows, both counters stay as they are.  So each round awards exactly one
round win. -/
theorem transition_keeps_score (cfg : Configs) (g : Game) :
    (∀ i : Input, g.round_transition_timer > 0 →
      (fight_tick cfg i g).p1_rounds_won = g.p1_rounds_won ∧
      (fight_tick cfg i g).p2_rounds_won = g.p2_rounds_won) ∧
    (∀ i : Input, g.round_transition_timer = 0 →
      ((fight_tick cfg i g).round_transition_timer = 0 ∧
        (fight_tick cfg i g).p1_rounds_won = g.p1_rounds_won ∧
        (fight_tick cfg i g).p2_rounds_won = g.p2_rounds_won) ∨
      ((fight_tick cfg i g).round_transition_timer = 120 ∧
        (((fight_tick cfg i g).p1_rounds_won = g.p1_rounds_won + 1 ∧
          (fight_tick cfg i g).p2_rounds_won = g.p2_rounds_won) ∨
         ((fight_tick cfg i g).p1_rounds_won = g.p1_rounds_won ∧
          (fight_tick cfg i g).p2_rounds_won = g.p2_rounds_won + 1)))) ∧
    (∀ inputs : List Input, g.round_transition_timer = 120 → inputs.length ≤ 120 →
      (run_ticks cfg g inputs).p1_rounds_won = g.p1_rounds_won ∧
      (run_ticks cfg g inputs).p2_rounds_won = g.p2_rounds_won) := by
  refine ⟨?_, ?_, ?_⟩
  · intro i h
    exact ⟨(fight_tick_in_transition cfg i g h).1, (fight_tick_in_transition cfg i g h).2.1⟩
  · intro i h
    exact fight_tick_award cfg i g h
  · intro inputs ht hlen
    exact run_ticks_keeps_score cfg inputs g (by rw [ht]; exact_mod_cast hlen)

/-- Witness for C23: Player 1 knocked out at score 0-1 with the transition just
started; 120 idle ticks leave the score at 0-1. -/
theorem transition_keeps_score_witness :
    (run_ticks no_config transition_game idle_inputs).p1_rounds_won
      = transition_game.p1_rounds_won ∧
    (run_ticks no_config transition_game idle_inputs).p2_rounds_won
      = transition_game.p2_rounds_won :=
  (transition_keeps_score no_config transition_game).2.2 idle_inputs rfl
    (by simp [idle_inputs])

/-! ### Projectile lifetime -/

lemma update_projectile_lifetime (cfg : Configs) (p1 p2 : Player) (pr : Projectile) (n : Int)
    (h : lifetime_within (n + 1) pr) :
    lifetime_within n (update_projectile cfg p1 p2 pr).2.2 := by
  unfold lifetime_within at h ⊢
  by_cases ha : pr.active = false
  · simp only [update_projectile, if_pos ha]
    intro hact
    rw [ha] at hact
    exact absurd hact Bool.false_ne_true
  · have hact0 : pr.active = true := by simpa using ha
    have hb := h hact0
    by_cases hout : pr.x + pr.vx < 0 ∨ pr.x + pr.vx > 640 ∨ pr.y + pr.vy < 0 ∨
        pr.y + pr.vy > 480 ∨ pr.lifetime - 1 ≤ 0
    · simp only [update_projectile, if_neg ha, if_pos hout]
      intro hact
      exact absurd hact Bool.false_ne_true
    · have hl : ¬ pr.lifetime - 1 ≤ 0 := fun hl => hout (Or.inr (Or.inr (Or.inr (Or.inr hl))))
      simp only [update_projectile, if_neg ha, if_neg hout, projectile_hit]
      split_ifs <;> intro hact <;> dsimp only at * <;>
        first
          | exact absurd hact Bool.false_ne_true
          | omega

lemma update_projectiles_lifetime (cfg : Configs) (n : Int) :
    ∀ (pool : List Projectile) (p1 p2 : Player),
      (∀ pr ∈ pool, lifetime_within (n + 1) pr) →
      ∀ pr ∈ (update_projectiles cfg p1 p2 pool).2.2, lifetime_within n pr := by
  intro pool
  induction pool with
  | nil =>
    intro p1 p2 _ pr hpr
    simp only [update_projectiles, List.not_mem_nil] at hpr
  | cons q rest ih =>
    intro p1 p2 h pr hpr
    simp only [update_projectiles, List.mem_cons] at hpr
    rcases hpr with e | hmem
    · rw [e]
      exact update_projectile_lifetime cfg p1 p2 q n (h q (List.mem_cons_self _ _))
    · exact ih _ _ (fun r hr => h r (List.mem_cons_of_mem _ hr)) pr hmem

lemma projectile_calls_lifetime (cfg : Configs) (players : Nat → Player × Player) :
    ∀ (n : Nat) (pool : List Projectile),
      (∀ pr ∈ pool, lifetime_within (n : Int) pr) →
      ∀ pr ∈ projectile_calls cfg players n pool, pr.active = false := by
  intro n
  induction n with
  | zero =>
    intro pool h pr hpr
    have h2 := h pr hpr
    unfold lifetime_within at h2
    by_contra hact
    have h3 := h2 (by simpa using hact)
    simp only [Nat.cast_zero] at h3
    omega
  | succ m ih =>
    intro pool h pr hpr
    simp only [projectile_calls] at hpr
    refine ih _ ?_ pr hpr
    refine update_projectiles_lifetime cfg (m : Int) pool _ _ ?_
    intro q hq
    have h2 := h q hq
    simpa using h2

/-- C30: in the loop body of `update_projectiles`, an active projectile whose
lifetime after the decrement is at most 0, or whose position after moving has
`x < 0`, `x > 640`, `y < 0` or `y > 480`, becomes inactive and both players are
returned as they were (no hit test, no damage); a freshly spawned projectile has
lifetime 180; and in a pool whose active projectiles have between 1 and 180 ticks of
lifetime left, every slot is inactive after 180 calls of `update_projectiles`,
whatever the velocities and whatever the players are at each call. -/
theorem projectile_expires (cfg : Configs) :
    (∀ (p1 p2 : Player) (pr : Projectile), pr.active = true →
      (pr.x + pr.vx < 0 ∨ pr.x + pr.vx > 640 ∨ pr.y + pr.vy < 0 ∨ pr.y + pr.vy > 480 ∨
        pr.lifetime - 1 ≤ 0) →
      (update_projectile cfg p1 p2 pr).1 = p1 ∧ (update_projectile cfg p1 p2 pr).2.1 = p2 ∧
      (update_projectile cfg p1 p2 pr).2.2.active = false) ∧
    (∀ (owner type : Int) (x y vx vy : ℚ),
      (new_projectile owner type x y vx vy).lifetime = 180) ∧
    (∀ (players : Nat → Player × Player) (pool : List Projectile),
      (∀ pr ∈ pool, pr.active = true → 1 ≤ pr.lifetime ∧ pr.lifetime ≤ 180) →
      ∀ pr ∈ projectile_calls cfg players 180 pool, pr.active = false) := by
  refine ⟨?_, ?_, ?_⟩
  · intro p1 p2 pr hact hout
    have ha : ¬ pr.active = false := by simp [hact]
    simp only [update_projectile, if_neg ha, if_pos hout, and_self]
  · intro owner type x y vx vy
    rfl
  · intro players pool h
    exact projectile_calls_lifetime cfg players 180 pool (fun pr hpr => h pr hpr)

/-- Witness for C30: a projectile on its last tick of lifetime, well inside the
screen and far from both players, is switched off and nobody is touched. -/
theorem projectile_expires_witness :
    (update_projectile no_config start_p1 start_p2 expiring_projectile).1 = start_p1 ∧
    (update_projectile no_config start_p1 start_p2 expiring_projectile).2.1 = start_p2 ∧
    (update_projectile no_config start_p1 start_p2 expiring_projectile).2.2.active = false :=
  (projectile_expires no_config).1 start_p1 start_p2 expiring_projectile rfl
    (Or.inr (Or.inr (Or.inr (Or.inr (by decide)))))

/-! ### The projectile special -/

lemma active_count_set (np : Projectile) (hnp : np.active = true) :
    ∀ (pool : List Projectile) (i : Nat) (hi : i < pool.length),
      (pool.get ⟨i, hi⟩).active = false →
      active_count (pool.set i np) = active_count pool + 1 := by
  intro pool
  induction pool with
  | nil => intro i hi; exact absurd hi (Nat.not_lt_zero _)
  | cons p ps ih =>
    intro i hi hfree
    cases i with
    | zero =>
      have hp : p.active = false := hfree
      simp [active_count, List.countP_cons, hp, hnp]
    | succ k =>
      have hk : k < ps.length := Nat.lt_of_succ_lt_succ hi
      have hrec := ih k hk hfree
      unfold active_count at hrec ⊢
      simp only [List.set_cons_succ, List.countP_cons, hrec]
      omega

/-- C24 (as stated, refuted): a caster with character 0 at `x = 150` facing left,
with the opponent to its right at `x = 490` and an empty pool, spawns its projectile
at `x = 120` with horizontal velocity `-8`, away from the opponent. -/
theorem execute_special_move_fire_counterexample :
    fire_away_duel.self.character_id = 0 ∧ fire_away_duel.opp.x > fire_away_duel.self.x ∧
    (execute_special_move fire_away_duel 0).pool =
      [{ active := true, x := 120, y := 350, vx := -8, vy := 0, owner := 0, type := 0,
         lifetime := 180, hitbox := { x := 105, y := 335, w := 30, h := 30 } },
       idle_projectile, idle_projectile, idle_projectile] := by
  refine ⟨rfl, ?_, ?_⟩
  · norm_num [fire_away_duel, start_p1, start_p2]
  · norm_num [execute_special_move, spawn_projectile, new_projectile, fire_away_duel, start_p1,
      start_p2, empty_pool, idle_projectile]

/-- C24 (amended): for a caster with `character_id` 0 and a pool whose lowest
inactive slot is `i`, `execute_special_move` writes into slot `i` one projectile
owned by the caster at `(caster.x + 30 * facing, caster.y)` with vertical velocity 0
and horizontal velocity `8 * facing` (magnitude 8 in the direction the caster faces
when `facing` is 1 or -1), changes no other slot, raises the number of active
projectiles by exactly 1 and leaves the opponent unchanged. -/
theorem execute_special_move_fire (d : Duel) (player_num : Int) (i : Nat)
    (hc : d.self.character_id = 0) (hi : i < d.pool.length)
    (hfree : (d.pool.get ⟨i, hi⟩).active = false)
    (hfirst : ∀ (j : Nat) (hj : j < d.pool.length), j < i →
      (d.pool.get ⟨j, hj⟩).active = true) :
    (execute_special_move d player_num).pool =
      d.pool.set i
        { active := true, x := d.self.x + 30 * (d.self.facing : ℚ), y := d.self.y,
          vx := 8 * (d.self.facing : ℚ), vy := 0, owner := player_num, type := 0,
          lifetime := 180,
          hitbox := { x := d.self.x + 30 * (d.self.facing : ℚ) - 15, y := d.self.y - 15,
                      w := 30, h := 30 } } ∧
    active_count (execute_special_move d player_num).pool = active_count d.pool + 1 ∧
    (execute_special_move d player_num).opp = d.opp ∧
    (d.self.facing = 1 ∨ d.self.facing = -1 → |8 * (d.self.facing : ℚ)| = 8) := by
  have hspawn := spawn_projectile_first_free player_num 0
    (d.self.x + 30 * (d.self.facing : ℚ)) d.self.y (8 * (d.self.facing : ℚ)) 0 d.pool i hi
    hfree hfirst
  have hpool : (execute_special_move d player_num).pool =
      d.pool.set i (new_projectile player_num 0 (d.self.x + 30 * (d.self.facing : ℚ)) d.self.y
        (8 * (d.self.facing : ℚ)) 0) := by
    simp only [execute_special_move, if_pos hc, hspawn]
  refine ⟨hpool, ?_, ?_, ?_⟩
  · rw [hpool]
    exact active_count_set _ rfl d.pool i hi hfree
  · simp only [execute_special_move, if_pos hc]
  · rintro (h | h)
    · rw [h]
      norm_num
    · rw [h]
      norm_num

/-- Witness for C24 (amended): the caster facing left with an empty pool; the
projectile lands in slot 0. -/
theorem execute_special_move_fire_witness :
    active_count (execute_special_move fire_away_duel 0).pool
      = active_count fire_away_duel.pool + 1 ∧
    (execute_special_move fire_away_duel 0).opp = fire_away_duel.opp :=
  ⟨(execute_special_move_fire fire_away_duel 0 0 rfl (by decide) rfl
      (fun _ _ hj => absurd hj (Nat.not_lt_zero _))).2.1,
   (execute_special_move_fire fire_away_duel 0 0 rfl (by decide) rfl
      (fun _ _ hj => absurd hj (Nat.not_lt_zero _))).2.2.1⟩

/-! ### The dash -/

lemma only_health_differs_dash {p q : Player} (h : only_health_differs p q) :
    dash_fields q = dash_fields p ∧ q.character_id = p.character_id := by
  unfold only_health_differs at h
  rw [h]
  exact ⟨rfl, rfl⟩

lemma move_input_dash (k : Keys) (p : Player) :
    dash_fields (move_input k p) = dash_fields p := by
  simp only [move_input, dash_fields]
  split_ifs <;> rfl

/-- The player that enters the special block has the dash fields and character it
had at the start of its update, and the block flag just read from the keys. -/
lemma special_entry (cfg : Configs) (k : Keys) (d : Duel) :
    dash_fields (attack_step cfg (read_input k d)).self = dash_fields d.self ∧
    (attack_step cfg (read_input k d)).self.character_id = d.self.character_id ∧
    (attack_step cfg (read_input k d)).self.is_blocking = k.bt2 := by
  have hm := move_input_frame k d.self
  have hd := move_input_dash k d.self
  have hr : dash_fields (read_input k d).self = dash_fields d.self ∧
      (read_input k d).self.character_id = d.self.character_id ∧
      (read_input k d).self.is_blocking = k.bt2 := by
    simp only [read_input]
    split_ifs <;> exact ⟨hd, hm.2.2.2.2, hm.1⟩
  have ha : dash_fields (attack_step cfg (read_input k d)).self
        = dash_fields (read_input k d).self ∧
      (attack_step cfg (read_input k d)).self.character_id
        = (read_input k d).self.character_id ∧
      (attack_step cfg (read_input k d)).self.is_blocking
        = (read_input k d).self.is_blocking := by
    simp only [attack_step]
    split_ifs <;> exact ⟨rfl, rfl, rfl⟩
  exact ⟨ha.1.trans hr.1, ha.2.1.trans hr.2.1, ha.2.2.trans hr.2.2⟩

/-- The dash handling forces `vx` exactly when the player enters the special block
dashing. -/
lemma special_step_vx (k : Keys) (n : Int) (d : Duel) :
    (d.self.is_dashing = true →
      (special_step k n d).self.vx = WIND_DASH_SPEED * (d.self.facing : ℚ)) ∧
    (d.self.is_dashing = false → (special_step k n d).self.vx = d.self.vx) := by
  have he : ∀ e : Duel, (execute_special_move e n).self.vx = e.self.vx := by
    intro e
    simp only [execute_special_move]
    split_ifs <;> rfl
  refine ⟨fun h => ?_, fun h => ?_⟩
  · simp only [special_step]
    split_ifs <;> (try rw [he]) <;> (try dsimp only at *)
  · simp only [special_step]
    split_ifs <;> (try rw [he]) <;> (try dsimp only at *) <;>
      first | rfl | (exfalso; simp_all)

lemma cast_dash_fields (e : Duel) (n : Int) (hc : e.self.character_id = 3) :
    dash_fields (execute_special_move e n).self = (true, 15, 180) := by
  have h0 : ¬ e.self.character_id = 0 := by omega
  have h1 : ¬ e.self.character_id = 1 := by omega
  have h2 : ¬ e.self.character_id = 2 := by omega
  simp only [execute_special_move, if_neg h0, if_neg h1, if_neg h2, if_pos hc]
  split_ifs <;> rfl

/-- The special block when the cast fires for character 3. -/
lemma special_step_cast (k : Keys) (n : Int) (d : Duel)
    (hc : d.self.character_id = 3)
    (h : k.bt3 = true ∧ tick_cooldown d.self.special_move_cooldown = 0 ∧
      d.self.is_blocking = false) :
    dash_fields (special_step k n d).self = (true, 15, 180) := by
  obtain ⟨hb, hz, hbl⟩ := h
  unfold tick_cooldown at hz
  simp only [special_step]
  split_ifs at hz <;> split_ifs <;>
    first
    | exact cast_dash_fields _ _ hc
    | (exfalso; rename_i hn; (try dsimp only at *); apply hn; refine ⟨hb, ?_, hbl⟩; omega)

/-- The special block when the cast does not fire: the cooldown ticks down and a
running dash counts down, ending when its timer reaches 0. -/
lemma special_step_no_cast (k : Keys) (n : Int) (d : Duel)
    (h : ¬ (k.bt3 = true ∧ tick_cooldown d.self.special_move_cooldown = 0 ∧
      d.self.is_blocking = false)) :
    (special_step k n d).self.special_move_cooldown
      = tick_cooldown d.self.special_move_cooldown ∧
    (d.self.is_dashing = true →
      (special_step k n d).self.dash_timer = d.self.dash_timer - 1 ∧
      ((special_step k n d).self.is_dashing = true ↔ 0 < d.self.dash_timer - 1)) ∧
    (d.self.is_dashing = false →
      (special_step k n d).self.is_dashing = false ∧
      (special_step k n d).self.dash_timer = d.self.dash_timer) := by
  unfold tick_cooldown at h ⊢
  by_cases hs : d.self.special_move_cooldown > 0 <;> by_cases hd : d.self.is_dashing = true <;>
    by_cases ht : d.self.dash_timer - 1 ≤ 0 <;>
    simp only [hs, if_true, if_false] at h <;>
    simp only [special_step, hs, hd, ht, h, if_true, if_false, true_implies, false_implies,
      Bool.false_eq_true, and_true, true_and, and_self, Bool.true_eq_false, iff_true, false_iff,
      true_iff, iff_false, not_lt, Bool.not_eq_true] <;>
    first | trivial | omega

lemma special_step_facing (k : Keys) (n : Int) (d : Duel) :
    (special_step k n d).self.facing = d.self.facing := by
  have he : ∀ e : Duel, (execute_special_move e n).self.facing = e.self.facing := by
    intro e
    simp only [execute_special_move]
    split_ifs <;> rfl
  simp only [special_step]
  split_ifs <;> (try rw [he]) <;> (try dsimp only at *)

lemma physics_step_dash (p : Player) : dash_fields (physics_step p) = dash_fields p := by
  simp only [physics_step, dash_fields]
  split_ifs <;> rfl

/-- The update block of a living player when its cast fires for character 3. -/
lemma player_update_cast (cfg : Configs) (k : Keys) (n : Int) (d : Duel)
    (hc : d.self.character_id = 3)
    (h : k.bt3 = true ∧ tick_cooldown d.self.special_move_cooldown = 0 ∧ k.bt2 = false) :
    dash_fields (player_update cfg k n d).self = (true, 15, 180) := by
  obtain ⟨e1, e2, e3⟩ := special_entry cfg k d
  have e4 : (attack_step cfg (read_input k d)).self.special_move_cooldown
      = d.self.special_move_cooldown := congrArg (fun t => t.2.2) e1
  have hs := special_step_cast k n (attack_step cfg (read_input k d)) (e2.trans hc)
    ⟨h.1, by rw [e4]; exact h.2.1, e3.trans h.2.2⟩
  simp only [player_update]
  rw [physics_step_dash]
  exact hs

/-- The update block of a living player when its cast does not fire. -/
lemma player_update_no_cast (cfg : Configs) (k : Keys) (n : Int) (d : Duel)
    (h : ¬ (k.bt3 = true ∧ tick_cooldown d.self.special_move_cooldown = 0 ∧ k.bt2 = false)) :
    (player_update cfg k n d).self.special_move_cooldown
      = tick_cooldown d.self.special_move_cooldown ∧
    (d.self.is_dashing = true →
      (player_update cfg k n d).self.dash_timer = d.self.dash_timer - 1 ∧
      ((player_update cfg k n d).self.is_dashing = true ↔ 0 < d.self.dash_timer - 1)) ∧
    (d.self.is_dashing = false →
      (player_update cfg k n d).self.is_dashing = false ∧
      (player_update cfg k n d).self.dash_timer = d.self.dash_timer) := by
  obtain ⟨e1, e2, e3⟩ := special_entry cfg k d
  have e4 : (attack_step cfg (read_input k d)).self.special_move_cooldown
      = d.self.special_move_cooldown := congrArg (fun t => t.2.2) e1
  have e5 : (attack_step cfg (read_input k d)).self.is_dashing = d.self.is_dashing :=
    congrArg (fun t => t.1) e1
  have e6 : (attack_step cfg (read_input k d)).self.dash_timer = d.self.dash_timer :=
    congrArg (fun t => t.2.1) e1
  have hs := special_step_no_cast k n (attack_step cfg (read_input k d))
    (by rw [e4, e3]; exact h)
  rw [e4, e5, e6] at hs
  have hp := physics_step_dash (special_step k n (attack_step cfg (read_input k d))).self
  have p1 : (player_update cfg k n d).self.is_dashing
      = (special_step k n (attack_step cfg (read_input k d))).self.is_dashing :=
    congrArg (fun t => t.1) hp
  have p2 : (player_update cfg k n d).self.dash_timer
      = (special_step k n (attack_step cfg (read_input k d))).self.dash_timer :=
    congrArg (fun t => t.2.1) hp
  have p3 : (player_update cfg k n d).self.special_move_cooldown
      = (special_step k n (attack_step cfg (read_input k d))).self.special_move_cooldown :=
    congrArg (fun t => t.2.2) hp
  rw [p1, p2, p3]
  exact hs

lemma settle_stage_dash (g : Game) :
    dash_fields (settle_stage g).p1 = dash_fields g.p1 ∧
    dash_fields (settle_stage g).p2 = dash_fields g.p2 := by
  have hb : dash_fields (body_collision g).p1 = dash_fields g.p1 ∧
      dash_fields (body_collision g).p2 = dash_fields g.p2 := by
    simp only [body_collision]
    split_ifs <;> exact ⟨rfl, rfl⟩
  have ha : ∀ p : Player, dash_fields (update_anim p) = dash_fields p := by
    intro p
    simp only [update_anim]
    split_ifs <;> rfl
  have hd : ∀ p : Player, dash_fields (derive_state p) = dash_fields p := by
    intro p
    simp only [derive_state]
    split_ifs <;> rfl
  exact ⟨(hd _).trans ((ha _).trans hb.1), (hd _).trans ((ha _).trans hb.2)⟩

lemma attack_clash_dash (g : Game) :
    dash_fields (attack_clash g).p1 = dash_fields g.p1 ∧
    dash_fields (attack_clash g).p2 = dash_fields g.p2 := by
  simp only [attack_clash]
  split_ifs <;> exact ⟨rfl, rfl⟩

lemma projectile_stage_dash (cfg : Configs) (g : Game) :
    dash_fields (projectile_stage cfg g).p1 = dash_fields g.p1 ∧
    dash_fields (projectile_stage cfg g).p2 = dash_fields g.p2 := by
  obtain ⟨h1, h2⟩ := update_projectiles_only_health cfg g.projectiles g.p1 g.p2
  exact ⟨(only_health_differs_dash h1).1, (only_health_differs_dash h2).1⟩

/-- The shared stages of a tick in which no new round starts leave the dash fields
of both players as the player updates left them. -/
lemma tail_dash (cfg : Configs) (g : Game) (hr : ¬ round_reset_due g) :
    dash_fields (round_controller (projectile_stage cfg (attack_clash (settle_stage g)))).p1
      = dash_fields g.p1 ∧
    dash_fields (round_controller (projectile_stage cfg (attack_clash (settle_stage g)))).p2
      = dash_fields g.p2 := by
  obtain ⟨a1, a2⟩ := settle_stage_dash g
  obtain ⟨b1, b2⟩ := attack_clash_dash (settle_stage g)
  obtain ⟨c1, c2⟩ := projectile_stage_dash cfg (attack_clash (settle_stage g))
  obtain ⟨_, _, s3, s4, s5, _, _⟩ :=
    same_control_trans (settle_stage_control g)
      (same_control_trans (attack_clash_control _) (projectile_stage_control cfg _))
  have hr2 : ¬ ((projectile_stage cfg (attack_clash (settle_stage g))).round_transition_timer = 1
      ∧ ¬ ((projectile_stage cfg (attack_clash (settle_stage g))).p1_rounds_won ≥ 2 ∨
           (projectile_stage cfg (attack_clash (settle_stage g))).p2_rounds_won ≥ 2)) := by
    rw [s3, s4, s5]
    exact hr
  obtain ⟨d1, d2⟩ := round_controller_no_reset _ hr2
  rw [d1, d2]
  exact ⟨c1.trans (b1.trans a1), c2.trans (b2.trans a2)⟩

lemma update_p2_keeps_p1 (cfg : Configs) (k : Keys) (g : Game) :
    only_health_differs g.p1 (update_p2 cfg k g).p1 := by
  simp only [update_p2]
  split_ifs
  · exact player_update_opp_only_health cfg k 1 _
  · exact only_health_differs_refl _

lemma update_p1_keeps_p2 (cfg : Configs) (k : Keys) (g : Game) :
    only_health_differs g.p2 (update_p1 cfg k g).p2 := by
  simp only [update_p1]
  split_ifs
  · exact player_update_opp_only_health cfg k 0 _
  · exact only_health_differs_refl _

lemma update_reset_due (cfg : Configs) (i : Input) (g : Game) (hr : ¬ round_reset_due g) :
    ¬ round_reset_due (update_p2 cfg i.p2 (update_p1 cfg i.p1 g)) := by
  obtain ⟨_, _, s3, s4, s5, _, _⟩ :=
    same_control_trans (update_p1_control cfg i.p1 g) (update_p2_control cfg i.p2 _)
  unfold round_reset_due at hr ⊢
  rw [s3, s4, s5]
  exact hr

/-- In a tick without a round reset, a living Player 1 ends the tick with the dash
fields its own update produced. -/
lemma p1_dash_tick (cfg : Configs) (i : Input) (g : Game) (hl : g.p1.health > 0)
    (hr : ¬ round_reset_due g) :
    dash_fields (fight_tick cfg i g).p1
      = dash_fields (player_update cfg i.p1 0
          { self := g.p1, opp := g.p2, cooldown := tick_cooldown g.p1_attack_cooldown,
            pool := g.projectiles }).self := by
  rw [fight_tick_eq, (tail_dash cfg _ (update_reset_due cfg i g hr)).1,
    (only_health_differs_dash (update_p2_keeps_p1 cfg i.p2 _)).1]
  simp only [update_p1, if_pos hl]

/-- In a tick without a round reset, a Player 2 that is alive at its update ends
the tick with the dash fields its own update produced. -/
lemma p2_dash_tick (cfg : Configs) (i : Input) (g : Game)
    (hl : (update_p1 cfg i.p1 g).p2.health > 0) (hr : ¬ round_reset_due g) :
    dash_fields (fight_tick cfg i g).p2
      = dash_fields (player_update cfg i.p2 1
          { self := (update_p1 cfg i.p1 g).p2, opp := (update_p1 cfg i.p1 g).p1,
            cooldown := tick_cooldown (update_p1 cfg i.p1 g).p2_attack_cooldown,
            pool := (update_p1 cfg i.p1 g).projectiles }).self := by
  rw [fight_tick_eq, (tail_dash cfg _ (update_reset_due cfg i g hr)).2]
  simp only [update_p2, if_pos hl]
/-- The dash schedule that a player carries into tick `n ≥ 1` after a cast in tick 0:
cooldown `181 - n` (0 once it has run out), dashing with timer `16 - n` up to tick 15
and not dashing afterwards. -/
lemma dash_schedule_start (cfg : Configs) (k : Keys) (pn : Int) (d : Duel)
    (hc : d.self.character_id = 3)
    (h : k.bt3 = true ∧ tick_cooldown d.self.special_move_cooldown = 0 ∧ k.bt2 = false) :
    (player_update cfg k pn d).self.special_move_cooldown = max (180 - ((0 : Nat) : Int)) 0 ∧
    (0 < 15 → (player_update cfg k pn d).self.is_dashing = true ∧
      (player_update cfg k pn d).self.dash_timer = 15 - ((0 : Nat) : Int)) ∧
    (15 ≤ 0 → (player_update cfg k pn d).self.is_dashing = false) := by
  have hf := player_update_cast cfg k pn d hc h
  have f1 : (player_update cfg k pn d).self.is_dashing = true := congrArg (fun t => t.1) hf
  have f2 : (player_update cfg k pn d).self.dash_timer = 15 := congrArg (fun t => t.2.1) hf
  have f3 : (player_update cfg k pn d).self.special_move_cooldown = 180 :=
    congrArg (fun t => t.2.2) hf
  refine ⟨?_, fun _ => ⟨f1, ?_⟩, fun h15 => absurd h15 (by decide)⟩
  · rw [f3]; rfl
  · rw [f2]; rfl

lemma dash_schedule_step (cfg : Configs) (k : Keys) (pn : Int) (d : Duel) (n : Nat)
    (h1 : d.self.special_move_cooldown = max (180 - (n : Int)) 0)
    (h2 : n < 15 → d.self.is_dashing = true ∧ d.self.dash_timer = 15 - (n : Int))
    (h3 : 15 ≤ n → d.self.is_dashing = false)
    (hk : 180 ≤ n + 1 → k.bt3 = false) :
    (player_update cfg k pn d).self.special_move_cooldown
      = max (180 - ((n + 1 : Nat) : Int)) 0 ∧
    (n + 1 < 15 → (player_update cfg k pn d).self.is_dashing = true ∧
      (player_update cfg k pn d).self.dash_timer = 15 - ((n + 1 : Nat) : Int)) ∧
    (15 ≤ n + 1 → (player_update cfg k pn d).self.is_dashing = false) := by
  have hno : ¬ (k.bt3 = true ∧ tick_cooldown d.self.special_move_cooldown = 0 ∧
      k.bt2 = false) := by
    rintro ⟨hb, hz, _⟩
    by_cases hn : 180 ≤ n + 1
    · rw [hk hn] at hb
      exact Bool.false_ne_true hb
    · rw [h1] at hz
      unfold tick_cooldown at hz
      simp only [max_def] at hz
      split_ifs at hz <;> omega
  obtain ⟨s1, s2, s3⟩ := player_update_no_cast cfg k pn d hno
  refine ⟨?_, ?_, ?_⟩
  · rw [s1, h1]
    unfold tick_cooldown
    simp only [max_def]
    push_cast
    split_ifs <;> omega
  · intro hn
    obtain ⟨a1, a2⟩ := h2 (by omega)
    obtain ⟨b1, b2⟩ := s2 a1
    refine ⟨b2.2 (by rw [a2]; omega), ?_⟩
    rw [b1, a2]
    push_cast
    omega
  · intro hn
    by_cases hlt : n < 15
    · obtain ⟨a1, a2⟩ := h2 hlt
      obtain ⟨_, b2⟩ := s2 a1
      by_contra hne
      have ht : (player_update cfg k pn d).self.is_dashing = true := by
        simpa using hne
      have := b2.1 ht
      rw [a2] at this
      omega
    · exact (s3 (h3 (by omega))).1

/-- Along a dash that Player 1 casts in tick 0: as long as Player 1 is alive at the
start of each later tick, no round reset occurs and the special button is not
pressed again once the cooldown has run out, Player 1 enters tick `n + 1` with the
dash schedule. -/
lemma p1_dash_trace (cfg : Configs) (g : Game) (inputs : Nat → Input)
    (h0 : p1_dash_cast (inputs 0) g) :
    ∀ n : Nat,
      (∀ j : Nat, 1 ≤ j → j ≤ n → (state_after cfg g inputs j).p1.health > 0) →
      (∀ j : Nat, j ≤ n → ¬ round_reset_due (state_after cfg g inputs j)) →
      (∀ j : Nat, 180 ≤ j → j ≤ n → (inputs j).p1.bt3 = false) →
      (state_after cfg g inputs (n + 1)).p1.special_move_cooldown = max (180 - (n : Int)) 0 ∧
      (n < 15 → (state_after cfg g inputs (n + 1)).p1.is_dashing = true ∧
        (state_after cfg g inputs (n + 1)).p1.dash_timer = 15 - (n : Int)) ∧
      (15 ≤ n → (state_after cfg g inputs (n + 1)).p1.is_dashing = false) := by
  intro n
  induction n with
  | zero =>
    intro _ hres _
    obtain ⟨hl, hc, hb⟩ := h0
    have ht := p1_dash_tick cfg (inputs 0) (state_after cfg g inputs 0) hl (hres 0 (le_refl _))
    have hs := dash_schedule_start cfg (inputs 0).p1 0
      { self := g.p1, opp := g.p2, cooldown := tick_cooldown g.p1_attack_cooldown,
        pool := g.projectiles } hc hb
    rw [state_after_succ]
    have f1 := congrArg (fun t => t.1) ht
    have f2 := congrArg (fun t => t.2.1) ht
    have f3 := congrArg (fun t => t.2.2) ht
    simp only [dash_fields] at f1 f2 f3
    rw [f1, f2, f3]
    exact hs
  | succ m ih =>
    intro hal hres hk
    obtain ⟨i1, i2, i3⟩ := ih (fun j a b => hal j a (Nat.le_succ_of_le b))
      (fun j b => hres j (Nat.le_succ_of_le b)) (fun j a b => hk j a (Nat.le_succ_of_le b))
    have hl := hal (m + 1) (Nat.succ_pos _) (le_refl _)
    have ht := p1_dash_tick cfg (inputs (m + 1)) (state_after cfg g inputs (m + 1)) hl
      (hres (m + 1) (le_refl _))
    have hs := dash_schedule_step cfg (inputs (m + 1)).p1 0
      { self := (state_after cfg g inputs (m + 1)).p1,
        opp := (state_after cfg g inputs (m + 1)).p2,
        cooldown := tick_cooldown (state_after cfg g inputs (m + 1)).p1_attack_cooldown,
        pool := (state_after cfg g inputs (m + 1)).projectiles } m i1 i2 i3
      (fun h => hk (m + 1) h (le_refl _))
    rw [state_after_succ cfg g inputs (m + 1)]
    have f1 := congrArg (fun t => t.1) ht
    have f2 := congrArg (fun t => t.2.1) ht
    have f3 := congrArg (fun t => t.2.2) ht
    simp only [dash_fields] at f1 f2 f3
    rw [f1, f2, f3]
    exact hs

/-- The same for Player 2, which must be alive when its update runs (after Player
1's update of the same tick). -/
lemma p2_dash_trace (cfg : Configs) (g : Game) (inputs : Nat → Input)
    (h0 : p2_dash_cast cfg (inputs 0) g) :
    ∀ n : Nat,
      (∀ j : Nat, 1 ≤ j → j ≤ n →
        (update_p1 cfg (inputs j).p1 (state_after cfg g inputs j)).p2.health > 0) →
      (∀ j : Nat, j ≤ n → ¬ round_reset_due (state_after cfg g inputs j)) →
      (∀ j : Nat, 180 ≤ j → j ≤ n → (inputs j).p2.bt3 = false) →
      (state_after cfg g inputs (n + 1)).p2.special_move_cooldown = max (180 - (n : Int)) 0 ∧
      (n < 15 → (state_after cfg g inputs (n + 1)).p2.is_dashing = true ∧
        (state_after cfg g inputs (n + 1)).p2.dash_timer = 15 - (n : Int)) ∧
      (15 ≤ n → (state_after cfg g inputs (n + 1)).p2.is_dashing = false) := by
  have keep : ∀ (i : Input) (s : Game),
      (update_p1 cfg i.p1 s).p2.is_dashing = s.p2.is_dashing ∧
      (update_p1 cfg i.p1 s).p2.dash_timer = s.p2.dash_timer ∧
      (update_p1 cfg i.p1 s).p2.special_move_cooldown = s.p2.special_move_cooldown ∧
      (update_p1 cfg i.p1 s).p2.character_id = s.p2.character_id := by
    intro i s
    obtain ⟨e, ec⟩ := only_health_differs_dash (update_p1_keeps_p2 cfg i.p1 s)
    exact ⟨congrArg (fun t => t.1) e, congrArg (fun t => t.2.1) e,
      congrArg (fun t => t.2.2) e, ec⟩
  intro n
  induction n with
  | zero =>
    intro _ hres _
    obtain ⟨hl, hc, hb, hz, hbl⟩ := h0
    obtain ⟨_, _, k3, k4⟩ := keep (inputs 0) g
    have ht := p2_dash_tick cfg (inputs 0) (state_after cfg g inputs 0) hl (hres 0 (le_refl _))
    have hs := dash_schedule_start cfg (inputs 0).p2 1
      { self := (update_p1 cfg (inputs 0).p1 g).p2, opp := (update_p1 cfg (inputs 0).p1 g).p1,
        cooldown := tick_cooldown (update_p1 cfg (inputs 0).p1 g).p2_attack_cooldown,
        pool := (update_p1 cfg (inputs 0).p1 g).projectiles } (k4.trans hc)
      ⟨hb, by rw [k3]; exact hz, hbl⟩
    rw [state_after_succ]
    have f1 := congrArg (fun t => t.1) ht
    have f2 := congrArg (fun t => t.2.1) ht
    have f3 := congrArg (fun t => t.2.2) ht
    simp only [dash_fields] at f1 f2 f3
    rw [f1, f2, f3]
    exact hs
  | succ m ih =>
    intro hal hres hk
    obtain ⟨i1, i2, i3⟩ := ih (fun j a b => hal j a (Nat.le_succ_of_le b))
      (fun j b => hres j (Nat.le_succ_of_le b)) (fun j a b => hk j a (Nat.le_succ_of_le b))
    have hl := hal (m + 1) (Nat.succ_pos _) (le_refl _)
    obtain ⟨k1, k2, k3, _⟩ := keep (inputs (m + 1)) (state_after cfg g inputs (m + 1))
    have ht := p2_dash_tick cfg (inputs (m + 1)) (state_after cfg g inputs (m + 1)) hl
      (hres (m + 1) (le_refl _))
    have hs := dash_schedule_step cfg (inputs (m + 1)).p2 1
      { self := (update_p1 cfg (inputs (m + 1)).p1 (state_after cfg g inputs (m + 1))).p2,
        opp := (update_p1 cfg (inputs (m + 1)).p1 (state_after cfg g inputs (m + 1))).p1,
        cooldown := tick_cooldown
          (update_p1 cfg (inputs (m + 1)).p1 (state_after cfg g inputs (m + 1))).p2_attack_cooldown,
        pool := (update_p1 cfg (inputs (m + 1)).p1 (state_after cfg g inputs (m + 1))).projectiles }
      m (k3.trans i1) (fun h => ⟨k1.trans (i2 h).1, k2.trans (i2 h).2⟩)
      (fun h => k1.trans (i3 h)) (fun h => hk (m + 1) h (le_refl _))
    rw [state_after_succ cfg g inputs (m + 1)]
    have f1 := congrArg (fun t => t.1) ht
    have f2 := congrArg (fun t => t.2.1) ht
    have f3 := congrArg (fun t => t.2.2) ht
    simp only [dash_fields] at f1 f2 f3
    rw [f1, f2, f3]
    exact hs

/-- C27 (as stated, refuted): Player 1 (character 3, alive throughout) casts the dash
in the last tick of a round transition at score 1-0; the round controller of that
same tick starts the next round and re-initialises both players, so Player 1 ends
the cast tick alive with `is_dashing = false`. -/
theorem dash_timing_counterexample :
    p1_dash_cast p1_special_input last_transition_tick_game ∧
    (fight_tick no_config p1_special_input last_transition_tick_game).p1.health > 0 ∧
    (fight_tick no_config p1_special_input last_transition_tick_game).p1.is_dashing = false := by
  refine ⟨by unfold p1_dash_cast; decide, ?_, ?_⟩ <;>
  norm_num [fight_tick, before_clash, settle_stage, update_p1, update_p2, player_update,
    read_input, move_input, attack_step, special_step, execute_special_move, special_damage,
    physics_step, body_collision, update_anim, derive_state, attack_clash, projectile_stage,
    update_projectiles, update_projectile, round_controller, init_player, tick_cooldown,
    get_body_box, boxes_overlap, get_clash_box, last_transition_tick_game, start_game,
    start_p1, start_p2, empty_pool, idle_projectile, p1_special_input, no_keys,
    WIND_DASH_DURATION, WIND_DASH_SPEED, WIND_DASH_HIT_RANGE, WIND_DASH_DAMAGE,
    SPECIAL_MOVE_COOLDOWN, BLOCKED_DAMAGE]

/-- The sample dash after its cast tick: Player 1 is alive and no round transition
is running. -/
lemma dash_game_after_cast :
    (state_after no_config dash_game dash_inputs 1).p1.health > 0 ∧
    (state_after no_config dash_game dash_inputs 1).round_transition_timer = 0 := by
  rw [state_after_succ]
  have h0 : state_after no_config dash_game dash_inputs 0 = dash_game := rfl
  have hi : dash_inputs 0 = p1_special_input := rfl
  rw [h0, hi]
  constructor <;>
  norm_num [fight_tick, before_clash, settle_stage, update_p1, update_p2, player_update,
    read_input, move_input, attack_step, special_step, execute_special_move, special_damage,
    physics_step, body_collision, update_anim, derive_state, attack_clash, projectile_stage,
    update_projectiles, update_projectile, round_controller, init_player, tick_cooldown,
    get_body_box, boxes_overlap, get_clash_box, dash_game, start_game,
    start_p1, start_p2, empty_pool, idle_projectile, p1_special_input, no_keys,
    WIND_DASH_DURATION, WIND_DASH_SPEED, WIND_DASH_HIT_RANGE, WIND_DASH_DAMAGE,
    SPECIAL_MOVE_COOLDOWN, BLOCKED_DAMAGE]

/-- C27 (amended): a player of character 3 casts the dash in tick 0 (tick `T`).
Provided the caster is alive when its update runs in each later tick, no round
reset (the controller re-initialising both players) occurs, and the caster does
not press the special button again once the 180-tick cooldown has run out, then
for every `n ≥ 1` the caster enters tick `n` (ends tick `n - 1`) with
`is_dashing = true` exactly when `n ≤ 15`, with `dash_timer = 16 - n` up to then;
on ticks `1 .. 15` its update sets `vx` to `12 * facing` before physics and from
tick 16 on the dash block leaves `vx` as the input handling and attack block left
it.  Stated for Player 1 and for Player 2. -/
theorem dash_timing (cfg : Configs) (g : Game) (inputs : Nat → Input) :
    (p1_dash_cast (inputs 0) g →
      ∀ n : Nat, 1 ≤ n →
        (∀ j : Nat, 1 ≤ j → j < n → (state_after cfg g inputs j).p1.health > 0) →
        (∀ j : Nat, j < n → ¬ round_reset_due (state_after cfg g inputs j)) →
        (∀ j : Nat, 180 ≤ j → j < n → (inputs j).p1.bt3 = false) →
        ((state_after cfg g inputs n).p1.is_dashing = true ↔ n ≤ 15) ∧
        (n ≤ 15 → (state_after cfg g inputs n).p1.dash_timer = 16 - (n : Int)) ∧
        (n ≤ 15 → (p1_before_physics cfg (inputs n) (state_after cfg g inputs n)).vx
          = 12 * ((p1_before_physics cfg (inputs n) (state_after cfg g inputs n)).facing : ℚ)) ∧
        (16 ≤ n → (p1_before_physics cfg (inputs n) (state_after cfg g inputs n)).vx
          = (attack_step cfg
              (p1_at_attack_step (inputs n) (state_after cfg g inputs n))).self.vx)) ∧
    (p2_dash_cast cfg (inputs 0) g →
      ∀ n : Nat, 1 ≤ n →
        (∀ j : Nat, 1 ≤ j → j < n →
          (update_p1 cfg (inputs j).p1 (state_after cfg g inputs j)).p2.health > 0) →
        (∀ j : Nat, j < n → ¬ round_reset_due (state_after cfg g inputs j)) →
        (∀ j : Nat, 180 ≤ j → j < n → (inputs j).p2.bt3 = false) →
        ((state_after cfg g inputs n).p2.is_dashing = true ↔ n ≤ 15) ∧
        (n ≤ 15 → (state_after cfg g inputs n).p2.dash_timer = 16 - (n : Int)) ∧
        (n ≤ 15 → (p2_before_physics cfg (inputs n) (state_after cfg g inputs n)).vx
          = 12 * ((p2_before_physics cfg (inputs n) (state_after cfg g inputs n)).facing : ℚ)) ∧
        (16 ≤ n → (p2_before_physics cfg (inputs n) (state_after cfg g inputs n)).vx
          = (attack_step cfg
              (p2_at_attack_step cfg (inputs n) (state_after cfg g inputs n))).self.vx)) := by
  have fin : ∀ (q : Player) (m : Nat),
      (m < 15 → q.is_dashing = true ∧ q.dash_timer = 15 - (m : Int)) →
      (15 ≤ m → q.is_dashing = false) →
      (q.is_dashing = true ↔ m + 1 ≤ 15) ∧ (m + 1 ≤ 15 → q.dash_timer = 16 - ((m + 1 : Nat) : Int)) := by
    intro q m a b
    refine ⟨⟨fun h => ?_, fun h => (a (by omega)).1⟩, fun h => ?_⟩
    · by_contra hn
      rw [b (by omega)] at h
      exact Bool.false_ne_true h
    · rw [(a (by omega)).2]
      push_cast
      omega
  have force : ∀ (k : Keys) (pn : Int) (d : Duel),
      (d.self.is_dashing = true →
        (special_step k pn d).self.vx = 12 * ((special_step k pn d).self.facing : ℚ)) ∧
      (d.self.is_dashing = false → (special_step k pn d).self.vx = d.self.vx) := by
    intro k pn d
    obtain ⟨v1, v2⟩ := special_step_vx k pn d
    refine ⟨fun h => ?_, v2⟩
    rw [v1 h, special_step_facing]
    rfl
  refine ⟨?_, ?_⟩
  · intro h0 n hn hal hres hk
    obtain ⟨m, rfl⟩ : ∃ m, n = m + 1 := ⟨n - 1, by omega⟩
    obtain ⟨_, t2, t3⟩ := p1_dash_trace cfg g inputs h0 m
      (fun j a b => hal j a (by omega)) (fun j b => hres j (by omega))
      (fun j a b => hk j a (by omega))
    obtain ⟨r1, r2⟩ := fin _ m t2 t3
    have he : (attack_step cfg (p1_at_attack_step (inputs (m + 1))
        (state_after cfg g inputs (m + 1)))).self.is_dashing
        = (state_after cfg g inputs (m + 1)).p1.is_dashing :=
      congrArg (fun t => t.1) (special_entry cfg (inputs (m + 1)).p1
        { self := (state_after cfg g inputs (m + 1)).p1,
          opp := (state_after cfg g inputs (m + 1)).p2,
          cooldown := tick_cooldown (state_after cfg g inputs (m + 1)).p1_attack_cooldown,
          pool := (state_after cfg g inputs (m + 1)).projectiles }).1
    refine ⟨r1, r2, fun h => ?_, fun h => ?_⟩
    · exact (force _ _ _).1 (he.trans (r1.2 h))
    · exact (force _ _ _).2 (he.trans (t3 (by omega)))
  · intro h0 n hn hal hres hk
    obtain ⟨m, rfl⟩ : ∃ m, n = m + 1 := ⟨n - 1, by omega⟩
    obtain ⟨_, t2, t3⟩ := p2_dash_trace cfg g inputs h0 m
      (fun j a b => hal j a (by omega)) (fun j b => hres j (by omega))
      (fun j a b => hk j a (by omega))
    obtain ⟨r1, r2⟩ := fin _ m t2 t3
    have hu : (update_p1 cfg (inputs (m + 1)).p1 (state_after cfg g inputs (m + 1))).p2.is_dashing
        = (state_after cfg g inputs (m + 1)).p2.is_dashing :=
      congrArg (fun t => t.1)
        (only_health_differs_dash (update_p1_keeps_p2 cfg (inputs (m + 1)).p1 _)).1
    have he : (attack_step cfg (p2_at_attack_step cfg (inputs (m + 1))
        (state_after cfg g inputs (m + 1)))).self.is_dashing
        = (state_after cfg g inputs (m + 1)).p2.is_dashing :=
      (congrArg (fun t => t.1) (special_entry cfg (inputs (m + 1)).p2
        { self := (update_p1 cfg (inputs (m + 1)).p1 (state_after cfg g inputs (m + 1))).p2,
          opp := (update_p1 cfg (inputs (m + 1)).p1 (state_after cfg g inputs (m + 1))).p1,
          cooldown := tick_cooldown
            (update_p1 cfg (inputs (m + 1)).p1
              (state_after cfg g inputs (m + 1))).p2_attack_cooldown,
          pool := (update_p1 cfg (inputs (m + 1)).p1
            (state_after cfg g inputs (m + 1))).projectiles }).1).trans hu
    refine ⟨r1, r2, fun h => ?_, fun h => ?_⟩
    · exact (force _ _ _).1 (he.trans (r1.2 h))
    · exact (force _ _ _).2 (he.trans (t3 (by omega)))

/-- Witness for C27: Player 1 (character 3) casts the dash in tick 0 at a round
start and releases the button; it enters tick 2 dashing with `dash_timer = 14`. -/
theorem dash_timing_witness :
    p1_dash_cast (dash_inputs 0) dash_game ∧
    (state_after no_config dash_game dash_inputs 2).p1.is_dashing = true ∧
    (state_after no_config dash_game dash_inputs 2).p1.dash_timer = 16 - ((2 : Nat) : Int) :=
  have hal : ∀ j : Nat, 1 ≤ j → j < 2 →
      (state_after no_config dash_game dash_inputs j).p1.health > 0 := by
    intro j a b
    obtain rfl : j = 1 := by omega
    exact dash_game_after_cast.1
  have hres : ∀ j : Nat, j < 2 →
      ¬ round_reset_due (state_after no_config dash_game dash_inputs j) := by
    intro j b hr
    rcases j with _ | _ | j
    · exact absurd hr (by decide)
    · have h1 : (state_after no_config dash_game dash_inputs 1).round_transition_timer = 1 :=
        hr.1
      rw [dash_game_after_cast.2] at h1
      exact absurd h1 (by decide)
    · omega
  have hk : ∀ j : Nat, 180 ≤ j → j < 2 → (dash_inputs j).p1.bt3 = false := by
    intro j a b
    omega
  ⟨by unfold p1_dash_cast; decide,
   ((dash_timing no_config dash_game dash_inputs).1 (by unfold p1_dash_cast; decide) 2
      (by decide) hal hres hk).1.2 (by decide),
   ((dash_timing no_config dash_game dash_inputs).1 (by unfold p1_dash_cast; decide) 2
      (by decide) hal hres hk).2.1 (by decide)⟩

/-! ### Horizontal bounds -/

lemma physics_step_x (p : Player) : 20 ≤ (physics_step p).x ∧ (physics_step p).x ≤ 620 := by
  simp only [physics_step]
  split_ifs <;> dsimp only at * <;> constructor <;> linarith

lemma only_health_differs_x {p q : Player} (h : only_health_differs p q) : q.x = p.x := by
  unfold only_health_differs at h
  rw [h]

lemma settle_stage_x (g : Game) :
    (g.p1.x - 2 ≤ (settle_stage g).p1.x ∧ (settle_stage g).p1.x ≤ g.p1.x + 2 ∧
      (settle_stage g).p1.health = g.p1.health) ∧
    (g.p2.x - 2 ≤ (settle_stage g).p2.x ∧ (settle_stage g).p2.x ≤ g.p2.x + 2 ∧
      (settle_stage g).p2.health = g.p2.health) := by
  have hb : (g.p1.x - 2 ≤ (body_collision g).p1.x ∧ (body_collision g).p1.x ≤ g.p1.x + 2) ∧
      (g.p2.x - 2 ≤ (body_collision g).p2.x ∧ (body_collision g).p2.x ≤ g.p2.x + 2) := by
    simp only [body_collision]
    split_ifs <;> (try dsimp only) <;> refine ⟨⟨?_, ?_⟩, ⟨?_, ?_⟩⟩ <;> linarith
  have ha : ∀ p : Player, (update_anim p).x = p.x := by
    intro p
    simp only [update_anim]
    split_ifs <;> rfl
  have hd : ∀ p : Player, (derive_state p).x = p.x := by
    intro p
    simp only [derive_state]
    split_ifs <;> rfl
  have e1 : (settle_stage g).p1.x = (body_collision g).p1.x := (hd _).trans (ha _)
  have e2 : (settle_stage g).p2.x = (body_collision g).p2.x := (hd _).trans (ha _)
  have c1 : (settle_stage g).p1.health = g.p1.health :=
    (derive_state_health _).trans ((update_anim_health _).trans (body_collision_health g).1)
  have c2 : (settle_stage g).p2.health = g.p2.health :=
    (derive_state_health _).trans ((update_anim_health _).trans (body_collision_health g).2)
  rw [e1, e2]
  exact ⟨⟨hb.1.1, hb.1.2, c1⟩, ⟨hb.2.1, hb.2.2, c2⟩⟩

lemma attack_clash_x (g : Game) :
    (attack_clash g).p1.x = g.p1.x ∧ (attack_clash g).p2.x = g.p2.x := by
  simp only [attack_clash]
  split_ifs <;> exact ⟨rfl, rfl⟩

/-- The round controller either leaves both players alone or puts them back on their
round-start positions. -/
lemma round_controller_x (g : Game) :
    ((round_controller g).p1 = g.p1 ∧ (round_controller g).p2 = g.p2) ∨
    ((round_controller g).p1.x = 150 ∧ (round_controller g).p2.x = 490) := by
  simp only [round_controller, init_player]
  split_ifs <;> first | exact Or.inl ⟨rfl, rfl⟩ | exact Or.inr ⟨rfl, rfl⟩ | (exfalso; omega)

/-- A player that is alive after the shared stages of a tick is either on its
round-start position or was alive after the player updates and is at most 2 away
from where they left it. -/
lemma tail_x (cfg : Configs) (g : Game) :
    ((round_controller (projectile_stage cfg (attack_clash (settle_stage g)))).p1.health > 0 →
      (round_controller (projectile_stage cfg (attack_clash (settle_stage g)))).p1.x = 150 ∨
      (g.p1.health > 0 ∧
        g.p1.x - 2 ≤ (round_controller (projectile_stage cfg
          (attack_clash (settle_stage g)))).p1.x ∧
        (round_controller (projectile_stage cfg
          (attack_clash (settle_stage g)))).p1.x ≤ g.p1.x + 2)) ∧
    ((round_controller (projectile_stage cfg (attack_clash (settle_stage g)))).p2.health > 0 →
      (round_controller (projectile_stage cfg (attack_clash (settle_stage g)))).p2.x = 490 ∨
      (g.p2.health > 0 ∧
        g.p2.x - 2 ≤ (round_controller (projectile_stage cfg
          (attack_clash (settle_stage g)))).p2.x ∧
        (round_controller (projectile_stage cfg
          (attack_clash (settle_stage g)))).p2.x ≤ g.p2.x + 2)) := by
  obtain ⟨⟨a1, a2, a3⟩, ⟨b1, b2, b3⟩⟩ := settle_stage_x g
  obtain ⟨c1, c2⟩ := attack_clash_x (settle_stage g)
  obtain ⟨k1, k2⟩ := attack_clash_health (settle_stage g)
  obtain ⟨p1, p2⟩ := update_projectiles_only_health cfg (attack_clash (settle_stage g)).projectiles
    (attack_clash (settle_stage g)).p1 (attack_clash (settle_stage g)).p2
  obtain ⟨⟨_, _, _, f1⟩, ⟨_, _, _, f2⟩⟩ :=
    update_projectiles_frame cfg (attack_clash (settle_stage g)).projectiles
      (attack_clash (settle_stage g)).p1 (attack_clash (settle_stage g)).p2
  have x1 : (projectile_stage cfg (attack_clash (settle_stage g))).p1.x = (settle_stage g).p1.x :=
    (only_health_differs_x p1).trans c1
  have x2 : (projectile_stage cfg (attack_clash (settle_stage g))).p2.x = (settle_stage g).p2.x :=
    (only_health_differs_x p2).trans c2
  have l1 : (projectile_stage cfg (attack_clash (settle_stage g))).p1.health > 0 →
      g.p1.health > 0 := by
    intro h
    have := f1 h
    rw [k1, a3] at this
    exact this
  have l2 : (projectile_stage cfg (attack_clash (settle_stage g))).p2.health > 0 →
      g.p2.health > 0 := by
    intro h
    have := f2 h
    rw [k2, b3] at this
    exact this
  rcases round_controller_x (projectile_stage cfg (attack_clash (settle_stage g)))
    with ⟨r1, r2⟩ | ⟨r1, r2⟩
  · rw [r1, r2, x1, x2]
    exact ⟨fun h => Or.inr ⟨l1 h, a1, a2⟩, fun h => Or.inr ⟨l2 h, b1, b2⟩⟩
  · exact ⟨fun _ => Or.inl r1, fun _ => Or.inl r2⟩

/-- After any fight tick a living player has `18 ≤ x ≤ 622`. -/
lemma fight_tick_x (cfg : Configs) (i : Input) (g : Game) :
    ((fight_tick cfg i g).p1.health > 0 →
      18 ≤ (fight_tick cfg i g).p1.x ∧ (fight_tick cfg i g).p1.x ≤ 622) ∧
    ((fight_tick cfg i g).p2.health > 0 →
      18 ≤ (fight_tick cfg i g).p2.x ∧ (fight_tick cfg i g).p2.x ≤ 622) := by
  obtain ⟨t1, t2⟩ := tail_x cfg (update_p2 cfg i.p2 (update_p1 cfg i.p1 g))
  rw [fight_tick_eq]
  refine ⟨fun h => ?_, fun h => ?_⟩
  · rcases t1 h with e | ⟨hl, lo, hi⟩
    · rw [e]; norm_num
    · have hl1 := (update_p2_opp cfg i.p2 (update_p1 cfg i.p1 g)).2.2.1 hl
      have hl0 := (update_p1_self cfg i g hl1).1
      have ex := only_health_differs_x (update_p2_keeps_p1 cfg i.p2 (update_p1 cfg i.p1 g))
      have hp : 20 ≤ (update_p1 cfg i.p1 g).p1.x ∧ (update_p1 cfg i.p1 g).p1.x ≤ 620 := by
        simp only [update_p1, if_pos hl0, player_update]
        exact physics_step_x _
      rw [ex] at lo hi
      constructor <;> linarith [hp.1, hp.2]
  · rcases t2 h with e | ⟨hl, lo, hi⟩
    · rw [e]; norm_num
    · have hl1 := (update_p2_self cfg i g hl).1
      have hp : 20 ≤ (update_p2 cfg i.p2 (update_p1 cfg i.p1 g)).p2.x ∧
          (update_p2 cfg i.p2 (update_p1 cfg i.p1 g)).p2.x ≤ 620 := by
        simp only [update_p2, if_pos hl1, player_update]
        exact physics_step_x _
      constructor <;> linarith [hp.1, hp.2]
lemma walk_update (cfg : Configs) (n : Int) (d : Duel) (hs : steady d.self) :
    (player_update cfg left_keys n d).opp = d.opp ∧
    (player_update cfg left_keys n d).pool = d.pool ∧
    steady (player_update cfg left_keys n d).self ∧
    (player_update cfg left_keys n d).self.is_blocking = false ∧
    (d.self.x ≤ 623 → (player_update cfg left_keys n d).self.x = max 20 (d.self.x - 3)) := by
  obtain ⟨h1, h2, h3, h4, h5, h6⟩ := hs
  unfold attacking at h5
  have hr : read_input left_keys d = { d with self :=
      { d.self with is_crouching := false, is_blocking := false, vx := -3, facing := -1 } } := by
    simp [read_input, move_input, left_keys, no_keys]
  have ha : attack_step cfg (read_input left_keys d) = read_input left_keys d := by
    rw [hr]
    simp only [attack_step]
    rw [if_neg h5]
  have hb : left_keys.bt3 = false := rfl
  have hy : d.self.y + (d.self.vy + 1 / 2) ≥ 350 := by rw [h2, h3]; norm_num
  simp only [player_update]
  rw [ha, hr]
  by_cases hc : d.self.special_move_cooldown > 0 <;>
    simp only [special_step, hc, h6, hb, Bool.false_eq_true, if_false, if_true, false_and,
      physics_step, hy, steady, attacking, h1, h4] <;>
    split_ifs <;>
    refine ⟨trivial, trivial, ⟨?_, ?_, ?_, ?_, ?_, ?_⟩, ?_, fun hx => ?_⟩ <;>
    (try dsimp only at *) <;>
    first
    | rfl
    | exact h5
    | (simp only [max_def]; split_ifs <;> linarith)
lemma update_projectiles_idle (cfg : Configs) :
    ∀ (pool : List Projectile) (p1 p2 : Player), (∀ pr ∈ pool, pr.active = false) →
      update_projectiles cfg p1 p2 pool = (p1, p2, pool) := by
  intro pool
  induction pool with
  | nil => intro p1 p2 _; rfl
  | cons pr rest ih =>
    intro p1 p2 h
    have hp : pr.active = false := h pr (List.mem_cons_self _ _)
    have hu : update_projectile cfg p1 p2 pr = (p1, p2, pr) := by
      simp only [update_projectile, if_pos hp]
    have hrest := ih p1 p2 (fun q hq => h q (List.mem_cons_of_mem _ hq))
    simp only [update_projectiles, hu, hrest]

lemma steady_update_anim (p : Player) (h : steady p) :
    steady (update_anim p) ∧ (update_anim p).x = p.x := by
  simp only [update_anim]
  split_ifs <;> exact ⟨h, rfl⟩

lemma steady_derive_state (p : Player) (h : steady p) :
    steady (derive_state p) ∧ (derive_state p).x = p.x := by
  obtain ⟨h1, h2, h3, h4, h5, h6⟩ := h
  unfold attacking at h5
  simp only [derive_state]
  split_ifs <;> refine ⟨⟨h1, h2, h3, h4, ?_, h6⟩, rfl⟩ <;> unfold attacking <;>
    (try dsimp only) <;> first | exact h5 | omega

/-- Body collision, animation and state derivation on a calm state: the players stay
steady; they keep their positions when at least 30 apart and are pushed 2 each when
closer with Player 1 on the left. -/
lemma settle_stage_calm (g : Game) (hc : calm g) :
    calm (settle_stage g) ∧
    (30 ≤ g.p2.x - g.p1.x →
      (settle_stage g).p1.x = g.p1.x ∧ (settle_stage g).p2.x = g.p2.x) ∧
    (0 < g.p2.x - g.p1.x → g.p2.x - g.p1.x < 30 →
      (settle_stage g).p1.x = g.p1.x - 2 ∧ (settle_stage g).p2.x = g.p2.x + 2) := by
  obtain ⟨s1, s2, ht, hp⟩ := hc
  have hov : boxes_overlap (get_body_box g.p1) (get_body_box g.p2) = true ↔
      |g.p1.x - g.p2.x| < 30 := by
    rw [body_boxes_overlap_iff, s1.2.1, s2.2.1]
    norm_num
  have hb : steady (body_collision g).p1 ∧ steady (body_collision g).p2 ∧
      (body_collision g).round_transition_timer = 0 ∧
      (body_collision g).projectiles = g.projectiles := by
    simp only [body_collision]
    split_ifs <;> exact ⟨s1, s2, ht, rfl⟩
  obtain ⟨b1, b2, b3, b4⟩ := hb
  obtain ⟨a1, ax1⟩ := steady_update_anim _ b1
  obtain ⟨a2, ax2⟩ := steady_update_anim _ b2
  obtain ⟨d1, dx1⟩ := steady_derive_state _ a1
  obtain ⟨d2, dx2⟩ := steady_derive_state _ a2
  have e1 : (settle_stage g).p1.x = (body_collision g).p1.x := dx1.trans ax1
  have e2 : (settle_stage g).p2.x = (body_collision g).p2.x := dx2.trans ax2
  refine ⟨⟨d1, d2, b3, ?_⟩, ?_, ?_⟩
  · intro pr hpr
    have : (settle_stage g).projectiles = g.projectiles := b4
    rw [this] at hpr
    exact hp pr hpr
  · intro hfar
    have hno : ¬ boxes_overlap (get_body_box g.p1) (get_body_box g.p2) = true := by
      rw [hov, abs_lt]
      intro h
      linarith [h.1]
    rw [e1, e2]
    simp only [body_collision, if_neg hno]
    exact ⟨trivial, trivial⟩
  · intro hpos hnear
    have hyes : boxes_overlap (get_body_box g.p1) (get_body_box g.p2) = true := by
      rw [hov, abs_lt]
      constructor <;> linarith
    have hlt : g.p1.x < g.p2.x := by linarith
    rw [e1, e2]
    simp only [body_collision, if_pos hyes, if_pos hlt]
    exact ⟨trivial, trivial⟩

/-- The shared stages of a tick on a calm state are body collision, animation and
state derivation only: no clash, no projectile, no round transition. -/
lemma tail_calm (cfg : Configs) (g : Game) (hc : calm g) :
    round_controller (projectile_stage cfg (attack_clash (settle_stage g))) = settle_stage g := by
  obtain ⟨⟨c1, c2, c3, c4⟩, _, _⟩ := settle_stage_calm g hc
  have hcl : attack_clash (settle_stage g) = settle_stage g := by
    have hn : ¬ (((settle_stage g).p1.state = 3 ∨ (settle_stage g).p1.state = 6) ∧
        ((settle_stage g).p2.state = 3 ∨ (settle_stage g).p2.state = 6)) :=
      fun h => c1.2.2.2.2.1 h.1
    simp only [attack_clash, if_neg hn]
  have hpr : projectile_stage cfg (settle_stage g) = settle_stage g := by
    simp only [projectile_stage, update_projectiles_idle cfg _ _ _ c4]
  have hrc : round_controller (settle_stage g) = settle_stage g := by
    have n1 : ¬ (settle_stage g).round_transition_timer > 0 := by rw [c3]; decide
    have n2 : ¬ ((settle_stage g).p1.health ≤ 0 ∨ (settle_stage g).p2.health ≤ 0) := by
      rw [c1.1, c2.1]; decide
    simp only [round_controller, if_neg n1, if_neg n2]
  rw [hcl, hpr, hrc]

/-- Both player updates on a calm state with both players holding left: each walks
3 to the left, stopped by the wall at 20. -/
lemma walk_updates (cfg : Configs) (g : Game) (hc : calm g)
    (h1 : g.p1.x ≤ 623) (h2 : g.p2.x ≤ 623) :
    calm (update_p2 cfg left_keys (update_p1 cfg left_keys g)) ∧
    (update_p2 cfg left_keys (update_p1 cfg left_keys g)).p1.x = max 20 (g.p1.x - 3) ∧
    (update_p2 cfg left_keys (update_p1 cfg left_keys g)).p2.x = max 20 (g.p2.x - 3) := by
  obtain ⟨s1, s2, ht, hp⟩ := hc
  have l1 : g.p1.health > 0 := by rw [s1.1]; decide
  obtain ⟨u1, u2, u3, _, u5⟩ := walk_update cfg 0
    { self := g.p1, opp := g.p2, cooldown := tick_cooldown g.p1_attack_cooldown,
      pool := g.projectiles } s1
  have f1 : (update_p1 cfg left_keys g).p2 = g.p2 := by
    simp only [update_p1, if_pos l1]
    exact u1
  have f2 : (update_p1 cfg left_keys g).projectiles = g.projectiles := by
    simp only [update_p1, if_pos l1]
    exact u2
  have f3 : steady (update_p1 cfg left_keys g).p1 ∧
      (update_p1 cfg left_keys g).p1.x = max 20 (g.p1.x - 3) := by
    simp only [update_p1, if_pos l1]
    exact ⟨u3, u5 h1⟩
  have f4 : (update_p1 cfg left_keys g).round_transition_timer = 0 := by
    simp only [update_p1, if_pos l1]
    exact ht
  have l2 : (update_p1 cfg left_keys g).p2.health > 0 := by rw [f1, s2.1]; decide
  obtain ⟨v1, v2, v3, _, v5⟩ := walk_update cfg 1
    { self := (update_p1 cfg left_keys g).p2, opp := (update_p1 cfg left_keys g).p1,
      cooldown := tick_cooldown (update_p1 cfg left_keys g).p2_attack_cooldown,
      pool := (update_p1 cfg left_keys g).projectiles } (by rw [f1]; exact s2)
  have g1 : (update_p2 cfg left_keys (update_p1 cfg left_keys g)).p1
      = (update_p1 cfg left_keys g).p1 := by
    simp only [update_p2, if_pos l2]
    exact v1
  have g2 : (update_p2 cfg left_keys (update_p1 cfg left_keys g)).projectiles
      = g.projectiles := by
    simp only [update_p2, if_pos l2]
    exact v2.trans f2
  have g3 : steady (update_p2 cfg left_keys (update_p1 cfg left_keys g)).p2 ∧
      (update_p2 cfg left_keys (update_p1 cfg left_keys g)).p2.x = max 20 (g.p2.x - 3) := by
    simp only [update_p2, if_pos l2]
    refine ⟨v3, ?_⟩
    have hx := v5 (by dsimp only; rw [f1]; exact h2)
    have e : (update_p1 cfg left_keys g).p2.x = g.p2.x := by rw [f1]
    exact hx.trans (by dsimp only; rw [e])
  have g4 : (update_p2 cfg left_keys (update_p1 cfg left_keys g)).round_transition_timer = 0 := by
    simp only [update_p2, if_pos l2]
    exact f4
  refine ⟨⟨?_, g3.1, g4, ?_⟩, ?_, g3.2⟩
  · rw [g1]; exact f3.1
  · rw [g2]; exact hp
  · rw [g1]; exact f3.2

/-- One tick of both players holding left from a calm state. -/
lemma walk_tick (cfg : Configs) (g : Game) (hc : calm g)
    (h1 : g.p1.x ≤ 623) (h2 : g.p2.x ≤ 623) :
    calm (fight_tick cfg both_left_input g) ∧
    (30 ≤ max 20 (g.p2.x - 3) - max 20 (g.p1.x - 3) →
      (fight_tick cfg both_left_input g).p1.x = max 20 (g.p1.x - 3) ∧
      (fight_tick cfg both_left_input g).p2.x = max 20 (g.p2.x - 3)) ∧
    (0 < max 20 (g.p2.x - 3) - max 20 (g.p1.x - 3) →
      max 20 (g.p2.x - 3) - max 20 (g.p1.x - 3) < 30 →
      (fight_tick cfg both_left_input g).p1.x = max 20 (g.p1.x - 3) - 2 ∧
      (fight_tick cfg both_left_input g).p2.x = max 20 (g.p2.x - 3) + 2) := by
  obtain ⟨w1, w2, w3⟩ := walk_updates cfg g hc h1 h2
  have hi1 : both_left_input.p1 = left_keys := rfl
  have hi2 : both_left_input.p2 = left_keys := rfl
  rw [fight_tick_eq, hi1, hi2, tail_calm cfg _ w1]
  obtain ⟨c, far, near⟩ := settle_stage_calm _ w1
  rw [w2, w3] at far near
  exact ⟨c, far, near⟩

/-- Both players hold left from the round start: for the first 146 ticks the state
stays calm, Player 1 walks to the wall at 20 and Player 2 walks 3 per tick. -/
lemma walk_left_trace (cfg : Configs) :
    ∀ k : Nat, k ≤ 146 →
      calm (state_after cfg start_game walk_left_inputs k) ∧
      (state_after cfg start_game walk_left_inputs k).p1.x = max 20 (150 - 3 * (k : ℚ)) ∧
      (state_after cfg start_game walk_left_inputs k).p2.x = 490 - 3 * (k : ℚ) := by
  intro k
  induction k with
  | zero =>
    intro _
    have h0 : state_after cfg start_game walk_left_inputs 0 = start_game := rfl
    rw [h0]
    refine ⟨?_, ?_, ?_⟩
    · norm_num [calm, steady, attacking, start_game, start_p1, start_p2, empty_pool,
        idle_projectile]
    · norm_num [start_game, start_p1]
    · norm_num [start_game, start_p2]
  | succ m ih =>
    intro hm
    obtain ⟨c, x1, x2⟩ := ih (by omega)
    have hq : (m : ℚ) + 1 ≤ 146 := by exact_mod_cast hm
    have hm0 : (0 : ℚ) ≤ (m : ℚ) := Nat.cast_nonneg m
    have b1 : (state_after cfg start_game walk_left_inputs m).p1.x ≤ 623 := by
      rw [x1, max_def]
      split_ifs <;> linarith
    have b2 : (state_after cfg start_game walk_left_inputs m).p2.x ≤ 623 := by
      rw [x2]
      linarith
    obtain ⟨c2, far, _⟩ := walk_tick cfg _ c b1 b2
    have hi : walk_left_inputs m = both_left_input := rfl
    have e1 : max 20 ((state_after cfg start_game walk_left_inputs m).p1.x - 3)
        = max 20 (150 - 3 * ((m + 1 : Nat) : ℚ)) := by
      rw [x1]
      push_cast
      simp only [max_def]
      split_ifs <;> linarith
    have e2 : max 20 ((state_after cfg start_game walk_left_inputs m).p2.x - 3)
        = 490 - 3 * ((m + 1 : Nat) : ℚ) := by
      rw [x2]
      push_cast
      simp only [max_def]
      split_ifs <;> linarith
    rw [state_after_succ, hi]
    rw [e1, e2] at far
    have hfar : 30 ≤ 490 - 3 * ((m + 1 : Nat) : ℚ) - max 20 (150 - 3 * ((m + 1 : Nat) : ℚ)) := by
      push_cast
      simp only [max_def]
      split_ifs <;> linarith
    exact ⟨c2, far hfar⟩

/-- Tick 147 of that walk: Player 2 arrives 29 away from Player 1, who stands at the
wall, and the body push moves the living Player 1 to `x = 18`. -/
lemma walk_left_end :
    (state_after no_config start_game walk_left_inputs 147).p1.health = 100 ∧
    (state_after no_config start_game walk_left_inputs 147).p1.x = 18 := by
  obtain ⟨c, x1, x2⟩ := walk_left_trace no_config 146 (le_refl _)
  have a1 : (state_after no_config start_game walk_left_inputs 146).p1.x = 20 := by
    rw [x1]; norm_num
  have a2 : (state_after no_config start_game walk_left_inputs 146).p2.x = 52 := by
    rw [x2]; norm_num
  obtain ⟨c2, _, near⟩ := walk_tick no_config _ c (by rw [a1]; norm_num) (by rw [a2]; norm_num)
  rw [a1, a2] at near
  have hi : walk_left_inputs 146 = both_left_input := rfl
  rw [state_after_succ, hi]
  refine ⟨c2.1.1, ?_⟩
  rw [(near (by norm_num) (by norm_num)).1]
  norm_num

/-- C26: at the end of every fight tick, from any state and so from every state
reachable from a round start, each player whose health is > 0 has `18 ≤ x ≤ 622`;
and `[20, 620]` is not an invariant of the end-of-tick state: from the round start
with both players holding left, tick 147 ends with Player 1 at full health at
`x = 18`, pushed off the clamp position 20 by the body collision of that tick. -/
theorem living_player_x_bounds (cfg : Configs) (g : Game) (inputs : Nat → Input) (n : Nat) :
    ((state_after cfg g inputs (n + 1)).p1.health > 0 →
      18 ≤ (state_after cfg g inputs (n + 1)).p1.x ∧
      (state_after cfg g inputs (n + 1)).p1.x ≤ 622) ∧
    ((state_after cfg g inputs (n + 1)).p2.health > 0 →
      18 ≤ (state_after cfg g inputs (n + 1)).p2.x ∧
      (state_after cfg g inputs (n + 1)).p2.x ≤ 622) ∧
    ((state_after no_config start_game walk_left_inputs 147).p1.health > 0 ∧
      (state_after no_config start_game walk_left_inputs 147).p1.x < 20) := by
  refine ⟨?_, ?_, ?_⟩
  · rw [state_after_succ]
    exact (fight_tick_x cfg (inputs n) _).1
  · rw [state_after_succ]
    exact (fight_tick_x cfg (inputs n) _).2
  · obtain ⟨h, x⟩ := walk_left_end
    rw [h, x]
    norm_num

/-- Witness for C26: the end of tick 147 of the walk to the left, where the living
Player 1 stands at `x = 18`, inside `[18, 622]`. -/
theorem living_player_x_bounds_witness :
    (state_after no_config start_game walk_left_inputs (146 + 1)).p1.health > 0 ∧
    18 ≤ (state_after no_config start_game walk_left_inputs (146 + 1)).p1.x ∧
    (state_after no_config start_game walk_left_inputs (146 + 1)).p1.x ≤ 622 :=
  have h : (state_after no_config start_game walk_left_inputs (146 + 1)).p1.health > 0 := by
    have e := walk_left_end.1
    have e2 : (state_after no_config start_game walk_left_inputs (146 + 1)).p1.health = 100 := e
    rw [e2]
    decide
  ⟨h, (living_player_x_bounds no_config start_game walk_left_inputs 146).1 h⟩

end Hamoopi
